import Mathlib

/-!
# Glade design layout: pointer geometry and the activity state machine

A shallow embedding of `src/gladeui/glade-design-layout.c`.

* `gint` values are modelled as `Int`; arithmetic is exact (signed overflow is
  undefined in C and the inputs are pixel coordinates).
* The `Margins` bit set is a natural number combined with `|||` and tested with
  `&&&`, exactly like the C enum.
* The private structure `GladeDesignLayoutPrivate` becomes `Session`; the
  widget under margin/alignment edit is stored by value in `Session.selection`.
* Values that the handlers read from the toolkit (the child's allocation and
  preferred size, the allocation of the view and of the layout) are passed in
  an `Env` record, one per delivered event.
* Calls to the command collaborator are collected in a list of `Command`.
-/

namespace GladeDesignLayout

/-! ## Constants and enumerations -/

/-- The macro `OUTLINE_WIDTH`, defined as 4. -/
def OUTLINE_WIDTH : Int := 4

/-- The macro `PADDING`, defined as 12. -/
def PADDING : Int := 12

/-- The macro `MARGIN_STEP`, defined as 6. -/
def MARGIN_STEP : Int := 6

/-- The `Activity` enum of the source, in declaration order. -/
inductive Activity
  | ACTIVITY_NONE
  | ACTIVITY_RESIZE_WIDTH
  | ACTIVITY_RESIZE_HEIGHT
  | ACTIVITY_RESIZE_WIDTH_AND_HEIGHT
  | ACTIVITY_ALIGNMENTS
  | ACTIVITY_MARGINS
  | ACTIVITY_MARGINS_VERTICAL
  | ACTIVITY_MARGINS_HORIZONTAL
  | ACTIVITY_MARGINS_TOP_LEFT
  | ACTIVITY_MARGINS_TOP_RIGHT
  | ACTIVITY_MARGINS_BOTTOM_LEFT
  | ACTIVITY_MARGINS_BOTTOM_RIGHT
  deriving DecidableEq, Repr

open Activity

/-- The `Margins` flag enum: a bit set held in an integer. -/
abbrev Margins := Nat

/-- Flag `MARGIN_TOP = 1 << 0`. -/
def MARGIN_TOP : Margins := 1 <<< 0

/-- Flag `MARGIN_BOTTOM = 1 << 1`. -/
def MARGIN_BOTTOM : Margins := 1 <<< 1

/-- Flag `MARGIN_LEFT = 1 << 2`. -/
def MARGIN_LEFT : Margins := 1 <<< 2

/-- Flag `MARGIN_RIGHT = 1 << 3`. -/
def MARGIN_RIGHT : Margins := 1 <<< 3

/-- The C truth value of `margin & flag`. -/
def hasMargin (margin flag : Margins) : Bool := (margin &&& flag) != 0

/-- Modelled from the spec: the alignment enum `GtkAlign` is declared by the
toolkit; the spec lists the values Start, Center, End and Fill. -/
inductive GtkAlign
  | GTK_ALIGN_FILL
  | GTK_ALIGN_START
  | GTK_ALIGN_END
  | GTK_ALIGN_CENTER
  deriving DecidableEq, Repr

open GtkAlign

/-- Modelled from the spec: the pointer mode enum is declared outside this
file; the spec lists Select, DragResize, MarginEdit and AlignEdit. -/
inductive GladePointerMode
  | GLADE_POINTER_SELECT
  | GLADE_POINTER_DRAG_RESIZE
  | GLADE_POINTER_MARGIN_EDIT
  | GLADE_POINTER_ALIGN_EDIT
  deriving DecidableEq, Repr

open GladePointerMode

/-- The cursor glyphs allocated in `glade_design_layout_realize`. -/
inductive GdkCursor
  | GDK_BOTTOM_SIDE
  | GDK_RIGHT_SIDE
  | GDK_BOTTOM_RIGHT_CORNER
  | GDK_SB_V_DOUBLE_ARROW
  | GDK_SB_H_DOUBLE_ARROW
  | GDK_TOP_LEFT_CORNER
  | GDK_TOP_RIGHT_CORNER
  | GDK_BOTTOM_LEFT_CORNER
  deriving DecidableEq, Repr

open GdkCursor

/-- The table `priv->cursors[]` after `glade_design_layout_realize`: entries
that are never assigned keep the `NULL` written by `glade_design_layout_init`. -/
def cursors : Activity → Option GdkCursor
  | ACTIVITY_RESIZE_HEIGHT => some GDK_BOTTOM_SIDE
  | ACTIVITY_RESIZE_WIDTH => some GDK_RIGHT_SIDE
  | ACTIVITY_RESIZE_WIDTH_AND_HEIGHT => some GDK_BOTTOM_RIGHT_CORNER
  | ACTIVITY_MARGINS_VERTICAL => some GDK_SB_V_DOUBLE_ARROW
  | ACTIVITY_MARGINS_HORIZONTAL => some GDK_SB_H_DOUBLE_ARROW
  | ACTIVITY_MARGINS_TOP_LEFT => some GDK_TOP_LEFT_CORNER
  | ACTIVITY_MARGINS_TOP_RIGHT => some GDK_TOP_RIGHT_CORNER
  | ACTIVITY_MARGINS_BOTTOM_LEFT => some GDK_BOTTOM_LEFT_CORNER
  | ACTIVITY_MARGINS_BOTTOM_RIGHT => some GDK_BOTTOM_RIGHT_CORNER
  | _ => none

/-! ## Data model -/

/-- A `GdkRectangle` / `GtkAllocation`. -/
structure GdkRectangle where
  x : Int
  y : Int
  width : Int
  height : Int
  deriving DecidableEq, Repr

/-- A `GtkRequisition`. -/
structure GtkRequisition where
  width : Int
  height : Int
  deriving DecidableEq, Repr

/-- The names of the properties written through the command collaborator. -/
inductive PropertyName
  | margin_top
  | margin_bottom
  | margin_left
  | margin_right
  | valign
  | halign
  deriving DecidableEq, Repr

/-- The value carried by a property write. -/
inductive PropertyValue
  | int (v : Int)
  | align (a : GtkAlign)
  deriving DecidableEq, Repr

/-- The `GladeWidget` attached to a widget: its name and the properties for
which `glade_widget_get_property` returns a non-null result. -/
structure GladeWidget where
  name : String
  properties : List PropertyName
  deriving DecidableEq, Repr

/-- The toolkit state of the widget under margin/alignment edit that the
layout reads and writes: allocated size, origin translated to the layout
(`gtk_widget_translate_coordinates (widget, layout, 0, 0, &xx, &yy)`), the four
margins, both alignments and the result of `glade_widget_get_from_gobject`.
The field `id` stands for the address of the widget: two records denote the
same widget exactly when their `id` agree. -/
structure Widget where
  alloc_width : Int
  alloc_height : Int
  xx : Int
  yy : Int
  margin_top : Int
  margin_bottom : Int
  margin_left : Int
  margin_right : Int
  valign : GtkAlign
  halign : GtkAlign
  gwidget : Option GladeWidget
  id : Nat := 0
  deriving DecidableEq, Repr

/-- The fields of `GladeDesignLayoutPrivate` used by the pointer handlers,
together with the project's pointer mode. The field `window` tells whether
`priv->window` is set, which `glade_design_layout_realize` does. -/
structure Session where
  child_offset : Int
  east : GdkRectangle
  south : GdkRectangle
  south_east : GdkRectangle
  cursor : Option GdkCursor
  selection : Option Widget
  top : Int
  bottom : Int
  left : Int
  right : Int
  m_dy : Int
  m_dx : Int
  max_width : Int
  max_height : Int
  margin : Margins
  valign : GtkAlign
  halign : GtkAlign
  node_over : Margins
  activity : Activity
  dx : Int
  dy : Int
  drag_source : Option Widget
  drag_x : Int
  drag_y : Int
  pointer_mode : GladePointerMode
  window : Bool := true
  deriving DecidableEq, Repr

/-! ## Geometry and hit testing -/

/-- The macro `RECTANGLE_POINT_IN(rect,x,y)`, defined as
`(x >= rect.x && x <= (rect.x + rect.width) && y >= rect.y && y <= (rect.y + rect.height))`:
containment is inclusive on all four sides. -/
def RECTANGLE_POINT_IN (rect : GdkRectangle) (x y : Int) : Bool :=
  decide (x ≥ rect.x) && decide (x ≤ rect.x + rect.width) &&
    decide (y ≥ rect.y) && decide (y ≤ rect.y + rect.height)

/-- The rectangle `rec` built by `gdl_get_margins_from_pointer`: the widget's
allocation grown on each side by its margin and by the outline width. -/
def hitRectangle (widget : Widget) : GdkRectangle :=
  { x := widget.xx - widget.margin_left - OUTLINE_WIDTH
    y := widget.yy - widget.margin_top - OUTLINE_WIDTH
    width := widget.alloc_width + widget.margin_left + widget.margin_right
      + (OUTLINE_WIDTH * 2)
    height := widget.alloc_height + widget.margin_top + widget.margin_bottom
      + (OUTLINE_WIDTH * 2) }

/-- Source function `gdl_get_margins_from_pointer (layout, widget, x, y)`. -/
def gdl_get_margins_from_pointer (widget : Widget) (x y : Int) : Margins :=
  let width := widget.alloc_width
  let height := widget.alloc_height
  let xx := widget.xx
  let yy := widget.yy
  let margin : Margins := 0
  if RECTANGLE_POINT_IN (hitRectangle widget) x y then
    let margin :=
      if y ≤ yy + OUTLINE_WIDTH then margin ||| MARGIN_TOP
      else if y ≥ yy + height - OUTLINE_WIDTH then margin ||| MARGIN_BOTTOM
      else margin
    let margin :=
      if x ≤ xx + OUTLINE_WIDTH then margin ||| MARGIN_LEFT
      else if x ≥ xx + width - OUTLINE_WIDTH then margin ||| MARGIN_RIGHT
      else margin
    margin
  else margin

/-- The tail of `gdl_get_activity_from_pointer`: the three resize rectangles
tested in source order. -/
def resizeActivityFromPointer (priv : Session) (x y : Int) : Activity :=
  if RECTANGLE_POINT_IN priv.south_east x y then ACTIVITY_RESIZE_WIDTH_AND_HEIGHT
  else if RECTANGLE_POINT_IN priv.east x y then ACTIVITY_RESIZE_WIDTH
  else if RECTANGLE_POINT_IN priv.south x y then ACTIVITY_RESIZE_HEIGHT
  else ACTIVITY_NONE

/-- Source function `gdl_get_activity_from_pointer`: returns the activity and
the session with `priv->margin` refreshed when a selection is under edit. -/
def gdl_get_activity_from_pointer (priv : Session) (x y : Int) : Activity × Session :=
  match priv.selection with
  | some selection =>
    let priv := { priv with margin := gdl_get_margins_from_pointer selection x y }
    if priv.margin ≠ 0 then
      let mode := priv.pointer_mode
      (if mode = GLADE_POINTER_ALIGN_EDIT then ACTIVITY_ALIGNMENTS else ACTIVITY_MARGINS,
        priv)
    else (resizeActivityFromPointer priv x y, priv)
  | none => (resizeActivityFromPointer priv x y, priv)

/-- Source function `gdl_margin_get_activity`. -/
def gdl_margin_get_activity (margin : Margins) : Activity :=
  if hasMargin margin MARGIN_TOP then
    if hasMargin margin MARGIN_LEFT then ACTIVITY_MARGINS_TOP_LEFT
    else if hasMargin margin MARGIN_RIGHT then ACTIVITY_MARGINS_TOP_RIGHT
    else ACTIVITY_MARGINS_VERTICAL
  else if hasMargin margin MARGIN_BOTTOM then
    if hasMargin margin MARGIN_LEFT then ACTIVITY_MARGINS_BOTTOM_LEFT
    else if hasMargin margin MARGIN_RIGHT then ACTIVITY_MARGINS_BOTTOM_RIGHT
    else ACTIVITY_MARGINS_VERTICAL
  else if hasMargin margin MARGIN_LEFT || hasMargin margin MARGIN_RIGHT then
    ACTIVITY_MARGINS_HORIZONTAL
  else ACTIVITY_NONE

/-- Source function `gdl_set_cursor`: the stored cursor is replaced only when
it differs. -/
def gdl_set_cursor (priv : Session) (cursor : Option GdkCursor) : Session :=
  if cursor ≠ priv.cursor then { priv with cursor := cursor } else priv

/-! ## Toolkit accessors and the command collaborator -/

/-- Source function `gtk_widget_get_margin_top`; a `NULL` widget reads as 0. -/
def gtk_widget_get_margin_top (widget : Option Widget) : Int :=
  match widget with
  | some w => w.margin_top
  | none => 0

/-- Source function `gtk_widget_get_margin_bottom`; a `NULL` widget reads as 0. -/
def gtk_widget_get_margin_bottom (widget : Option Widget) : Int :=
  match widget with
  | some w => w.margin_bottom
  | none => 0

/-- Source function `gtk_widget_get_margin_left`; a `NULL` widget reads as 0. -/
def gtk_widget_get_margin_left (widget : Option Widget) : Int :=
  match widget with
  | some w => w.margin_left
  | none => 0

/-- Source function `gtk_widget_get_margin_right`; a `NULL` widget reads as 0. -/
def gtk_widget_get_margin_right (widget : Option Widget) : Int :=
  match widget with
  | some w => w.margin_right
  | none => 0

/-- Source function `gtk_widget_set_margin_top`; nothing is stored for a `NULL` widget. -/
def gtk_widget_set_margin_top (widget : Option Widget) (val : Int) : Option Widget :=
  widget.map fun w => { w with margin_top := val }

/-- Source function `gtk_widget_set_margin_bottom`; nothing is stored for a `NULL` widget. -/
def gtk_widget_set_margin_bottom (widget : Option Widget) (val : Int) : Option Widget :=
  widget.map fun w => { w with margin_bottom := val }

/-- Source function `gtk_widget_set_margin_left`; nothing is stored for a `NULL` widget. -/
def gtk_widget_set_margin_left (widget : Option Widget) (val : Int) : Option Widget :=
  widget.map fun w => { w with margin_left := val }

/-- Source function `gtk_widget_set_margin_right`; nothing is stored for a `NULL` widget. -/
def gtk_widget_set_margin_right (widget : Option Widget) (val : Int) : Option Widget :=
  widget.map fun w => { w with margin_right := val }

/-- A call made to the command collaborator. -/
inductive Command
  | push_group (format : String) (name : Option String)
  | set_property (name : PropertyName) (value : PropertyValue)
  | pop_group
  deriving DecidableEq, Repr

/-- Modelled from the spec: `setProperty(elementRef, name, value)` of the
command collaborator (implemented outside this file) stores the value in the
named property of the element; a value of the wrong kind is ignored. -/
def glade_command_set_property (w : Widget) (name : PropertyName)
    (value : PropertyValue) : Widget :=
  match name, value with
  | PropertyName.margin_top, PropertyValue.int v => { w with margin_top := v }
  | PropertyName.margin_bottom, PropertyValue.int v => { w with margin_bottom := v }
  | PropertyName.margin_left, PropertyValue.int v => { w with margin_left := v }
  | PropertyName.margin_right, PropertyValue.int v => { w with margin_right := v }
  | PropertyName.valign, PropertyValue.align a => { w with valign := a }
  | PropertyName.halign, PropertyValue.align a => { w with halign := a }
  | _, _ => w

/-- The guarded write
`if ((property = glade_widget_get_property (gwidget, name))) glade_command_set_property (property, value);`
returning the widget after the write and the calls issued. -/
def setPropertyIfPresent (gwidget : Option GladeWidget) (w : Widget)
    (name : PropertyName) (value : PropertyValue) : Widget × List Command :=
  match gwidget with
  | some g =>
    if name ∈ g.properties then
      (glade_command_set_property w name value, [Command.set_property name value])
    else (w, [])
  | none => (w, [])

/-- Number of `set_property` calls in a command log. -/
def setPropertyCount (log : List Command) : Nat :=
  (log.filter fun c =>
    match c with
    | Command.set_property _ _ => true
    | _ => false).length

/-! ## Events and the toolkit environment -/

/-- The bin child of the layout as seen by a handler: its allocation
(`gtk_widget_get_allocation`), its preferred size
(`gtk_widget_get_preferred_size`), whether it is visible
(`gtk_widget_get_visible`), whether `glade_widget_get_from_gobject` finds its
glade widget, and the `toplevel-width` and `toplevel-height` stored in that
glade widget (-1 while unset). -/
structure Child where
  allocation : GdkRectangle
  requisition : GtkRequisition
  visible : Bool := true
  gchild : Bool := true
  toplevel_width : Int := -1
  toplevel_height : Int := -1
  deriving DecidableEq, Repr

/-- Values read from the toolkit while one event is handled. `child` is
`gtk_bin_get_child (layout)`; `parent_*` is the allocation of `priv->view` and
`layout_*` the allocation of the layout; `toplevel_active` is the result of
`glade_project_is_toplevel_active (priv->project, child)`; `drag_threshold` is
the result of `gtk_drag_check_threshold`. -/
structure Env where
  child : Option Child
  parent_w : Int
  parent_h : Int
  layout_w : Int
  layout_h : Int
  toplevel_active : Bool
  drag_threshold : Bool
  deriving DecidableEq, Repr

/-- A `GdkEventMotion`: pointer position (already truncated to `gint`) and the
modifier bits of `ev->state` that the handler tests. -/
structure GdkEventMotion where
  x : Int
  y : Int
  button1 : Bool
  shift : Bool
  control : Bool
  deriving DecidableEq, Repr

/-- The `GdkEventType` values that reach the button handlers. -/
inductive GdkEventType
  | GDK_BUTTON_PRESS
  | GDK_2BUTTON_PRESS
  | GDK_3BUTTON_PRESS
  | GDK_BUTTON_RELEASE
  deriving DecidableEq, Repr

/-- A `GdkEventButton`. -/
structure GdkEventButton where
  x : Int
  y : Int
  button : Nat
  type : GdkEventType
  deriving DecidableEq, Repr

/-! ## Margin ceilings -/

/-- Source function `gdl_update_max_margins (layout, child, width, height)`. -/
def gdl_update_max_margins (env : Env) (priv : Session) (req : GtkRequisition)
    (width height : Int) : Session :=
  let top := gtk_widget_get_margin_top priv.selection
  let bottom := gtk_widget_get_margin_bottom priv.selection
  let left := gtk_widget_get_margin_left priv.selection
  let right := gtk_widget_get_margin_right priv.selection
  let max_width := width - (req.width - left - right)
  let parent_w := env.parent_w
  let layout_w := env.layout_w
  let max_width :=
    if parent_w > layout_w then
      max_width + (parent_w - layout_w - (PADDING - OUTLINE_WIDTH))
    else max_width
  let max_height := height - (req.height - top - bottom)
  let parent_h := env.parent_h
  let layout_h := env.layout_h
  let max_height :=
    if parent_h > layout_h then
      max_height + (parent_h - layout_h - (PADDING - OUTLINE_WIDTH))
    else max_height
  { priv with max_width := max_width, max_height := max_height }

/-- Source function `glade_design_layout_update_child`: the allocation is handed to the child's
metadata (`toplevel-width`, `toplevel-height`) by the caller of this model; the
session changes only through `gdl_update_max_margins`. -/
def glade_design_layout_update_child (env : Env) (priv : Session) (child : Child)
    (allocation : GdkRectangle) : Session :=
  if priv.selection.isSome then
    gdl_update_max_margins env priv child.requisition allocation.width allocation.height
  else priv

/-- Source function `gdl_alignments_invalidate`: the 16x16 rectangles added to the region, in
source order, for the nodes in `nodes`. -/
def gdl_alignments_invalidate (selection : Widget) (nodes : Margins) :
    List GdkRectangle :=
  let w := selection.alloc_width
  let h := selection.alloc_height
  let x := selection.xx
  let y := selection.yy
  let x1 := x - selection.margin_left
  let x2 := x + Int.tdiv w 2
  let x3 := x + w + selection.margin_right
  let y1 := y - selection.margin_top
  let y2 := y + Int.tdiv h 2
  let y3 := y + h + selection.margin_bottom
  let rect : GdkRectangle := { x := 0, y := 0, width := 16, height := 16 }
  let (rect, region) :=
    if hasMargin nodes MARGIN_TOP then
      let rect := { rect with x := x2 - 5, y := y1 - 10 }
      (rect, [rect])
    else (rect, [])
  let (rect, region) :=
    if hasMargin nodes MARGIN_BOTTOM then
      let rect := { rect with x := x2 - 8, y := y3 - 13 }
      (rect, region ++ [rect])
    else (rect, region)
  let rect := { rect with y := y2 - 10 }
  let (rect, region) :=
    if hasMargin nodes MARGIN_LEFT then
      let rect := { rect with x := x1 - 8 }
      (rect, region ++ [rect])
    else (rect, region)
  let (_, region) :=
    if hasMargin nodes MARGIN_RIGHT then
      let rect := { rect with x := x3 - 5 }
      (rect, region ++ [rect])
    else (rect, region)
  region

/-! ## Motion -/

/-- What a hover motion asks the window to redraw: the region built by
`gdl_alignments_invalidate` for a set of nodes, or the whole window
(`gdk_window_invalidate_rect (priv->window, NULL, FALSE)`). -/
inductive Invalidation
  | region (nodes : Margins) (rects : List GdkRectangle)
  | window
  deriving DecidableEq, Repr

/-- Outcome of `glade_design_layout_motion_notify_event`: the session, the
allocation handed to `glade_design_layout_update_child` (if it was called),
whether `gtk_drag_begin` was called, the redraw request and the return value. -/
structure MotionResult where
  priv : Session
  update : Option GdkRectangle
  drag_begin : Bool
  invalidated : Option Invalidation
  retval : Bool
  deriving DecidableEq, Repr

/-- The first statement of the `case ACTIVITY_MARGINS:` block of
`glade_design_layout_motion_notify_event`: the top or bottom margin. -/
def motionMarginsVertical (priv : Session) (ev : GdkEventMotion)
    (selection : Option Widget) : Option Widget :=
  let y := ev.y
  let shift := ev.shift
  let snap := ev.control
  let margin := priv.margin
  if hasMargin margin MARGIN_TOP then
    let max_height :=
      if shift then Int.tdiv priv.max_height 2
      else priv.max_height - gtk_widget_get_margin_bottom selection
    let val := max 0 (min (priv.m_dy - y) max_height)
    let val := if snap then (Int.tdiv val MARGIN_STEP) * MARGIN_STEP else val
    let selection := gtk_widget_set_margin_top selection val
    if shift then gtk_widget_set_margin_bottom selection val else selection
  else if hasMargin margin MARGIN_BOTTOM then
    let max_height :=
      if shift then Int.tdiv priv.max_height 2
      else priv.max_height - gtk_widget_get_margin_top selection
    let val := max 0 (min (y - priv.m_dy) max_height)
    let val := if snap then (Int.tdiv val MARGIN_STEP) * MARGIN_STEP else val
    let selection := gtk_widget_set_margin_bottom selection val
    if shift then gtk_widget_set_margin_top selection val else selection
  else selection

/-- The second statement of the `case ACTIVITY_MARGINS:` block of
`glade_design_layout_motion_notify_event`: the left or right margin. -/
def motionMarginsHorizontal (priv : Session) (ev : GdkEventMotion)
    (selection : Option Widget) : Option Widget :=
  let x := ev.x
  let shift := ev.shift
  let snap := ev.control
  let margin := priv.margin
  if hasMargin margin MARGIN_LEFT then
    let max_width :=
      if shift then Int.tdiv priv.max_width 2
      else priv.max_width - gtk_widget_get_margin_right selection
    let val := max 0 (min (priv.m_dx - x) max_width)
    let val := if snap then (Int.tdiv val MARGIN_STEP) * MARGIN_STEP else val
    let selection := gtk_widget_set_margin_left selection val
    if shift then gtk_widget_set_margin_right selection val else selection
  else if hasMargin margin MARGIN_RIGHT then
    let max_width :=
      if shift then Int.tdiv priv.max_width 2
      else priv.max_width - gtk_widget_get_margin_left selection
    let val := max 0 (min (x - priv.m_dx) max_width)
    let val := if snap then (Int.tdiv val MARGIN_STEP) * MARGIN_STEP else val
    let selection := gtk_widget_set_margin_right selection val
    if shift then gtk_widget_set_margin_left selection val else selection
  else selection

/-- The `case ACTIVITY_MARGINS:` block of
`glade_design_layout_motion_notify_event`: both statements in source order,
applied to `priv->selection`. -/
def motionMargins (priv : Session) (ev : GdkEventMotion) : Session :=
  let selection := priv.selection
  let selection := motionMarginsVertical priv ev selection
  let selection := motionMarginsHorizontal priv ev selection
  { priv with selection := selection }

/-- The `default:` block of `glade_design_layout_motion_notify_event` (hover
feedback): returns the session and the redraw request. -/
def motionHover (priv : Session) (x y : Int) : Session × Option Invalidation :=
  let (activity, priv) := gdl_get_activity_from_pointer priv x y
  let (priv, invalidated) :=
    if priv.node_over ≠ priv.margin ∧
        (activity = ACTIVITY_ALIGNMENTS ∨ priv.pointer_mode = GLADE_POINTER_ALIGN_EDIT) then
      let invalidated :=
        match priv.selection with
        | some selection =>
          Invalidation.region (priv.node_over ||| priv.margin)
            (gdl_alignments_invalidate selection (priv.node_over ||| priv.margin))
        | none => Invalidation.window
      ({ priv with node_over := priv.margin }, some invalidated)
    else (priv, none)
  let activity :=
    if activity = ACTIVITY_MARGINS then gdl_margin_get_activity priv.margin
    else activity
  (gdl_set_cursor priv (cursors activity), invalidated)

/-- Source function `glade_design_layout_motion_notify_event`. -/
def glade_design_layout_motion_notify_event (env : Env) (priv : Session)
    (ev : GdkEventMotion) : MotionResult :=
  match env.child with
  | none =>
    { priv := priv, update := none, drag_begin := false, invalidated := none,
      retval := false }
  | some child =>
    let x := ev.x
    let y := ev.y
    if ev.button1 ∧ priv.drag_source.isSome ∧ env.drag_threshold then
      { priv := priv, update := none, drag_begin := true, invalidated := none,
        retval := true }
    else
      let allocation := child.allocation
      let allocation :=
        { allocation with
          x := allocation.x + priv.child_offset
          y := allocation.y + priv.child_offset }
      let finish (priv : Session) (allocation : GdkRectangle) : MotionResult :=
        { priv := glade_design_layout_update_child env priv child allocation
          update := some allocation, drag_begin := false, invalidated := none
          retval := false }
      match priv.activity with
      | ACTIVITY_RESIZE_WIDTH =>
        finish priv
          { allocation with width := max 0 (x - priv.dx - PADDING - OUTLINE_WIDTH) }
      | ACTIVITY_RESIZE_HEIGHT =>
        finish priv
          { allocation with height := max 0 (y - priv.dy - PADDING - OUTLINE_WIDTH) }
      | ACTIVITY_RESIZE_WIDTH_AND_HEIGHT =>
        let allocation :=
          { allocation with height := max 0 (y - priv.dy - PADDING - OUTLINE_WIDTH) }
        finish priv
          { allocation with width := max 0 (x - priv.dx - PADDING - OUTLINE_WIDTH) }
      | ACTIVITY_MARGINS => finish (motionMargins priv ev) allocation
      | _ =>
        let (priv, invalidated) := motionHover priv x y
        { priv := priv, update := none, drag_begin := false
          invalidated := invalidated, retval := true }

/-! ## Press -/

/-- The call `gdl_edit_mode_set_selection (layout, mode, NULL)` as the press
handler makes it, with `mode` being `GLADE_POINTER_SELECT`: nothing happens
when no selection is under edit; otherwise the selection is dropped, the cursor
is cleared and the project's pointer mode is set to `mode` (the notification
this raises finds no selection and changes nothing more). The function with
all its arguments is `gdl_edit_mode_set_selection`. -/
def gdl_edit_mode_set_selection_null (priv : Session) (mode : GladePointerMode) :
    Session :=
  if priv.selection.isNone then priv
  else
    let priv := { priv with selection := none }
    let priv := gdl_set_cursor priv none
    { priv with pointer_mode := mode }

/-- The handler `on_project_selection_changed` as it runs after
`glade_project_selection_set (priv->project, child, TRUE)`: a selection under
edit is dropped; with no selection under edit the only candidate is the bin
child itself, which `gdl_edit_mode_set_selection` turns into `NULL`, so the
session is left as it is. -/
def on_project_selection_changed_child (priv : Session) : Session :=
  if priv.selection.isSome then
    gdl_edit_mode_set_selection_null priv GLADE_POINTER_SELECT
  else priv

/-- The decomposition of an alignment into its two anchors done at the top of
the `case ACTIVITY_ALIGNMENTS:` block: Fill is anchored at both ends, Start at
the first, End at the second. -/
def alignAnchors (align : GtkAlign) : Bool × Bool :=
  if align = GTK_ALIGN_FILL then (true, true)
  else (decide (align = GTK_ALIGN_START), decide (align = GTK_ALIGN_END))

/-- The new `valign` computed in the `case ACTIVITY_ALIGNMENTS:` block. -/
def toggleValign (node : Margins) (valign : GtkAlign) : GtkAlign :=
  let (top, bottom) := alignAnchors valign
  if hasMargin node MARGIN_TOP then
    if top then (if bottom then GTK_ALIGN_END else GTK_ALIGN_CENTER)
    else (if bottom then GTK_ALIGN_FILL else GTK_ALIGN_START)
  else if hasMargin node MARGIN_BOTTOM then
    if bottom then (if top then GTK_ALIGN_START else GTK_ALIGN_CENTER)
    else (if top then GTK_ALIGN_FILL else GTK_ALIGN_END)
  else valign

/-- The new `halign` computed in the `case ACTIVITY_ALIGNMENTS:` block. -/
def toggleHalign (node : Margins) (halign : GtkAlign) : GtkAlign :=
  let (left, right) := alignAnchors halign
  if hasMargin node MARGIN_LEFT then
    if left then (if right then GTK_ALIGN_END else GTK_ALIGN_CENTER)
    else (if right then GTK_ALIGN_FILL else GTK_ALIGN_START)
  else if hasMargin node MARGIN_RIGHT then
    if right then (if left then GTK_ALIGN_START else GTK_ALIGN_CENTER)
    else (if left then GTK_ALIGN_FILL else GTK_ALIGN_END)
  else halign

/-- The `case ACTIVITY_ALIGNMENTS:` block of
`glade_design_layout_button_press_event`: the selection after the property
writes and the calls made to the command collaborator. -/
def pressAlignments (selection : Widget) (node : Margins) : Widget × List Command :=
  let valign := toggleValign node selection.valign
  let halign := toggleHalign node selection.halign
  match selection.gwidget with
  | some gwidget =>
    let (selection, log_v) :=
      if selection.valign ≠ valign then
        setPropertyIfPresent (some gwidget) selection PropertyName.valign
          (PropertyValue.align valign)
      else (selection, [])
    let (selection, log_h) :=
      if selection.halign ≠ halign then
        setPropertyIfPresent (some gwidget) selection PropertyName.halign
          (PropertyValue.align halign)
      else (selection, [])
    (selection,
      [Command.push_group "Editing alignments of %s" (some gwidget.name)]
        ++ log_v ++ log_h ++ [Command.pop_group])
  | none => (selection, [])

/-- Outcome of `glade_design_layout_button_press_event`: the session, the calls
made to the command collaborator, whether `glade_project_selection_set` was
called on the child, and the return value. -/
structure PressResult where
  priv : Session
  log : List Command
  selection_set : Bool
  retval : Bool
  deriving DecidableEq, Repr

/-- The statements of `glade_design_layout_button_press_event` that follow the
`if (priv->selection)` block. -/
def pressTail (env : Env) (priv : Session) (child : Child) (activity : Activity)
    (x y : Int) (log : List Command) : PressResult :=
  let child_allocation := child.allocation
  let priv :=
    { priv with
      dx := x - (child_allocation.x + child_allocation.width + priv.child_offset)
      dy := y - (child_allocation.y + child_allocation.height + priv.child_offset) }
  if activity ≠ ACTIVITY_NONE ∧ ¬ env.toplevel_active then
    { priv := on_project_selection_changed_child priv, log := log
      selection_set := true, retval := false }
  else { priv := priv, log := log, selection_set := false, retval := false }

/-- Source function `glade_design_layout_button_press_event`. -/
def glade_design_layout_button_press_event (env : Env) (priv : Session)
    (ev : GdkEventButton) : PressResult :=
  if ev.button ≠ 1 ∨ ev.type ≠ GdkEventType.GDK_BUTTON_PRESS then
    { priv := priv, log := [], selection_set := false, retval := false }
  else
    match env.child with
    | none => { priv := priv, log := [], selection_set := false, retval := false }
    | some child =>
      let x := ev.x
      let y := ev.y
      let (activity, priv) := gdl_get_activity_from_pointer priv x y
      let priv := { priv with activity := activity }
      match priv.selection with
      | some selection =>
        match activity with
        | ACTIVITY_NONE =>
          { priv := gdl_edit_mode_set_selection_null priv GLADE_POINTER_SELECT
            log := [], selection_set := false, retval := false }
        | ACTIVITY_ALIGNMENTS =>
          let node := priv.margin
          let (selection, log) := pressAlignments selection node
          pressTail env { priv with selection := some selection } child activity x y log
        | ACTIVITY_MARGINS =>
          let priv :=
            { priv with
              m_dx := x + (if hasMargin priv.margin MARGIN_LEFT then
                  gtk_widget_get_margin_left (some selection)
                else gtk_widget_get_margin_right (some selection) * -1)
              m_dy := y + (if hasMargin priv.margin MARGIN_TOP then
                  gtk_widget_get_margin_top (some selection)
                else gtk_widget_get_margin_bottom (some selection) * -1) }
          { priv := gdl_set_cursor priv (cursors (gdl_margin_get_activity priv.margin))
            log := [], selection_set := false, retval := false }
        | _ =>
          pressTail env (gdl_set_cursor priv (cursors priv.activity)) child activity x y []
      | none => pressTail env priv child activity x y []

/-! ## Release -/

/-- Outcome of `glade_design_layout_button_release_event`. -/
structure ReleaseResult where
  priv : Session
  log : List Command
  retval : Bool
  deriving DecidableEq, Repr

/-- The margin commit of `glade_design_layout_button_release_event`: the group
opened for the selection, one guarded write per edge whose current margin
differs from the saved one, and the group end. -/
def releaseMargins (priv : Session) (selection : Widget) : Widget × List Command :=
  let gwidget := selection.gwidget
  let top := gtk_widget_get_margin_top (some selection)
  let bottom := gtk_widget_get_margin_bottom (some selection)
  let left := gtk_widget_get_margin_left (some selection)
  let right := gtk_widget_get_margin_right (some selection)
  let (selection, log_t) :=
    if priv.top ≠ top then
      setPropertyIfPresent gwidget selection PropertyName.margin_top (PropertyValue.int top)
    else (selection, [])
  let (selection, log_b) :=
    if priv.bottom ≠ bottom then
      setPropertyIfPresent gwidget selection PropertyName.margin_bottom
        (PropertyValue.int bottom)
    else (selection, [])
  let (selection, log_l) :=
    if priv.left ≠ left then
      setPropertyIfPresent gwidget selection PropertyName.margin_left
        (PropertyValue.int left)
    else (selection, [])
  let (selection, log_r) :=
    if priv.right ≠ right then
      setPropertyIfPresent gwidget selection PropertyName.margin_right
        (PropertyValue.int right)
    else (selection, [])
  (selection,
    [Command.push_group "Editing margins of %s" (gwidget.map fun g => g.name)]
      ++ log_t ++ log_b ++ log_l ++ log_r ++ [Command.pop_group])

/-- Source function `glade_design_layout_button_release_event`. -/
def glade_design_layout_button_release_event (env : Env) (priv : Session) :
    ReleaseResult :=
  match env.child with
  | none => { priv := priv, log := [], retval := false }
  | some _ =>
    let (priv, log) :=
      match priv.selection with
      | some selection =>
        if priv.activity = ACTIVITY_MARGINS then
          let (selection, log) := releaseMargins priv selection
          ({ priv with selection := some selection }, log)
        else if priv.activity = ACTIVITY_ALIGNMENTS then
          ({ priv with node_over := 0 }, [])
        else (priv, [])
      | none =>
        if priv.activity = ACTIVITY_ALIGNMENTS then
          ({ priv with node_over := 0 }, [])
        else (priv, [])
    let priv := { priv with activity := ACTIVITY_NONE }
    { priv := gdl_set_cursor priv none, log := log, retval := false }

/-! ## Edit-mode selection and the project notifications -/

/-- An object of the project's selection list as the layout sees it: the bin
child of the layout itself, another widget, or an object that is not a widget
(`GTK_IS_WIDGET` fails). -/
inductive ProjectObject
  | child (w : Widget)
  | widget (w : Widget)
  | object
  deriving DecidableEq, Repr

/-- The first statement of `gdl_edit_mode_set_selection`: a candidate that is
not a widget, or that is the bin child of the layout, becomes `NULL`. -/
def editCandidate (selection : Option ProjectObject) : Option Widget :=
  match selection with
  | some (ProjectObject.widget w) => some w
  | _ => none

/-- The bookkeeping `gdl_edit_mode_set_selection` does for a non-null
selection: in margin-edit mode the four margins are saved and the ceilings are
computed from the child's allocation; in align-edit mode both alignments are
saved. With no bin child the requisition read by the source is indeterminate
and the ceilings are left as they were. -/
def editModeSave (env : Env) (priv : Session) (mode : GladePointerMode)
    (selection : Widget) : Session :=
  if mode = GLADE_POINTER_MARGIN_EDIT then
    let priv :=
      { priv with
        top := gtk_widget_get_margin_top (some selection)
        bottom := gtk_widget_get_margin_bottom (some selection)
        left := gtk_widget_get_margin_left (some selection)
        right := gtk_widget_get_margin_right (some selection) }
    match env.child with
    | some child =>
      gdl_update_max_margins env priv child.requisition child.allocation.width
        child.allocation.height
    | none => priv
  else if mode = GLADE_POINTER_ALIGN_EDIT then
    { priv with valign := selection.valign, halign := selection.halign }
  else priv

mutual

/-- Source function `gdl_edit_mode_set_selection (layout, mode, selection)`.
The call of `glade_project_set_pointer_mode` at its end can re-enter the layout
through the `notify::pointer-mode` handler, so the three functions are defined
together, with a bound on the nesting depth of calls; `project` is the
selection list of the project. -/
def gdl_edit_mode_set_selection : Nat → Env → List ProjectObject → Session →
    GladePointerMode → Option ProjectObject → Option Session
  | 0, _, _, _, _, _ => none
  | fuel + 1, env, project, priv, mode, selection =>
    let selection := editCandidate selection
    if priv.selection.map (fun w => w.id) = selection.map (fun w => w.id) then some priv
    else
      let priv := { priv with selection := selection }
      let priv :=
        match selection with
        | some w => editModeSave env priv mode w
        | none => gdl_set_cursor priv none
      glade_project_set_pointer_mode fuel env project priv mode

/-- Modelled from the spec: `setPointerMode(enum)` of the selection/project
collaborator (implemented outside this file) stores the mode and, when the
mode changes, delivers the change notification, which runs
`on_pointer_mode_notify`. -/
def glade_project_set_pointer_mode : Nat → Env → List ProjectObject → Session →
    GladePointerMode → Option Session
  | 0, _, _, _, _ => none
  | fuel + 1, env, project, priv, mode =>
    if priv.pointer_mode = mode then some priv
    else on_pointer_mode_notify fuel env project { priv with pointer_mode := mode }

/-- Source function `on_pointer_mode_notify`. -/
def on_pointer_mode_notify : Nat → Env → List ProjectObject → Session → Option Session
  | 0, _, _, _ => none
  | fuel + 1, env, project, priv =>
    if priv.window = false then some priv
    else
      let mode := priv.pointer_mode
      if mode = GLADE_POINTER_MARGIN_EDIT ∨ mode = GLADE_POINTER_ALIGN_EDIT then
        let selection :=
          match project with
          | [ProjectObject.widget w] => some (ProjectObject.widget w)
          | [ProjectObject.child w] => some (ProjectObject.child w)
          | _ => none
        match gdl_edit_mode_set_selection fuel env project priv mode none with
        | some priv => gdl_edit_mode_set_selection fuel env project priv mode selection
        | none => none
      else gdl_edit_mode_set_selection fuel env project priv mode none

end

/-- Source function `on_project_selection_changed`. -/
def on_project_selection_changed (fuel : Nat) (env : Env) (project : List ProjectObject)
    (priv : Session) : Option Session :=
  let mode := priv.pointer_mode
  if priv.selection.isSome then
    gdl_edit_mode_set_selection fuel env project priv GLADE_POINTER_SELECT none
  else if mode = GLADE_POINTER_ALIGN_EDIT ∨ mode = GLADE_POINTER_MARGIN_EDIT then
    gdl_edit_mode_set_selection fuel env project priv mode project.head?
  else some priv

/-- The pointer-mode notification as the layout receives it: the project's
pointer mode has become `mode` and `on_pointer_mode_notify` runs. -/
def pointerModeChanged (fuel : Nat) (env : Env) (project : List ProjectObject)
    (priv : Session) (mode : GladePointerMode) : Option Session :=
  on_pointer_mode_notify fuel env project { priv with pointer_mode := mode }

/-! ## Event router -/

/-- The element found under the pointer by
`glade_design_layout_find_inside_container`: the widget returned by
`glade_widget_get_object` (if any), the result of `widget_is_inside_fixed` and
the result of `glade_widget_event` when the event is forwarded to it. -/
structure FoundElement where
  object : Option Widget
  inside_fixed : Bool
  handled : Bool
  deriving DecidableEq, Repr

/-- An event as `_glade_design_layout_do_event` sees it: whether its type is
`GDK_BUTTON_PRESS`, the button, the Shift bit of the state, the coordinates
computed by `_glade_design_layout_coords_from_event`, the element and the
placeholder found under them (for the placeholder, the result of
`gtk_widget_event` on it), and whether the first selected object is a
descendant of the layout (`gtk_widget_is_ancestor (l->data, widget)`). -/
structure RouterEvent where
  press : Bool
  button : Nat
  shift : Bool
  x : Int
  y : Int
  gwidget : Option FoundElement
  placeholder : Option Bool
  selection_in_layout : Bool
  deriving DecidableEq, Repr

/-- Outcome of `_glade_design_layout_do_event`: the session, whether the event
was forwarded to the placeholder or the element, and the return value. -/
structure RouterResult where
  priv : Session
  forwarded : Bool
  retval : Bool
  deriving DecidableEq, Repr

/-- The drag source designated by priority (a) of
`_glade_design_layout_do_event`, if any: a primary press with Shift in select
mode, or in drag-resize mode, over an element with an object that is not
inside a fixed container unless Shift is held. -/
def routerDragSource (priv : Session) (ev : RouterEvent) : Option Widget :=
  let mode := priv.pointer_mode
  if ev.press ∧ ev.button = 1 ∧
      ((ev.shift ∧ mode = GLADE_POINTER_SELECT) ∨ mode = GLADE_POINTER_DRAG_RESIZE) then
    match ev.gwidget with
    | some found =>
      match found.object with
      | some source => if ev.shift ∨ ¬ found.inside_fixed then some source else none
      | none => none
    | none => none
  else none

/-- The single selected widget whose margin hot zone is hit, as tested by the
second block of `_glade_design_layout_do_event`. -/
def routerMarginTarget (priv : Session) (project : List ProjectObject) (ev : RouterEvent) :
    Option ProjectObject :=
  let mode := priv.pointer_mode
  if ev.press ∧ ev.button = 1 ∧ mode ≠ GLADE_POINTER_DRAG_RESIZE then
    match project with
    | [ProjectObject.widget w] =>
      if ev.selection_in_layout ∧ gdl_get_margins_from_pointer w ev.x ev.y ≠ 0 then
        some (ProjectObject.widget w)
      else none
    | [ProjectObject.child w] =>
      if gdl_get_margins_from_pointer w ev.x ev.y ≠ 0 then some (ProjectObject.child w)
      else none
    | _ => none
  else none

/-- Source function `_glade_design_layout_do_event`, applied to the result of
the containment walk. Handlers run by a forwarded event are transitions of
their own. -/
def glade_design_layout_do_event (fuel : Nat) (env : Env) (project : List ProjectObject)
    (priv : Session) (ev : RouterEvent) : Option RouterResult :=
  match routerDragSource priv ev with
  | some source =>
    some
      { priv := { priv with
          drag_source := some source, drag_x := ev.x - source.xx
          drag_y := ev.y - source.yy }
        forwarded := false, retval := true }
  | none =>
    match routerMarginTarget priv project ev with
    | some target =>
      if priv.selection.isNone then
        (gdl_edit_mode_set_selection fuel env project priv
          (if ev.shift then GLADE_POINTER_ALIGN_EDIT else GLADE_POINTER_MARGIN_EDIT)
          (some target)).map fun priv =>
            { priv := priv, forwarded := false, retval := true }
      else some { priv := priv, forwarded := false, retval := false }
    | none =>
      let retval :=
        if ev.placeholder = some true then true
        else
          match ev.gwidget with
          | some found => found.handled
          | none => false
      some { priv := priv, forwarded := true, retval := retval }

/-! ## The embedded window -/

/-- The two windows of the layout. -/
inductive GdkWindow
  | window
  | offscreen_window
  deriving DecidableEq, Repr

/-- Source function `to_child`; `double` coordinates are modelled as rationals,
on which the translation is exact. -/
def to_child (priv : Session) (widget_x widget_y : ℚ) : ℚ × ℚ :=
  (widget_x - priv.child_offset, widget_y - priv.child_offset)

/-- Source function `to_parent`. -/
def to_parent (priv : Session) (offscreen_x offscreen_y : ℚ) : ℚ × ℚ :=
  (offscreen_x + priv.child_offset, offscreen_y + priv.child_offset)

/-- Source function `pick_offscreen_child`. -/
def pick_offscreen_child (env : Env) (priv : Session) (widget_x widget_y : ℚ) :
    Option GdkWindow :=
  match env.child with
  | some child =>
    if child.visible then
      let (x, y) := to_child priv widget_x widget_y
      let child_area := child.allocation
      if x ≥ 0 ∧ x < child_area.width ∧ y ≥ 0 ∧ y < child_area.height then
        if priv.selection.isSome then none else some GdkWindow.offscreen_window
      else none
    else none
  | none => none

/-! ## Coordinate translation on `double` -/

/-- Number of binary digits of `n`, halving at most `fuel` times. -/
def bitLengthAux : Nat → Nat → Nat
  | 0, _ => 0
  | fuel + 1, n => if n = 0 then 0 else bitLengthAux fuel (n / 2) + 1

/-- Number of binary digits of `n` (0 for 0). -/
def bitLength (n : Nat) : Nat :=
  bitLengthAux n n

/-- A finite `double`, written as `mantissa / 2 ^ scale`; every finite `double`
has this form with a scale of at most 1074. -/
structure Binary64 where
  mantissa : Int
  scale : Nat
  deriving DecidableEq, Repr

/-- The rational value of a `double`. -/
def Binary64.value (d : Binary64) : ℚ :=
  d.mantissa / 2 ^ d.scale

/-- Rounding to `double` of the exact result `m / 2 ^ scale` of a sum or
difference, on the numerator `m`: a numerator of at most 53 binary digits is
representable and kept; a longer one is rounded to its 53 leading digits, to
the nearest such value and to the even one on a tie, as the `+` and `-` of C do
on `double` in the default rounding mode. -/
def roundBinary64 (m : Int) : Int :=
  let a := m.natAbs
  let len := bitLength a
  if len ≤ 53 then m
  else
    let shift := len - 53
    let q := a / 2 ^ shift
    let r := a % 2 ^ shift
    let half := 2 ^ (shift - 1)
    let q := if r > half ∨ (r = half ∧ q % 2 = 1) then q + 1 else q
    if m < 0 then -((q * 2 ^ shift : Nat) : Int) else ((q * 2 ^ shift : Nat) : Int)

/-- Source function `to_child` as it is computed on `double`:
`priv->child_offset` is converted to `double`, which is exact for a `gint`,
and each difference is rounded to `double`. The function `to_child` is the
same translation without the rounding. -/
def to_child_binary64 (priv : Session) (widget_x widget_y : Binary64) :
    Binary64 × Binary64 :=
  ({ widget_x with
      mantissa := roundBinary64 (widget_x.mantissa - priv.child_offset * 2 ^ widget_x.scale) },
    { widget_y with
      mantissa := roundBinary64 (widget_y.mantissa - priv.child_offset * 2 ^ widget_y.scale) })

/-- Source function `to_parent` as it is computed on `double`, each sum rounded
to `double`. -/
def to_parent_binary64 (priv : Session) (offscreen_x offscreen_y : Binary64) :
    Binary64 × Binary64 :=
  ({ offscreen_x with
      mantissa := roundBinary64
        (offscreen_x.mantissa + priv.child_offset * 2 ^ offscreen_x.scale) },
    { offscreen_y with
      mantissa := roundBinary64
        (offscreen_y.mantissa + priv.child_offset * 2 ^ offscreen_y.scale) })

/-! ## Guarded property writes -/

/-- Whether `glade_widget_get_property (gwidget, name)` returns a property:
the glade widget exists and carries the property. -/
def glade_widget_has_property (gwidget : Option GladeWidget) (name : PropertyName) : Bool :=
  match gwidget with
  | some g => decide (name ∈ g.properties)
  | none => false

/-! ## The selection/mode invariant and the operations that can affect it -/

/-- The invariant of the data model: a selection is under edit only while the
pointer mode is MarginEdit or AlignEdit. -/
def selectionModeInvariant (priv : Session) : Prop :=
  priv.selection.isSome = true →
    priv.pointer_mode = GLADE_POINTER_MARGIN_EDIT ∨
      priv.pointer_mode = GLADE_POINTER_ALIGN_EDIT

instance (priv : Session) : Decidable (selectionModeInvariant priv) := by
  unfold selectionModeInvariant
  exact inferInstance

/-- One operation of the layout that can touch the edit selection or the
pointer mode. -/
inductive LayoutStep : Session → Session → Prop
  | set_selection {priv priv' : Session} (fuel : Nat) (env : Env)
      (project : List ProjectObject) (mode : GladePointerMode)
      (selection : Option ProjectObject) :
      ((editCandidate selection).isSome = true →
        mode = GLADE_POINTER_MARGIN_EDIT ∨ mode = GLADE_POINTER_ALIGN_EDIT) →
      gdl_edit_mode_set_selection fuel env project priv mode selection = some priv' →
      LayoutStep priv priv'
  | pointer_mode {priv priv' : Session} (fuel : Nat) (env : Env)
      (project : List ProjectObject) (mode : GladePointerMode) :
      pointerModeChanged fuel env project priv mode = some priv' → LayoutStep priv priv'
  | selection_changed {priv priv' : Session} (fuel : Nat) (env : Env)
      (project : List ProjectObject) :
      on_project_selection_changed fuel env project priv = some priv' →
      LayoutStep priv priv'
  | press {priv : Session} (env : Env) (ev : GdkEventButton) :
      LayoutStep priv (glade_design_layout_button_press_event env priv ev).priv
  | do_event {priv : Session} (fuel : Nat) (env : Env) (project : List ProjectObject)
      (ev : RouterEvent) (result : RouterResult) :
      glade_design_layout_do_event fuel env project priv ev = some result →
      LayoutStep priv result.priv

/-! ## Size negotiation -/

/-- Source function `update_rectangles`; `name_width` and `name_height` are the
pixel size of `priv->widget_name` read by `pango_layout_get_pixel_size`. The
field `priv->layout_width`, which is only used for drawing, is not kept. -/
def update_rectangles (priv : Session) (alloc : GdkRectangle)
    (name_width name_height : Int) : Session :=
  let east :=
    { priv.east with
      x := alloc.width + priv.child_offset, y := priv.child_offset
      height := alloc.height }
  let south :=
    { priv.south with
      x := priv.child_offset, y := alloc.height + priv.child_offset
      width := alloc.width }
  let width := name_width
  let height := name_height
  let width := min alloc.width width
  let rect : GdkRectangle :=
    { x := alloc.x + priv.child_offset + alloc.width - width - Int.tdiv OUTLINE_WIDTH 2
      y := alloc.y + priv.child_offset + alloc.height + Int.tdiv OUTLINE_WIDTH 2
      width := width + (OUTLINE_WIDTH * 2)
      height := height + OUTLINE_WIDTH }
  let south := { south with width := rect.x - south.x }
  { priv with east := east, south := south, south_east := rect }

/-- The label height used by the size functions: the pixel height of
`priv->widget_name`, or `PADDING` when there is no name layout. -/
def labelHeight (widget_name : Option GtkRequisition) : Int :=
  match widget_name with
  | some name => name.height
  | none => PADDING

/-- Source function `glade_design_layout_get_preferred_height`; the result is
the minimum, which is also the natural height. `g_assert (gchild)` aborts when
the visible child has no glade widget, which gives `none`. The constant
`2.5*OUTLINE_WIDTH` is the integer 10, on which the arithmetic is exact. -/
def glade_design_layout_get_preferred_height (border_width : Nat) (child : Option Child)
    (widget_name : Option GtkRequisition) : Option Int :=
  let minimum : Int := 0
  let minimum : Option Int :=
    match child with
    | some c =>
      if c.visible then
        if c.gchild then
          let child_height := max c.toplevel_height c.requisition.height
          let height := labelHeight widget_name
          some (max minimum (PADDING + Int.tdiv (5 * OUTLINE_WIDTH) 2 + height + child_height))
        else none
      else some minimum
    | none => some minimum
  minimum.map fun m => m + border_width * 2

/-- Source function `glade_design_layout_get_preferred_width`. -/
def glade_design_layout_get_preferred_width (border_width : Nat) (child : Option Child) :
    Option Int :=
  let minimum : Int := 0
  let minimum : Option Int :=
    match child with
    | some c =>
      if c.visible then
        if c.gchild then
          let child_width := max c.toplevel_width c.requisition.width
          some (max minimum (2 * PADDING + 2 * OUTLINE_WIDTH + child_width))
        else none
      else some minimum
    | none => some minimum
  minimum.map fun m => m + border_width * 2

/-- Outcome of `glade_design_layout_size_allocate`: the session and the
allocation handed to `gtk_widget_size_allocate (child, &alloc)`, if any; its
width and height are also what `priv->current_width` and
`priv->current_height` receive. -/
structure SizeAllocation where
  priv : Session
  child_allocation : Option GdkRectangle
  deriving DecidableEq, Repr

/-- Source function `glade_design_layout_size_allocate`. The constant
`OUTLINE_WIDTH * 1.5` is the integer 6. With no name layout the size read by
`update_rectangles` is indeterminate in the source; 0 x 0 is used. -/
def glade_design_layout_size_allocate (border_width : Nat) (priv : Session)
    (child : Option Child) (allocation : GdkRectangle)
    (widget_name : Option GtkRequisition) : SizeAllocation :=
  match child with
  | some c =>
    if c.visible then
      let offset := (border_width : Int) + PADDING + OUTLINE_WIDTH
      let priv := { priv with child_offset := offset }
      let height := labelHeight widget_name
      let alloc : GdkRectangle :=
        { x := 0, y := 0
          width := allocation.width - (offset * 2)
          height := allocation.height - (offset + Int.tdiv (OUTLINE_WIDTH * 3) 2 + height) }
      let name := widget_name.getD { width := 0, height := 0 }
      { priv := update_rectangles priv alloc name.width name.height
        child_allocation := some alloc }
    else { priv := priv, child_allocation := none }
  | none => { priv := priv, child_allocation := none }

/-- The session after `glade_design_layout_init`: the private structure is
zeroed, the activity is None, no node is hovered and the two fixed rectangle
sides are set; the layout is not realized. `mode` is the pointer mode of the
project it is created for. -/
def glade_design_layout_init (mode : GladePointerMode) : Session :=
  { child_offset := 0
    east := { x := 0, y := 0, width := PADDING + OUTLINE_WIDTH, height := 0 }
    south := { x := 0, y := 0, width := 0, height := PADDING + OUTLINE_WIDTH }
    south_east := { x := 0, y := 0, width := 0, height := 0 }
    cursor := none, selection := none
    top := 0, bottom := 0, left := 0, right := 0
    m_dy := 0, m_dx := 0, max_width := 0, max_height := 0
    margin := 0, valign := GTK_ALIGN_FILL, halign := GTK_ALIGN_FILL
    node_over := 0, activity := ACTIVITY_NONE, dx := 0, dy := 0
    drag_source := none, drag_x := 0, drag_y := 0
    pointer_mode := mode, window := false }

/-! ## Pointer events as transitions -/

/-- One pointer event handled by the layout: a button press, a motion or a
button release, each with the toolkit values current at that time. -/
inductive PointerStep : Session → Session → Prop
  | press {priv : Session} (env : Env) (ev : GdkEventButton) :
      PointerStep priv (glade_design_layout_button_press_event env priv ev).priv
  | motion {priv : Session} (env : Env) (ev : GdkEventMotion) :
      PointerStep priv (glade_design_layout_motion_notify_event env priv ev).priv
  | release {priv : Session} (env : Env) :
      PointerStep priv (glade_design_layout_button_release_event env priv).priv

/-- The activities that `gdl_get_activity_from_pointer` can return and that
the state machine acts on. -/
def drivingActivities : List Activity :=
  [ACTIVITY_NONE, ACTIVITY_RESIZE_WIDTH, ACTIVITY_RESIZE_HEIGHT,
    ACTIVITY_RESIZE_WIDTH_AND_HEIGHT, ACTIVITY_ALIGNMENTS, ACTIVITY_MARGINS]

/-! ## Alignment anchors -/

/-- The first anchor of an alignment (top for `valign`, left for `halign`) is
set for Start and Fill. -/
def startAnchored (align : GtkAlign) : Bool :=
  decide (align = GTK_ALIGN_START ∨ align = GTK_ALIGN_FILL)

/-- The second anchor of an alignment (bottom for `valign`, right for `halign`)
is set for End and Fill. -/
def endAnchored (align : GtkAlign) : Bool :=
  decide (align = GTK_ALIGN_END ∨ align = GTK_ALIGN_FILL)

/-! ## Anchor rectangles -/

/-- The 16x16 rectangle `gdl_alignments_invalidate` adds to the region for one
edge flag: the anchor of the top edge at (x2 - 5, y1 - 10), of the bottom edge
at (x2 - 8, y3 - 13), of the left edge at (x1 - 8, y2 - 10) and of the right edge
at (x3 - 5, y2 - 10). -/
def anchorRectangle (selection : Widget) (flag : Margins) : GdkRectangle :=
  let w := selection.alloc_width
  let h := selection.alloc_height
  let x := selection.xx
  let y := selection.yy
  let x1 := x - selection.margin_left
  let x2 := x + Int.tdiv w 2
  let x3 := x + w + selection.margin_right
  let y1 := y - selection.margin_top
  let y2 := y + Int.tdiv h 2
  let y3 := y + h + selection.margin_bottom
  if flag = MARGIN_TOP then { x := x2 - 5, y := y1 - 10, width := 16, height := 16 }
  else if flag = MARGIN_BOTTOM then { x := x2 - 8, y := y3 - 13, width := 16, height := 16 }
  else if flag = MARGIN_LEFT then { x := x1 - 8, y := y2 - 10, width := 16, height := 16 }
  else { x := x3 - 5, y := y2 - 10, width := 16, height := 16 }

/-- The four edge flags in the order `gdl_alignments_invalidate` tests them. -/
def edgeFlags : List Margins :=
  [MARGIN_TOP, MARGIN_BOTTOM, MARGIN_LEFT, MARGIN_RIGHT]

/-! ## Margin ceilings: predicates and event sequences -/

/-- The two ceiling bounds on the margins of the selection under edit: the
vertical margins add up to at most `max_height` and the horizontal ones to at
most `max_width`. -/
def marginsWithinCeilings (priv : Session) : Prop :=
  gtk_widget_get_margin_top priv.selection + gtk_widget_get_margin_bottom priv.selection
      ≤ priv.max_height ∧
    gtk_widget_get_margin_left priv.selection + gtk_widget_get_margin_right priv.selection
      ≤ priv.max_width

/-- The four margins of the selection under edit are non-negative. -/
def marginsNonneg (priv : Session) : Prop :=
  0 ≤ gtk_widget_get_margin_top priv.selection ∧
    0 ≤ gtk_widget_get_margin_bottom priv.selection ∧
    0 ≤ gtk_widget_get_margin_left priv.selection ∧
    0 ≤ gtk_widget_get_margin_right priv.selection

instance (priv : Session) : Decidable (marginsWithinCeilings priv) := by
  unfold marginsWithinCeilings
  exact inferInstance

instance (priv : Session) : Decidable (marginsNonneg priv) := by
  unfold marginsNonneg
  exact inferInstance

/-- The session after one motion event. -/
def motionStep (env : Env) (ev : GdkEventMotion) (priv : Session) : Session :=
  (glade_design_layout_motion_notify_event env priv ev).priv

/-- The session after a sequence of motion events, each delivered with the
toolkit values current at that time. -/
def motionSeq (priv : Session) (events : List (Env × GdkEventMotion)) : Session :=
  events.foldl (fun s e => motionStep e.1 e.2 s) priv

/-- The recomputation of the ceilings at the end of each motion of a sequence
(`gdl_update_max_margins`, called through `glade_design_layout_update_child`)
leaves `max_height` and `max_width` at least as large as they were when that
motion was handled. -/
def ceilingsKept : Session → List (Env × GdkEventMotion) → Bool
  | _, [] => true
  | priv, e :: rest =>
    decide (priv.max_height ≤ (motionStep e.1 e.2 priv).max_height) &&
      decide (priv.max_width ≤ (motionStep e.1 e.2 priv).max_width) &&
      ceilingsKept (motionStep e.1 e.2 priv) rest

/-- The margins of the selection of `next` are within the ceilings of `priv`:
the vertical margins add up to at most `priv.max_height` and the horizontal
ones to at most `priv.max_width`. -/
def marginsWithinCeilingsOf (priv next : Session) : Prop :=
  gtk_widget_get_margin_top next.selection + gtk_widget_get_margin_bottom next.selection
      ≤ priv.max_height ∧
    gtk_widget_get_margin_left next.selection + gtk_widget_get_margin_right next.selection
      ≤ priv.max_width

instance (priv next : Session) : Decidable (marginsWithinCeilingsOf priv next) := by
  unfold marginsWithinCeilingsOf
  exact inferInstance

/-! ## Margin drags: the value written for a grabbed edge -/

/-- The value each branch of the `case ACTIVITY_MARGINS:` block writes for its
grabbed edge, as a function of the projected pointer distance `delta`, the
ceiling field (`max_height` or `max_width`), the margin of the opposite edge
and the two modifiers: the ceiling is halved under Shift, the distance is
clamped with `MAX (0, MIN (delta, ceiling))` and rounded down to a multiple of
`MARGIN_STEP` under Control. -/
def marginValue (delta maxv opposite : Int) (shift snap : Bool) : Int :=
  let ceiling := if shift then Int.tdiv maxv 2 else maxv - opposite
  let val := max 0 (min delta ceiling)
  if snap then (Int.tdiv val MARGIN_STEP) * MARGIN_STEP else val

/-! ## Example data -/

/-- A glade widget carrying all six properties written by the layout. -/
def sampleGladeWidget : GladeWidget :=
  { name := "button1"
    properties := [PropertyName.margin_top, PropertyName.margin_bottom,
      PropertyName.margin_left, PropertyName.margin_right, PropertyName.valign,
      PropertyName.halign] }

/-- A 50x20 widget at (30, 30) in layout coordinates, without margins. -/
def sampleWidget : Widget :=
  { alloc_width := 50, alloc_height := 20, xx := 30, yy := 30
    margin_top := 0, margin_bottom := 0, margin_left := 0, margin_right := 0
    valign := GTK_ALIGN_START, halign := GTK_ALIGN_FILL
    gwidget := some sampleGladeWidget }

/-- A 6x6 widget at (30, 30): no taller and no wider than twice the outline. -/
def thinWidget : Widget :=
  { sampleWidget with alloc_width := 6, alloc_height := 6 }

/-- A session for a 200x100 child allocated at the origin with offset 16 and
no selection under edit; the rectangles are those `update_rectangles` computes
for a name tab 60 pixels wide and 17 pixels high. -/
def sampleSession : Session :=
  { child_offset := 16
    east := { x := 216, y := 16, width := 16, height := 100 }
    south := { x := 16, y := 116, width := 138, height := 16 }
    south_east := { x := 154, y := 118, width := 68, height := 21 }
    cursor := none, selection := none
    top := 0, bottom := 0, left := 0, right := 0
    m_dy := 0, m_dx := 0, max_width := 0, max_height := 0
    margin := 0, valign := GTK_ALIGN_FILL, halign := GTK_ALIGN_FILL
    node_over := 0, activity := ACTIVITY_NONE, dx := 0, dy := 0
    drag_source := none, drag_x := 0, drag_y := 0
    pointer_mode := GLADE_POINTER_SELECT }

/-- The sample session with `sampleWidget` under margin edit. -/
def marginSession : Session :=
  { sampleSession with
    selection := some sampleWidget, pointer_mode := GLADE_POINTER_MARGIN_EDIT }


/-- A 56x20 widget at (160, 30) whose right edge touches the east rectangle of
`sampleSession`. -/
def edgeWidget : Widget :=
  { sampleWidget with xx := 160, alloc_width := 56 }

/-- The sample session with `edgeWidget` under margin edit. -/
def edgeSession : Session :=
  { sampleSession with
    selection := some edgeWidget, pointer_mode := GLADE_POINTER_MARGIN_EDIT }

/-- Toolkit values for a 200x100 child allocated at the origin and asking for
200x100, in a 232x139 layout that fills its view. -/
def sampleEnv : Env :=
  { child := some
      { allocation := { x := 0, y := 0, width := 200, height := 100 }
        requisition := { width := 200, height := 100 } }
    parent_w := 232, parent_h := 139, layout_w := 232, layout_h := 139
    toplevel_active := true, drag_threshold := false }

/-- A motion far to the upper left of the layout with button 1 held. -/
def farMotion : GdkEventMotion :=
  { x := -5000, y := -7000, button1 := true, shift := false, control := false }

/-- The sample session in the middle of a diagonal resize started with large
recorded deltas. -/
def resizeSession : Session :=
  { sampleSession with
    activity := ACTIVITY_RESIZE_WIDTH_AND_HEIGHT, dx := 1000, dy := 2000 }

/-- The margin-edit session in the Margins activity after a drag of the top and
left edges that ended on the saved margins. -/
def marginDragSession : Session :=
  { marginSession with
    activity := ACTIVITY_MARGINS, margin := 5, m_dx := 28, m_dy := 27 }

/-- The sample session with `sampleWidget` under alignment edit. -/
def alignSession : Session :=
  { sampleSession with
    selection := some sampleWidget, pointer_mode := GLADE_POINTER_ALIGN_EDIT }

/-- A primary-button press on the top outline of `sampleWidget`, away from its
left and right ends. -/
def topAnchorPress : GdkEventButton :=
  { x := 55, y := 28, button := 1, type := GdkEventType.GDK_BUTTON_PRESS }

/-- The session after one more primary press `ev`. -/
def pressStep (env : Env) (ev : GdkEventButton) (priv : Session) : Session :=
  (glade_design_layout_button_press_event env priv ev).priv

/-- Toolkit values like `sampleEnv`, but the view is one pixel taller than
the layout. -/
def tightEnv : Env :=
  { sampleEnv with parent_h := 140 }

/-- The Margins activity on the top edge of `sampleWidget` after a press at
height 28, with the ceilings `gdl_update_max_margins` computes in `tightEnv`. -/
def tightSession : Session :=
  { marginSession with
    activity := ACTIVITY_MARGINS, margin := 1, m_dx := 55, m_dy := 28
    max_width := 0, max_height := -7 }

/-- A motion to (55, 20) with button 1 held and no modifier. -/
def upMotion : GdkEventMotion :=
  { x := 55, y := 20, button1 := true, shift := false, control := false }

/-- Toolkit values like `sampleEnv` for a 232x139 layout in a 400x300 view. -/
def roomyEnv : Env :=
  { sampleEnv with parent_w := 400, parent_h := 300 }

/-- The Margins activity on the top-left corner of `sampleWidget` after a press
at (27, 28), with the ceilings `gdl_update_max_margins` computes in `roomyEnv`. -/
def roomySession : Session :=
  { marginSession with
    activity := ACTIVITY_MARGINS, margin := 5, m_dx := 27, m_dy := 28
    max_width := 160, max_height := 153 }

/-- A motion to (10, 5) with button 1, Shift and Control held. -/
def cornerMotion : GdkEventMotion :=
  { x := 10, y := 5, button1 := true, shift := true, control := true }

/-- The values of `roomyEnv` once the child asks for 224x136 (margins 12 left
and right, 18 top and bottom). -/
def grownEnv : Env :=
  { roomyEnv with
    child := some
      { allocation := { x := 0, y := 0, width := 200, height := 100 }
        requisition := { width := 224, height := 136 } } }

/-- The values of `roomyEnv` once the child asks for 212x126 (margins 0 left,
12 right, 8 top, 18 bottom). -/
def regrownEnv : Env :=
  { roomyEnv with
    child := some
      { allocation := { x := 0, y := 0, width := 200, height := 100 }
        requisition := { width := 212, height := 126 } } }

/-- A motion to (260, 62) with button 1 held and no modifier. -/
def eastMotion : GdkEventMotion :=
  { x := 260, y := 62, button1 := true, shift := false, control := false }

/-- The sample session in the middle of a width resize started on the left
side of the east rectangle. -/
def widthResizeSession : Session :=
  { sampleSession with activity := ACTIVITY_RESIZE_WIDTH, dx := 0, dy := -54 }

/-- The margin-edit session with the ceilings `gdl_update_max_margins` computes
in `roomyEnv`. -/
def roomyMarginSession : Session :=
  { marginSession with max_width := 160, max_height := 153 }

/-- A motion to (20, 20) with button 1 held and no modifier. -/
def cornerPlainMotion : GdkEventMotion :=
  { x := 20, y := 20, button1 := true, shift := false, control := false }

/-- A glade widget that carries no `margin-top` property. -/
def bareGladeWidget : GladeWidget :=
  { name := "item1"
    properties := [PropertyName.margin_bottom, PropertyName.margin_left,
      PropertyName.margin_right] }

/-- The Margins activity on a selection without `margin-top` property whose top
margin was dragged from the saved 0 to 8. -/
def bareDragSession : Session :=
  { marginDragSession with
    selection := some { sampleWidget with margin_top := 8, gwidget := some bareGladeWidget } }

/-- The Margins activity on `sampleWidget` after its top margin was dragged
from the saved 0 to 8. -/
def topDragSession : Session :=
  { marginDragSession with selection := some { sampleWidget with margin_top := 8 } }

/-- The sample session with a vertically centred `sampleWidget` under alignment
edit. -/
def centerAlignSession : Session :=
  { alignSession with selection := some { sampleWidget with valign := GTK_ALIGN_CENTER } }

/-- A primary press without Shift at (26, 26), the corner of the margin hot
zone of `sampleWidget`, with nothing found under the pointer. -/
def hotZonePress : RouterEvent :=
  { press := true, button := 1, shift := false, x := 26, y := 26
    gwidget := none, placeholder := none, selection_in_layout := true }

/-- A primary-button press at (220, 60), inside the east rectangle of
`sampleSession`. -/
def eastPress : GdkEventButton :=
  { x := 220, y := 60, button := 1, type := GdkEventType.GDK_BUTTON_PRESS }

/-- A motion with button 1 held at the position of `eastPress`. -/
def eastPressMotion : GdkEventMotion :=
  { x := 220, y := 60, button1 := true, shift := false, control := false }

/-- The session `glade_design_layout_size_allocate` leaves after initialisation
when a 232x139 layout with border 0 holds the child of `sampleEnv` under a name
tab 60 pixels wide and 17 pixels high. -/
def allocatedSession : Session :=
  (glade_design_layout_size_allocate 0 (glade_design_layout_init GLADE_POINTER_SELECT)
    sampleEnv.child { x := 0, y := 0, width := 232, height := 139 }
    (some { width := 60, height := 17 })).priv

/-- A primary-button press at (212, 62), four pixels left of the east rectangle
of `allocatedSession`. -/
def eastEdgePress : GdkEventButton :=
  { x := 212, y := 62, button := 1, type := GdkEventType.GDK_BUTTON_PRESS }

/-- A visible child asking for 200x100 whose glade widget stores a toplevel
size of 240x80. -/
def storedSizeChild : Child :=
  { allocation := { x := 0, y := 0, width := 200, height := 100 }
    requisition := { width := 200, height := 100 }
    toplevel_width := 240, toplevel_height := 80 }

/-- A primary press with Shift at (40, 40) over an element whose object is
`sampleWidget`, outside any fixed container, which does not handle the event. -/
def shiftPressOverWidget : RouterEvent :=
  { press := true, button := 1, shift := true, x := 40, y := 40
    gwidget := some { object := some sampleWidget, inside_fixed := false, handled := false }
    placeholder := none, selection_in_layout := true }

/-- The sample session in a project whose pointer mode is margin edit. -/
def marginModeSession : Session :=
  { sampleSession with pointer_mode := GLADE_POINTER_MARGIN_EDIT }

/-- A motion to (55, 48), 20 pixels below `topAnchorPress`, with button 1 and
Control held. -/
def downSnapMotion : GdkEventMotion :=
  { x := 55, y := 48, button1 := true, shift := false, control := true }

/-- A motion to (55, 8), 20 pixels above `topAnchorPress`, with button 1 and
Control held. -/
def upSnapMotion : GdkEventMotion :=
  { x := 55, y := 8, button1 := true, shift := false, control := true }

/-- A primary-button press on the bottom outline of `sampleWidget`, away from
its left and right ends. -/
def bottomAnchorPress : GdkEventButton :=
  { x := 55, y := 49, button := 1, type := GdkEventType.GDK_BUTTON_PRESS }

/-- The sample session with a `sampleWidget` under alignment edit whose glade
widget carries no `valign` property. -/
def bareAlignSession : Session :=
  { alignSession with selection := some { sampleWidget with gwidget := some bareGladeWidget } }

/-- The alignment-edit session while the top anchor is hovered. -/
def topHoverSession : Session :=
  { alignSession with node_over := 1, margin := 1 }

/-- A motion without buttons to (31, 28), the top-left corner of the outline of
`sampleWidget`. -/
def topLeftHover : GdkEventMotion :=
  { x := 31, y := 28, button1 := false, shift := false, control := false }

/-- The session after an event has passed `_glade_design_layout_do_event`. -/
def routerStep (env : Env) (project : List ProjectObject) (ev : RouterEvent)
    (priv : Session) : Session :=
  match glade_design_layout_do_event 5 env project priv ev with
  | some result => result.priv
  | none => priv

/-- The session after a button release. -/
def releaseStep (env : Env) (priv : Session) : Session :=
  (glade_design_layout_button_release_event env priv).priv

/-- The sample session after a Shift press over `sampleWidget` in select mode,
which records it as drag source, and the release of the button without a drag:
the drag source stays recorded (it is cleared in `drag_end` only). -/
def staleDragSession : Session :=
  releaseStep sampleEnv (routerStep sampleEnv [] shiftPressOverWidget sampleSession)

/-- Toolkit values like `sampleEnv` when `gtk_drag_check_threshold` finds the
pointer beyond the drag threshold of the recorded drag point. -/
def dragEnv : Env :=
  { sampleEnv with drag_threshold := true }

/-- Toolkit values like `roomyEnv` when `gtk_drag_check_threshold` finds the
pointer beyond the drag threshold of the recorded drag point. -/
def dragRoomyEnv : Env :=
  { roomyEnv with drag_threshold := true }

/-- The session `staleDragSession` after the single selected widget `w` has been
put under margin edit by a press on its margin hot zone, and the button
released. -/
def staleEditSession (w : Widget) : Session :=
  releaseStep roomyEnv
    (routerStep roomyEnv [ProjectObject.widget w] hotZonePress staleDragSession)

/-- A `sampleWidget` with bottom margin 5. -/
def lowWidget : Widget :=
  { sampleWidget with margin_bottom := 5 }

/-- A motion to (55, 20) with button 1 and Shift held. -/
def shiftUpMotion : GdkEventMotion :=
  { x := 55, y := 20, button1 := true, shift := true, control := false }

/-- A primary-button press at (27, 28), on the top-left corner of the outline of
`sampleWidget`. -/
def cornerPress : GdkEventButton :=
  { x := 27, y := 28, button := 1, type := GdkEventType.GDK_BUTTON_PRESS }

/-- A primary-button press at (216, 62), on the left side of the east rectangle
of `allocatedSession`. -/
def eastHandlePress : GdkEventButton :=
  { x := 216, y := 62, button := 1, type := GdkEventType.GDK_BUTTON_PRESS }

/-- The `double` nearest to 0.1, which is 3602879701896397 / 2 ^ 55. -/
def tenthBinary64 : Binary64 :=
  { mantissa := 3602879701896397, scale := 55 }

/-- The `double` 100.5. -/
def halfPixelBinary64 : Binary64 :=
  { mantissa := 201, scale := 1 }

/-- The `double` 62. -/
def pixelBinary64 : Binary64 :=
  { mantissa := 62, scale := 0 }

/-- The session of a layout created for a project in margin-edit mode, before
it is realized. -/
def newLayoutSession : Session :=
  glade_design_layout_init GLADE_POINTER_MARGIN_EDIT

/-- The session `newLayoutSession` with `sampleWidget` under margin edit, as
the selection-changed notification leaves it in `sampleEnv`. -/
def newLayoutEditSession : Session :=
  { newLayoutSession with selection := some sampleWidget }

/-! ## Theorems: hit testing -/

theorem RECTANGLE_POINT_IN_iff (rect : GdkRectangle) (x y : Int) :
    RECTANGLE_POINT_IN rect x y = true ↔
      rect.x ≤ x ∧ x ≤ rect.x + rect.width ∧ rect.y ≤ y ∧ y ≤ rect.y + rect.height := by
  simp [RECTANGLE_POINT_IN, and_assoc]

theorem hitRectangle_point_in_iff (widget : Widget) (x y : Int) :
    RECTANGLE_POINT_IN (hitRectangle widget) x y = true ↔
      widget.xx - widget.margin_left - 4 ≤ x ∧
      x ≤ widget.xx + widget.alloc_width + widget.margin_right + 4 ∧
      widget.yy - widget.margin_top - 4 ≤ y ∧
      y ≤ widget.yy + widget.alloc_height + widget.margin_bottom + 4 := by
  rw [RECTANGLE_POINT_IN_iff]
  simp only [hitRectangle, OUTLINE_WIDTH]
  constructor <;> intro h <;> refine ⟨?_, ?_, ?_, ?_⟩ <;> omega

/-- C5: a point outside the hit rectangle (the selection's allocation grown on
each side by the margin of that side plus the outline width 4) gets the empty
margin set, so no margin bit is ever given to a point farther than the outline
width beyond the margin-inclusive rectangle. -/
theorem margins_from_pointer_outside_empty (widget : Widget) (x y : Int)
    (hout : x < widget.xx - widget.margin_left - 4 ∨
      x > widget.xx + widget.alloc_width + widget.margin_right + 4 ∨
      y < widget.yy - widget.margin_top - 4 ∨
      y > widget.yy + widget.alloc_height + widget.margin_bottom + 4) :
    gdl_get_margins_from_pointer widget x y = 0 := by
  have hnot : ¬ RECTANGLE_POINT_IN (hitRectangle widget) x y = true := by
    rw [hitRectangle_point_in_iff]
    omega
  simp [gdl_get_margins_from_pointer, hnot]

/-- Witness for C5: the point (100, 40) lies right of the hit rectangle of
`sampleWidget`, whose right side is at 84. -/
theorem margins_from_pointer_outside_empty_witness :
    (100 : Int) > 30 + 50 + 0 + 4 ∧ gdl_get_margins_from_pointer sampleWidget 100 40 = 0 :=
  ⟨by decide, margins_from_pointer_outside_empty sampleWidget 100 40 (by decide)⟩

/-- C6: for non-negative margins, a point on the boundary of the hit rectangle
(any of its four sides, corners included) passes the containment test and gets
a non-empty margin set. -/
theorem margins_from_pointer_boundary_inside (widget : Widget) (x y : Int)
    (htop : 0 ≤ widget.margin_top) (hbottom : 0 ≤ widget.margin_bottom)
    (hleft : 0 ≤ widget.margin_left) (hright : 0 ≤ widget.margin_right)
    (hx : widget.xx - widget.margin_left - 4 ≤ x ∧
      x ≤ widget.xx + widget.alloc_width + widget.margin_right + 4)
    (hy : widget.yy - widget.margin_top - 4 ≤ y ∧
      y ≤ widget.yy + widget.alloc_height + widget.margin_bottom + 4)
    (hside : x = widget.xx - widget.margin_left - 4 ∨
      x = widget.xx + widget.alloc_width + widget.margin_right + 4 ∨
      y = widget.yy - widget.margin_top - 4 ∨
      y = widget.yy + widget.alloc_height + widget.margin_bottom + 4) :
    RECTANGLE_POINT_IN (hitRectangle widget) x y = true ∧
      gdl_get_margins_from_pointer widget x y ≠ 0 := by
  have hin : RECTANGLE_POINT_IN (hitRectangle widget) x y = true := by
    rw [hitRectangle_point_in_iff]
    omega
  refine ⟨hin, ?_⟩
  simp only [gdl_get_margins_from_pointer, hin, if_true, OUTLINE_WIDTH]
  split_ifs <;> first | decide | omega

/-- Witness for C6: the top-left corner (26, 26) of the hit rectangle of
`sampleWidget`. -/
theorem margins_from_pointer_boundary_inside_witness :
    RECTANGLE_POINT_IN (hitRectangle sampleWidget) 26 26 = true ∧
      gdl_get_margins_from_pointer sampleWidget 26 26 ≠ 0 :=
  margins_from_pointer_boundary_inside sampleWidget 26 26 (by decide) (by decide)
    (by decide) (by decide) (by decide) (by decide) (by decide)

/-- C7: the margin set never holds Top together with Bottom nor Left together
with Right and holds nothing but the four edge bits; for a point inside the hit
rectangle that passes both the top and the bottom test the set has Top and not
Bottom, and one that passes both the left and the right test has Left and not
Right. -/
theorem margins_from_pointer_exclusive (widget : Widget) (x y : Int) :
    ¬ (hasMargin (gdl_get_margins_from_pointer widget x y) MARGIN_TOP = true ∧
        hasMargin (gdl_get_margins_from_pointer widget x y) MARGIN_BOTTOM = true) ∧
    ¬ (hasMargin (gdl_get_margins_from_pointer widget x y) MARGIN_LEFT = true ∧
        hasMargin (gdl_get_margins_from_pointer widget x y) MARGIN_RIGHT = true) ∧
    gdl_get_margins_from_pointer widget x y ∈ [0, 1, 2, 4, 5, 6, 8, 9, 10] ∧
    (RECTANGLE_POINT_IN (hitRectangle widget) x y = true →
      y ≤ widget.yy + 4 → y ≥ widget.yy + widget.alloc_height - 4 →
      hasMargin (gdl_get_margins_from_pointer widget x y) MARGIN_TOP = true ∧
        hasMargin (gdl_get_margins_from_pointer widget x y) MARGIN_BOTTOM = false) ∧
    (RECTANGLE_POINT_IN (hitRectangle widget) x y = true →
      x ≤ widget.xx + 4 → x ≥ widget.xx + widget.alloc_width - 4 →
      hasMargin (gdl_get_margins_from_pointer widget x y) MARGIN_LEFT = true ∧
        hasMargin (gdl_get_margins_from_pointer widget x y) MARGIN_RIGHT = false) := by
  refine ⟨?_, ?_, ?_, ?_, ?_⟩
  · simp only [gdl_get_margins_from_pointer, OUTLINE_WIDTH]
    split_ifs <;> decide
  · simp only [gdl_get_margins_from_pointer, OUTLINE_WIDTH]
    split_ifs <;> decide
  · simp only [gdl_get_margins_from_pointer, OUTLINE_WIDTH]
    split_ifs <;> decide
  · intro hin htop _
    simp only [gdl_get_margins_from_pointer, OUTLINE_WIDTH, hin, htop, if_true]
    split_ifs <;> decide
  · intro hin hleft _
    simp only [gdl_get_margins_from_pointer, OUTLINE_WIDTH, hin, hleft, if_true]
    split_ifs <;> decide

/-- Witness for C7: (33, 33) passes all four edge tests of the 6x6
`thinWidget`; the set is Top and Left. -/
theorem margins_from_pointer_exclusive_witness :
    gdl_get_margins_from_pointer thinWidget 33 33 = 5 ∧
    (hasMargin (gdl_get_margins_from_pointer thinWidget 33 33) MARGIN_TOP = true ∧
      hasMargin (gdl_get_margins_from_pointer thinWidget 33 33) MARGIN_BOTTOM = false) ∧
    (hasMargin (gdl_get_margins_from_pointer thinWidget 33 33) MARGIN_LEFT = true ∧
      hasMargin (gdl_get_margins_from_pointer thinWidget 33 33) MARGIN_RIGHT = false) :=
  ⟨by decide,
    (margins_from_pointer_exclusive thinWidget 33 33).2.2.2.1 (by decide) (by decide)
      (by decide),
    (margins_from_pointer_exclusive thinWidget 33 33).2.2.2.2 (by decide) (by decide)
      (by decide)⟩

/-- C8: with a selection under edit and a non-empty margin set at the pointer,
the activity is Alignments in pointer mode AlignEdit and Margins in every other
pointer mode, whatever the resize rectangles are. -/
theorem activity_from_pointer_margins (priv : Session) (selection : Widget) (x y : Int)
    (hsel : priv.selection = some selection)
    (hmargin : gdl_get_margins_from_pointer selection x y ≠ 0) :
    (priv.pointer_mode = GLADE_POINTER_ALIGN_EDIT →
      (gdl_get_activity_from_pointer priv x y).1 = ACTIVITY_ALIGNMENTS) ∧
    (priv.pointer_mode ≠ GLADE_POINTER_ALIGN_EDIT →
      (gdl_get_activity_from_pointer priv x y).1 = ACTIVITY_MARGINS) := by
  constructor <;> intro hmode <;>
    simp [gdl_get_activity_from_pointer, hsel, hmargin, hmode]

/-- C9: with no selection under edit, or an empty margin set at the pointer,
the rectangles are tested in the order south-east, east, south and the first
match decides: ResizeBoth, else ResizeWidth, else ResizeHeight, else None. -/
theorem activity_from_pointer_resize (priv : Session) (x y : Int)
    (hsel : priv.selection = none ∨
      ∃ selection, priv.selection = some selection ∧
        gdl_get_margins_from_pointer selection x y = 0) :
    (gdl_get_activity_from_pointer priv x y).1 =
      if RECTANGLE_POINT_IN priv.south_east x y = true then ACTIVITY_RESIZE_WIDTH_AND_HEIGHT
      else if RECTANGLE_POINT_IN priv.east x y = true then ACTIVITY_RESIZE_WIDTH
      else if RECTANGLE_POINT_IN priv.south x y = true then ACTIVITY_RESIZE_HEIGHT
      else ACTIVITY_NONE := by
  rcases hsel with hnone | ⟨selection, hsome, hzero⟩
  · simp [gdl_get_activity_from_pointer, hnone, resizeActivityFromPointer]
  · simp [gdl_get_activity_from_pointer, hsome, hzero, resizeActivityFromPointer]

/-- Witness for C8: (218, 40) is on the right outline of `edgeWidget` and also
inside the east rectangle; in margin-edit mode the activity is Margins. -/
theorem activity_from_pointer_margins_witness :
    RECTANGLE_POINT_IN edgeSession.east 218 40 = true ∧
      (gdl_get_activity_from_pointer edgeSession 218 40).1 = ACTIVITY_MARGINS :=
  ⟨by decide,
    (activity_from_pointer_margins edgeSession edgeWidget 218 40 rfl (by decide)).2
      (by decide)⟩

/-- Witness for C9: with no selection, (154, 120) lies in the south-east and in
the south rectangle; the activity is ResizeBoth. -/
theorem activity_from_pointer_resize_witness :
    RECTANGLE_POINT_IN sampleSession.south 154 120 = true ∧
      (gdl_get_activity_from_pointer sampleSession 154 120).1 =
        ACTIVITY_RESIZE_WIDTH_AND_HEIGHT :=
  ⟨by decide,
    (activity_from_pointer_resize sampleSession 154 120 (Or.inl rfl)).trans (by decide)⟩

/-- C10: the cursor activity of each of the 16 margin sets (bit 0 Top, bit 1
Bottom, bit 2 Left, bit 3 Right): Top with Left gives TopLeft, Top with Right
and no Left gives TopRight, Top alone on its axis gives Vertical; without Top,
Bottom gives BottomLeft, BottomRight or Vertical by the same rule; Left and/or
Right alone give Horizontal; the empty set gives None, and every non-empty set
gives one of the six cursor-only activities. -/
theorem margin_get_activity_table (margin : Margins) (hlt : margin < 16) :
    (margin.testBit 0 = true → margin.testBit 2 = true →
      gdl_margin_get_activity margin = ACTIVITY_MARGINS_TOP_LEFT) ∧
    (margin.testBit 0 = true → margin.testBit 2 = false → margin.testBit 3 = true →
      gdl_margin_get_activity margin = ACTIVITY_MARGINS_TOP_RIGHT) ∧
    (margin.testBit 0 = true → margin.testBit 2 = false → margin.testBit 3 = false →
      gdl_margin_get_activity margin = ACTIVITY_MARGINS_VERTICAL) ∧
    (margin.testBit 0 = false → margin.testBit 1 = true → margin.testBit 2 = true →
      gdl_margin_get_activity margin = ACTIVITY_MARGINS_BOTTOM_LEFT) ∧
    (margin.testBit 0 = false → margin.testBit 1 = true → margin.testBit 2 = false →
      margin.testBit 3 = true →
      gdl_margin_get_activity margin = ACTIVITY_MARGINS_BOTTOM_RIGHT) ∧
    (margin.testBit 0 = false → margin.testBit 1 = true → margin.testBit 2 = false →
      margin.testBit 3 = false →
      gdl_margin_get_activity margin = ACTIVITY_MARGINS_VERTICAL) ∧
    (margin.testBit 0 = false → margin.testBit 1 = false →
      (margin.testBit 2 = true ∨ margin.testBit 3 = true) →
      gdl_margin_get_activity margin = ACTIVITY_MARGINS_HORIZONTAL) ∧
    (margin = 0 → gdl_margin_get_activity margin = ACTIVITY_NONE) ∧
    (margin ≠ 0 →
      gdl_margin_get_activity margin ∈
        [ACTIVITY_MARGINS_VERTICAL, ACTIVITY_MARGINS_HORIZONTAL, ACTIVITY_MARGINS_TOP_LEFT,
          ACTIVITY_MARGINS_TOP_RIGHT, ACTIVITY_MARGINS_BOTTOM_LEFT,
          ACTIVITY_MARGINS_BOTTOM_RIGHT]) := by
  interval_cases margin <;> refine ⟨?_, ?_, ?_, ?_, ?_, ?_, ?_, ?_, ?_⟩ <;> decide

/-- Witness for C10: the set Bottom + Right (value 10). -/
theorem margin_get_activity_table_witness :
    gdl_margin_get_activity 10 = ACTIVITY_MARGINS_BOTTOM_RIGHT :=
  (margin_get_activity_table 10 (by decide)).2.2.2.2.1 (by decide) (by decide) (by decide)
    (by decide)

/-! ## Theorems: resize -/

/-- C1: a motion event in ResizeWidth, ResizeHeight or ResizeBoth hands an
allocation to `glade_design_layout_update_child` whose recomputed width (in
ResizeWidth and ResizeBoth) and recomputed height (in ResizeHeight and
ResizeBoth) are at least 0, for every pointer position and every recorded
delta. -/
theorem resize_motion_nonneg (env : Env) (priv : Session) (ev : GdkEventMotion)
    (child : Child) (hchild : env.child = some child)
    (hdrag : ¬ (ev.button1 = true ∧ priv.drag_source.isSome = true ∧
      env.drag_threshold = true))
    (hact : priv.activity = ACTIVITY_RESIZE_WIDTH ∨
      priv.activity = ACTIVITY_RESIZE_HEIGHT ∨
      priv.activity = ACTIVITY_RESIZE_WIDTH_AND_HEIGHT) :
    ∃ allocation,
      (glade_design_layout_motion_notify_event env priv ev).update = some allocation ∧
      (priv.activity ≠ ACTIVITY_RESIZE_HEIGHT → 0 ≤ allocation.width) ∧
      (priv.activity ≠ ACTIVITY_RESIZE_WIDTH → 0 ≤ allocation.height) := by
  rcases hact with h | h | h <;>
    simp [glade_design_layout_motion_notify_event, hchild, hdrag, h]

/-- Witness for C1: a diagonal resize with recorded deltas (1000, 2000) and the
pointer at (-5000, -7000) yields width 0 and height 0. -/
theorem resize_motion_nonneg_witness :
    (glade_design_layout_motion_notify_event sampleEnv resizeSession farMotion).update
        = some { x := 16, y := 16, width := 0, height := 0 } ∧
    ∃ allocation,
      (glade_design_layout_motion_notify_event sampleEnv resizeSession farMotion).update
        = some allocation ∧
      (resizeSession.activity ≠ ACTIVITY_RESIZE_HEIGHT → 0 ≤ allocation.width) ∧
      (resizeSession.activity ≠ ACTIVITY_RESIZE_WIDTH → 0 ≤ allocation.height) :=
  ⟨by decide,
    resize_motion_nonneg sampleEnv resizeSession farMotion
      { allocation := { x := 0, y := 0, width := 200, height := 100 }
        requisition := { width := 200, height := 100 } }
      rfl (by decide) (by decide)⟩

/-! ## Theorems: release -/

/-- C3: a release in the Margins activity whose selection has the four margins
of the saved pre-edit snapshot issues no `set_property` call. -/
theorem release_unchanged_margins_no_writes (env : Env) (priv : Session)
    (selection : Widget) (hact : priv.activity = ACTIVITY_MARGINS)
    (hsel : priv.selection = some selection)
    (htop : selection.margin_top = priv.top)
    (hbottom : selection.margin_bottom = priv.bottom)
    (hleft : selection.margin_left = priv.left)
    (hright : selection.margin_right = priv.right) :
    setPropertyCount (glade_design_layout_button_release_event env priv).log = 0 := by
  unfold glade_design_layout_button_release_event
  cases hc : env.child with
  | none => simp [setPropertyCount]
  | some c =>
    simp [hsel, hact, releaseMargins, gtk_widget_get_margin_top,
      gtk_widget_get_margin_bottom, gtk_widget_get_margin_left,
      gtk_widget_get_margin_right, htop, hbottom, hleft, hright, setPropertyCount]

/-- Witness for C3: `marginDragSession` holds `sampleWidget` with all margins 0
and a snapshot of four zeros; the release only opens and closes the group. -/
theorem release_unchanged_margins_no_writes_witness :
    (glade_design_layout_button_release_event sampleEnv marginDragSession).log =
        [Command.push_group "Editing margins of %s" (some "button1"), Command.pop_group] ∧
      setPropertyCount
        (glade_design_layout_button_release_event sampleEnv marginDragSession).log = 0 :=
  ⟨by decide,
    release_unchanged_margins_no_writes sampleEnv marginDragSession sampleWidget rfl rfl
      rfl rfl rfl rfl⟩

/-! ## Theorems: alignment clicks -/

theorem hasMargin_ne_zero (margin flag : Margins) (h : hasMargin margin flag = true) :
    margin ≠ 0 := by
  intro hz
  subst hz
  simp [hasMargin] at h

theorem toggleValign_top_involutive (node : Margins)
    (htop : hasMargin node MARGIN_TOP = true) (valign : GtkAlign) :
    toggleValign node (toggleValign node valign) = valign := by
  cases valign <;> simp [toggleValign, alignAnchors, htop]

theorem pressAlignments_fst (w : Widget) (node : Margins) :
    (pressAlignments w node).1 =
      match w.gwidget with
      | none => w
      | some g =>
        { w with
          valign := if PropertyName.valign ∈ g.properties then toggleValign node w.valign
            else w.valign
          halign := if PropertyName.halign ∈ g.properties then toggleHalign node w.halign
            else w.halign } := by
  unfold pressAlignments
  generalize toggleValign node w.valign = v
  generalize toggleHalign node w.halign = h
  obtain ⟨aw, ah, xx, yy, mt, mb, ml, mr, va, ha, gw, wid⟩ := w
  cases gw with
  | none => rfl
  | some g =>
    by_cases hv : va = v <;> by_cases hh : ha = h <;>
    by_cases pv : PropertyName.valign ∈ g.properties <;>
    by_cases ph : PropertyName.halign ∈ g.properties <;>
    simp [setPropertyIfPresent, glade_command_set_property, hv, hh, pv, ph]

theorem pressAlignments_margins_from_pointer (w : Widget) (node : Margins) (x y : Int) :
    gdl_get_margins_from_pointer (pressAlignments w node).1 x y =
      gdl_get_margins_from_pointer w x y := by
  rw [pressAlignments_fst]
  cases w.gwidget <;> rfl

theorem pressAlignments_gwidget (w : Widget) (node : Margins) :
    (pressAlignments w node).1.gwidget = w.gwidget := by
  rw [pressAlignments_fst]
  cases hg : w.gwidget <;> simp [hg]

theorem pressAlignments_valign (w : Widget) (node : Margins) :
    (pressAlignments w node).1.valign =
      match w.gwidget with
      | none => w.valign
      | some g =>
        if PropertyName.valign ∈ g.properties then toggleValign node w.valign
        else w.valign := by
  rw [pressAlignments_fst]
  cases w.gwidget <;> rfl

theorem pressStep_alignments (env : Env) (priv : Session) (ev : GdkEventButton)
    (child : Child) (w : Widget) (hbutton : ev.button = 1)
    (htype : ev.type = GdkEventType.GDK_BUTTON_PRESS) (hchild : env.child = some child)
    (hactive : env.toplevel_active = true) (hsel : priv.selection = some w)
    (hmode : priv.pointer_mode = GLADE_POINTER_ALIGN_EDIT)
    (hnode : gdl_get_margins_from_pointer w ev.x ev.y ≠ 0) :
    (pressStep env ev priv).selection =
        some (pressAlignments w (gdl_get_margins_from_pointer w ev.x ev.y)).1 ∧
      (pressStep env ev priv).pointer_mode = GLADE_POINTER_ALIGN_EDIT := by
  simp [pressStep, glade_design_layout_button_press_event, hbutton, htype, hchild,
    gdl_get_activity_from_pointer, hsel, hnode, hmode, pressTail, hactive]

/-- C4: four successive top-anchor clicks (primary presses at a point whose
margin set holds Top, delivered in pointer mode AlignEdit to a layout whose
toplevel stays active) leave the selection under edit with the vertical
alignment it had before the first click, for each of Start, Center, End and
Fill. -/
theorem top_anchor_click_four_times (env : Env) (priv : Session) (ev : GdkEventButton)
    (child : Child) (w : Widget) (hbutton : ev.button = 1)
    (htype : ev.type = GdkEventType.GDK_BUTTON_PRESS) (hchild : env.child = some child)
    (hactive : env.toplevel_active = true) (hsel : priv.selection = some w)
    (hmode : priv.pointer_mode = GLADE_POINTER_ALIGN_EDIT)
    (htop : hasMargin (gdl_get_margins_from_pointer w ev.x ev.y) MARGIN_TOP = true) :
    ∃ w4, (pressStep env ev (pressStep env ev (pressStep env ev
        (pressStep env ev priv)))).selection = some w4 ∧ w4.valign = w.valign := by
  have hnode := hasMargin_ne_zero _ _ htop
  obtain ⟨s1, m1⟩ :=
    pressStep_alignments env priv ev child w hbutton htype hchild hactive hsel hmode hnode
  have g1 := pressAlignments_margins_from_pointer w
    (gdl_get_margins_from_pointer w ev.x ev.y) ev.x ev.y
  obtain ⟨s2, m2⟩ :=
    pressStep_alignments env _ ev child _ hbutton htype hchild hactive s1 m1
      (by rw [g1]; exact hnode)
  rw [g1] at s2
  have g2 := pressAlignments_margins_from_pointer
    (pressAlignments w (gdl_get_margins_from_pointer w ev.x ev.y)).1
    (gdl_get_margins_from_pointer w ev.x ev.y) ev.x ev.y
  rw [g1] at g2
  obtain ⟨s3, m3⟩ :=
    pressStep_alignments env _ ev child _ hbutton htype hchild hactive s2 m2
      (by rw [g2]; exact hnode)
  rw [g2] at s3
  have g3 := pressAlignments_margins_from_pointer
    (pressAlignments (pressAlignments w (gdl_get_margins_from_pointer w ev.x ev.y)).1
      (gdl_get_margins_from_pointer w ev.x ev.y)).1
    (gdl_get_margins_from_pointer w ev.x ev.y) ev.x ev.y
  rw [g2] at g3
  obtain ⟨s4, _⟩ :=
    pressStep_alignments env _ ev child _ hbutton htype hchild hactive s3 m3
      (by rw [g3]; exact hnode)
  rw [g3] at s4
  refine ⟨_, s4, ?_⟩
  generalize gdl_get_margins_from_pointer w ev.x ev.y = node at htop
  simp only [pressAlignments_valign, pressAlignments_gwidget]
  cases hg : w.gwidget with
  | none => rfl
  | some g =>
    by_cases pv : PropertyName.valign ∈ g.properties
    · simp only [pv, if_true, toggleValign_top_involutive node htop]
    · simp only [pv, if_false]

/-- Witness for C4: four clicks on the top outline of `sampleWidget`, whose
vertical alignment is Start; the first click alone gives Center. -/
theorem top_anchor_click_four_times_witness :
    (pressStep sampleEnv topAnchorPress alignSession).selection
        = some { sampleWidget with valign := GTK_ALIGN_CENTER } ∧
    ∃ w4, (pressStep sampleEnv topAnchorPress (pressStep sampleEnv topAnchorPress
        (pressStep sampleEnv topAnchorPress
          (pressStep sampleEnv topAnchorPress alignSession)))).selection = some w4 ∧
      w4.valign = GTK_ALIGN_START :=
  ⟨by decide,
    top_anchor_click_four_times sampleEnv alignSession topAnchorPress
      { allocation := { x := 0, y := 0, width := 200, height := 100 }
        requisition := { width := 200, height := 100 } }
      sampleWidget rfl rfl rfl rfl rfl rfl (by decide)⟩

/-! ## Theorems: margin ceilings -/

theorem snap_bounds (v : Int) (hv : 0 ≤ v) :
    0 ≤ Int.tdiv v 6 * 6 ∧ Int.tdiv v 6 * 6 ≤ v ∧ v < Int.tdiv v 6 * 6 + 6 := by
  rw [Int.tdiv_eq_ediv hv (by decide)]
  omega

theorem half_bounds (m : Int) (hm : 0 ≤ m) :
    0 ≤ Int.tdiv m 2 ∧ Int.tdiv m 2 + Int.tdiv m 2 ≤ m := by
  rw [Int.tdiv_eq_ediv hm (by decide)]
  omega

theorem motionMarginsVertical_some (priv : Session) (ev : GdkEventMotion) (w : Widget)
    (htop : 0 ≤ w.margin_top) (hbottom : 0 ≤ w.margin_bottom)
    (hceil : w.margin_top + w.margin_bottom ≤ priv.max_height) :
    ∃ w1, motionMarginsVertical priv ev (some w) = some w1 ∧
      w1.margin_left = w.margin_left ∧ w1.margin_right = w.margin_right ∧
      0 ≤ w1.margin_top ∧ 0 ≤ w1.margin_bottom ∧
      w1.margin_top + w1.margin_bottom ≤ priv.max_height := by
  have hh := half_bounds priv.max_height (by omega)
  have hs := fun v : Int => snap_bounds (max 0 v) (le_max_left 0 v)
  unfold motionMarginsVertical
  by_cases bt : hasMargin priv.margin MARGIN_TOP = true <;>
  by_cases bb : hasMargin priv.margin MARGIN_BOTTOM = true <;>
  cases hshift : ev.shift <;> cases hsnap : ev.control <;>
  simp only [bt, bb, if_true, if_false, Bool.false_eq_true, gtk_widget_set_margin_top,
    gtk_widget_set_margin_bottom, gtk_widget_get_margin_top, gtk_widget_get_margin_bottom,
    Option.map_some', MARGIN_STEP] <;>
  refine ⟨_, rfl, ?_⟩ <;> dsimp only <;>
  first
  | omega
  | (have h1 := hs (min (priv.m_dy - ev.y) (priv.max_height - w.margin_bottom))
     have h2 := hs (min (ev.y - priv.m_dy) (priv.max_height - w.margin_top))
     have h3 := hs (min (priv.m_dy - ev.y) (Int.tdiv priv.max_height 2))
     have h4 := hs (min (ev.y - priv.m_dy) (Int.tdiv priv.max_height 2))
     omega)

theorem motionMarginsHorizontal_some (priv : Session) (ev : GdkEventMotion) (w : Widget)
    (hleft : 0 ≤ w.margin_left) (hright : 0 ≤ w.margin_right)
    (hceil : w.margin_left + w.margin_right ≤ priv.max_width) :
    ∃ w1, motionMarginsHorizontal priv ev (some w) = some w1 ∧
      w1.margin_top = w.margin_top ∧ w1.margin_bottom = w.margin_bottom ∧
      0 ≤ w1.margin_left ∧ 0 ≤ w1.margin_right ∧
      w1.margin_left + w1.margin_right ≤ priv.max_width := by
  have hh := half_bounds priv.max_width (by omega)
  have hs := fun v : Int => snap_bounds (max 0 v) (le_max_left 0 v)
  unfold motionMarginsHorizontal
  by_cases bl : hasMargin priv.margin MARGIN_LEFT = true <;>
  by_cases br : hasMargin priv.margin MARGIN_RIGHT = true <;>
  cases hshift : ev.shift <;> cases hsnap : ev.control <;>
  simp only [bl, br, if_true, if_false, Bool.false_eq_true, gtk_widget_set_margin_left,
    gtk_widget_set_margin_right, gtk_widget_get_margin_left, gtk_widget_get_margin_right,
    Option.map_some', MARGIN_STEP] <;>
  refine ⟨_, rfl, ?_⟩ <;> dsimp only <;>
  first
  | omega
  | (have h1 := hs (min (priv.m_dx - ev.x) (priv.max_width - w.margin_right))
     have h2 := hs (min (ev.x - priv.m_dx) (priv.max_width - w.margin_left))
     have h3 := hs (min (priv.m_dx - ev.x) (Int.tdiv priv.max_width 2))
     have h4 := hs (min (ev.x - priv.m_dx) (Int.tdiv priv.max_width 2))
     omega)

theorem motionMarginsVertical_none (priv : Session) (ev : GdkEventMotion) :
    motionMarginsVertical priv ev none = none := by
  simp only [motionMarginsVertical, gtk_widget_set_margin_top,
    gtk_widget_set_margin_bottom, Option.map_none', ite_self]

theorem motionMarginsHorizontal_none (priv : Session) (ev : GdkEventMotion) :
    motionMarginsHorizontal priv ev none = none := by
  simp only [motionMarginsHorizontal, gtk_widget_set_margin_left,
    gtk_widget_set_margin_right, Option.map_none', ite_self]

theorem motionMargins_bounds (priv : Session) (ev : GdkEventMotion)
    (hnonneg : marginsNonneg priv) (hceil : marginsWithinCeilings priv) :
    marginsNonneg (motionMargins priv ev) ∧
      marginsWithinCeilings (motionMargins priv ev) := by
  unfold marginsNonneg marginsWithinCeilings at *
  cases hsel : priv.selection with
  | none =>
    simp only [hsel] at hnonneg hceil
    simp only [motionMargins, hsel, motionMarginsVertical_none,
      motionMarginsHorizontal_none]
    exact ⟨hnonneg, hceil⟩
  | some w =>
    simp only [hsel, gtk_widget_get_margin_top, gtk_widget_get_margin_bottom,
      gtk_widget_get_margin_left, gtk_widget_get_margin_right] at hnonneg hceil
    obtain ⟨w1, e1, l1, r1, t1, b1, c1⟩ :=
      motionMarginsVertical_some priv ev w hnonneg.1 hnonneg.2.1 hceil.1
    obtain ⟨w2, e2, t2, b2, l2, r2, c2⟩ :=
      motionMarginsHorizontal_some priv ev w1 (by omega) (by omega) (by omega)
    simp only [motionMargins, hsel, e1, e2, gtk_widget_get_margin_top,
      gtk_widget_get_margin_bottom, gtk_widget_get_margin_left,
      gtk_widget_get_margin_right]
    refine ⟨⟨?_, ?_, ?_, ?_⟩, ?_, ?_⟩ <;> omega

theorem motionMarginsVertical_isSome (priv : Session) (ev : GdkEventMotion)
    (selection : Option Widget) :
    (motionMarginsVertical priv ev selection).isSome = selection.isSome := by
  cases selection with
  | none => rw [motionMarginsVertical_none]
  | some w =>
    simp only [motionMarginsVertical, gtk_widget_set_margin_top,
      gtk_widget_set_margin_bottom, Option.map_some']
    split_ifs <;> rfl

theorem motionMarginsHorizontal_isSome (priv : Session) (ev : GdkEventMotion)
    (selection : Option Widget) :
    (motionMarginsHorizontal priv ev selection).isSome = selection.isSome := by
  cases selection with
  | none => rw [motionMarginsHorizontal_none]
  | some w =>
    simp only [motionMarginsHorizontal, gtk_widget_set_margin_left,
      gtk_widget_set_margin_right, Option.map_some']
    split_ifs <;> rfl

theorem motionMargins_selection_isSome (priv : Session) (ev : GdkEventMotion) :
    (motionMargins priv ev).selection.isSome = priv.selection.isSome := by
  simp only [motionMargins, motionMarginsHorizontal_isSome, motionMarginsVertical_isSome]

theorem update_child_selection (env : Env) (priv : Session) (child : Child)
    (allocation : GdkRectangle) :
    (glade_design_layout_update_child env priv child allocation).selection
      = priv.selection := by
  unfold glade_design_layout_update_child
  split_ifs <;> rfl

theorem motionStep_clamped (env : Env) (ev : GdkEventMotion) (priv : Session)
    (hact : priv.activity = ACTIVITY_MARGINS) (hnonneg : marginsNonneg priv)
    (hceil : marginsWithinCeilings priv) :
    marginsNonneg (motionStep env ev priv) ∧
      marginsWithinCeilingsOf priv (motionStep env ev priv) ∧
      (motionStep env ev priv).activity = ACTIVITY_MARGINS := by
  unfold motionStep glade_design_layout_motion_notify_event
  cases hchild : env.child with
  | none => exact ⟨hnonneg, hceil, hact⟩
  | some child =>
    by_cases hdrag : ev.button1 = true ∧ priv.drag_source.isSome = true ∧
        env.drag_threshold = true
    · simp only [hdrag, and_self, if_true]
      exact ⟨hnonneg, hceil, hact⟩
    · simp only [hdrag, if_false, hact]
      obtain ⟨hn, hc⟩ := motionMargins_bounds priv ev hnonneg hceil
      have hs := update_child_selection env (motionMargins priv ev) child
        { x := child.allocation.x + priv.child_offset
          y := child.allocation.y + priv.child_offset
          width := child.allocation.width, height := child.allocation.height }
      have ha : (glade_design_layout_update_child env (motionMargins priv ev) child
          { x := child.allocation.x + priv.child_offset
            y := child.allocation.y + priv.child_offset
            width := child.allocation.width, height := child.allocation.height }).activity
          = priv.activity := by
        unfold glade_design_layout_update_child
        split_ifs <;> rfl
      unfold marginsNonneg marginsWithinCeilingsOf marginsWithinCeilings at *
      rw [hs]
      exact ⟨hn, hc, ha.trans hact⟩

/-- C2 (amended): for a session in the Margins activity whose margins are
non-negative and within its ceilings (top + bottom at most `max_height`, left +
right at most `max_width`), after every sequence of motion events (any pointer
positions, any grabbed edges, with or without Shift and Control) during which
the recomputation of the ceilings lowers none of them, the margins are within
the current ceilings and non-negative and the activity is still Margins; and
whatever the toolkit values of a further motion are, the margins after it are
within the ceilings that were in force when it was handled. -/
theorem margin_ceiling_sequence (priv : Session) (events : List (Env × GdkEventMotion))
    (hact : priv.activity = ACTIVITY_MARGINS) (hnonneg : marginsNonneg priv)
    (hceil : marginsWithinCeilings priv) (hkept : ceilingsKept priv events = true) :
    marginsWithinCeilings (motionSeq priv events) ∧
      marginsNonneg (motionSeq priv events) ∧
      (motionSeq priv events).activity = ACTIVITY_MARGINS ∧
      ∀ env ev, marginsWithinCeilingsOf (motionSeq priv events)
        (motionStep env ev (motionSeq priv events)) := by
  induction events generalizing priv with
  | nil =>
    exact ⟨hceil, hnonneg, hact,
      fun env ev => (motionStep_clamped env ev priv hact hnonneg hceil).2.1⟩
  | cons e rest ih =>
    obtain ⟨h1, h2, h3⟩ := motionStep_clamped e.1 e.2 priv hact hnonneg hceil
    simp only [ceilingsKept, Bool.and_eq_true, decide_eq_true_eq] at hkept
    obtain ⟨⟨k1, k2⟩, k3⟩ := hkept
    have hc : marginsWithinCeilings (motionStep e.1 e.2 priv) := by
      unfold marginsWithinCeilings
      unfold marginsWithinCeilingsOf at h2
      exact ⟨h2.1.trans k1, h2.2.trans k2⟩
    exact ih (motionStep e.1 e.2 priv) h3 h1 hc k3

/-- Witness for C2: a corner drag with Shift and Control followed by a plain
motion, from `roomySession`; the ceilings stay at 153 and 160 and the margins
end at top 8, bottom 18, left 0 and right 12. -/
theorem margin_ceiling_sequence_witness :
    (motionSeq roomySession [(grownEnv, cornerMotion), (regrownEnv, upMotion)]).selection
        = some { sampleWidget with
            margin_top := 8, margin_bottom := 18, margin_left := 0, margin_right := 12 } ∧
      (motionSeq roomySession [(grownEnv, cornerMotion), (regrownEnv, upMotion)]).max_height
        = 153 ∧
      (motionSeq roomySession [(grownEnv, cornerMotion), (regrownEnv, upMotion)]).max_width
        = 160 ∧
      marginsWithinCeilings
        (motionSeq roomySession [(grownEnv, cornerMotion), (regrownEnv, upMotion)]) :=
  ⟨by decide, by decide, by decide,
    (margin_ceiling_sequence roomySession
      [(grownEnv, cornerMotion), (regrownEnv, upMotion)] rfl (by decide) (by decide)
      (by decide)).1⟩

/-- Counterexample for C2 as stated. In `tightEnv` the view is one pixel taller
than the layout, so `gdl_update_max_margins` yields `max_height = -7`: after a
motion in the Margins activity the top and bottom margins of `tightSession` are
0, as the clamp `MAX (0, ...)` leaves them, and their sum exceeds the ceiling
recomputed by that motion, which is again -7. And from `roomySession`, whose
margins are within its ceilings 153 and 160, a motion delivered with the values
of `tightEnv` writes top margin 8 and lowers `max_height` to 1. -/
theorem margin_ceiling_counterexample :
    tightSession.activity = ACTIVITY_MARGINS ∧
      (motionStep tightEnv upMotion tightSession).max_height = -7 ∧
      gtk_widget_get_margin_top (motionStep tightEnv upMotion tightSession).selection = 0 ∧
      gtk_widget_get_margin_bottom (motionStep tightEnv upMotion tightSession).selection
        = 0 ∧
      ¬ marginsWithinCeilings (motionStep tightEnv upMotion tightSession) ∧
      roomySession.activity = ACTIVITY_MARGINS ∧ marginsNonneg roomySession ∧
      marginsWithinCeilings roomySession ∧ roomySession.max_height = 153 ∧
      gtk_widget_get_margin_top (motionStep tightEnv upMotion roomySession).selection = 8 ∧
      (motionStep tightEnv upMotion roomySession).max_height = 1 ∧
      ¬ marginsWithinCeilings (motionStep tightEnv upMotion roomySession) := by
  decide

/-! ## Theorems: resize axes and release -/

/-- C11 (amended): a resize motion that does not begin a drag (button 1 held,
a drag source recorded and the drag threshold passed) recomputes only the axes
of its activity. In ResizeWidth the allocation handed on has width
max(0, x - dx - 12 - 4) and the child's allocated height; in ResizeHeight it
has height max(0, y - dy - 12 - 4) and the child's allocated width; in
ResizeBoth both formulas apply. -/
theorem resize_motion_axes (env : Env) (priv : Session) (ev : GdkEventMotion)
    (child : Child) (hchild : env.child = some child)
    (hdrag : ¬ (ev.button1 = true ∧ priv.drag_source.isSome = true ∧
      env.drag_threshold = true)) :
    (priv.activity = ACTIVITY_RESIZE_WIDTH →
      ∃ a, (glade_design_layout_motion_notify_event env priv ev).update = some a ∧
        a.width = max 0 (ev.x - priv.dx - 12 - 4) ∧
        a.height = child.allocation.height) ∧
    (priv.activity = ACTIVITY_RESIZE_HEIGHT →
      ∃ a, (glade_design_layout_motion_notify_event env priv ev).update = some a ∧
        a.height = max 0 (ev.y - priv.dy - 12 - 4) ∧
        a.width = child.allocation.width) ∧
    (priv.activity = ACTIVITY_RESIZE_WIDTH_AND_HEIGHT →
      ∃ a, (glade_design_layout_motion_notify_event env priv ev).update = some a ∧
        a.width = max 0 (ev.x - priv.dx - 12 - 4) ∧
        a.height = max 0 (ev.y - priv.dy - 12 - 4)) := by
  refine ⟨?_, ?_, ?_⟩ <;> intro h <;>
    simp [glade_design_layout_motion_notify_event, hchild, hdrag, h, PADDING,
      OUTLINE_WIDTH]

/-- Witness for C11: a width resize with recorded delta 0 and the pointer at
(260, 62) hands on width 244 and the child's height 100. -/
theorem resize_motion_axes_witness :
    (glade_design_layout_motion_notify_event sampleEnv widthResizeSession eastMotion).update
        = some { x := 16, y := 16, width := 244, height := 100 } ∧
    ∃ a, (glade_design_layout_motion_notify_event sampleEnv widthResizeSession
        eastMotion).update = some a ∧
      a.width = max 0 (eastMotion.x - widthResizeSession.dx - 12 - 4) ∧
      a.height = 100 :=
  ⟨by decide,
    (resize_motion_axes sampleEnv widthResizeSession eastMotion
      { allocation := { x := 0, y := 0, width := 200, height := 100 }
        requisition := { width := 200, height := 100 } }
      rfl (by decide)).1 rfl⟩

/-- Counterexample for C11 as stated: with a drag source left recorded by an
earlier Shift press, a press on the east rectangle starts ResizeWidth, and the
motion to (260, 62) beyond the drag threshold begins a drag and computes no
width at all. -/
theorem resize_motion_axes_counterexample :
    staleDragSession.drag_source = some sampleWidget ∧
      (pressStep sampleEnv eastPress staleDragSession).activity = ACTIVITY_RESIZE_WIDTH ∧
      eastMotion.button1 = true ∧ dragEnv.drag_threshold = true ∧
      (glade_design_layout_motion_notify_event dragEnv
        (pressStep sampleEnv eastPress staleDragSession) eastMotion).update = none ∧
      (glade_design_layout_motion_notify_event dragEnv
        (pressStep sampleEnv eastPress staleDragSession) eastMotion).drag_begin = true := by
  decide

theorem gdl_set_cursor_none_cursor (priv : Session) :
    (gdl_set_cursor priv none).cursor = none := by
  unfold gdl_set_cursor
  split_ifs with h
  · rfl
  · simp only [ne_eq, not_not] at h
    exact h.symm

theorem gdl_set_cursor_activity (priv : Session) (cursor : Option GdkCursor) :
    (gdl_set_cursor priv cursor).activity = priv.activity := by
  unfold gdl_set_cursor
  split_ifs <;> rfl

/-- C17: with an embedded child, a button release leaves the activity None and
the current cursor cleared, whatever the activity was before. -/
theorem release_resets_activity (env : Env) (priv : Session) (child : Child)
    (hchild : env.child = some child) :
    (glade_design_layout_button_release_event env priv).priv.activity = ACTIVITY_NONE ∧
      (glade_design_layout_button_release_event env priv).priv.cursor = none := by
  unfold glade_design_layout_button_release_event
  simp only [hchild]
  generalize (match priv.selection with
    | some selection =>
      if priv.activity = ACTIVITY_MARGINS then
        match releaseMargins priv selection with
        | (selection, log) => ({ priv with selection := some selection }, log)
      else if priv.activity = ACTIVITY_ALIGNMENTS then ({ priv with node_over := 0 }, [])
      else (priv, [])
    | none =>
      if priv.activity = ACTIVITY_ALIGNMENTS then ({ priv with node_over := 0 }, [])
      else (priv, [])) = r
  obtain ⟨p, l⟩ := r
  exact ⟨gdl_set_cursor_activity _ _, gdl_set_cursor_none_cursor _⟩

/-- Witness for C17: releasing the diagonal resize of `resizeSession`. -/
theorem release_resets_activity_witness :
    resizeSession.activity = ACTIVITY_RESIZE_WIDTH_AND_HEIGHT ∧
      (glade_design_layout_button_release_event sampleEnv resizeSession).priv.activity
        = ACTIVITY_NONE ∧
      (glade_design_layout_button_release_event sampleEnv resizeSession).priv.cursor
        = none :=
  ⟨rfl,
    release_resets_activity sampleEnv resizeSession
      { allocation := { x := 0, y := 0, width := 200, height := 100 }
        requisition := { width := 200, height := 100 } } rfl⟩

/-! ## Theorems: margin drags -/

theorem motionMarginsVertical_top (priv : Session) (ev : GdkEventMotion) (w : Widget)
    (htop : hasMargin priv.margin MARGIN_TOP = true) :
    motionMarginsVertical priv ev (some w) =
      some { w with
        margin_top := marginValue (priv.m_dy - ev.y) priv.max_height w.margin_bottom
          ev.shift ev.control
        margin_bottom :=
          if ev.shift then
            marginValue (priv.m_dy - ev.y) priv.max_height w.margin_bottom ev.shift
              ev.control
          else w.margin_bottom } := by
  unfold motionMarginsVertical marginValue
  cases hshift : ev.shift <;> cases hsnap : ev.control <;>
    simp [htop, gtk_widget_set_margin_top, gtk_widget_set_margin_bottom,
      gtk_widget_get_margin_bottom]

theorem motionMarginsVertical_bottom (priv : Session) (ev : GdkEventMotion) (w : Widget)
    (htop : hasMargin priv.margin MARGIN_TOP = false)
    (hbottom : hasMargin priv.margin MARGIN_BOTTOM = true) :
    motionMarginsVertical priv ev (some w) =
      some { w with
        margin_bottom := marginValue (ev.y - priv.m_dy) priv.max_height w.margin_top
          ev.shift ev.control
        margin_top :=
          if ev.shift then
            marginValue (ev.y - priv.m_dy) priv.max_height w.margin_top ev.shift
              ev.control
          else w.margin_top } := by
  unfold motionMarginsVertical marginValue
  cases hshift : ev.shift <;> cases hsnap : ev.control <;>
    simp [htop, hbottom, gtk_widget_set_margin_top, gtk_widget_set_margin_bottom,
      gtk_widget_get_margin_top]

theorem motionMarginsVertical_idle (priv : Session) (ev : GdkEventMotion)
    (selection : Option Widget)
    (htop : hasMargin priv.margin MARGIN_TOP = false)
    (hbottom : hasMargin priv.margin MARGIN_BOTTOM = false) :
    motionMarginsVertical priv ev selection = selection := by
  simp [motionMarginsVertical, htop, hbottom]

theorem motionMarginsHorizontal_left (priv : Session) (ev : GdkEventMotion) (w : Widget)
    (hleft : hasMargin priv.margin MARGIN_LEFT = true) :
    motionMarginsHorizontal priv ev (some w) =
      some { w with
        margin_left := marginValue (priv.m_dx - ev.x) priv.max_width w.margin_right
          ev.shift ev.control
        margin_right :=
          if ev.shift then
            marginValue (priv.m_dx - ev.x) priv.max_width w.margin_right ev.shift
              ev.control
          else w.margin_right } := by
  unfold motionMarginsHorizontal marginValue
  cases hshift : ev.shift <;> cases hsnap : ev.control <;>
    simp [hleft, gtk_widget_set_margin_left, gtk_widget_set_margin_right,
      gtk_widget_get_margin_right]

theorem motionMarginsHorizontal_right (priv : Session) (ev : GdkEventMotion) (w : Widget)
    (hleft : hasMargin priv.margin MARGIN_LEFT = false)
    (hright : hasMargin priv.margin MARGIN_RIGHT = true) :
    motionMarginsHorizontal priv ev (some w) =
      some { w with
        margin_right := marginValue (ev.x - priv.m_dx) priv.max_width w.margin_left
          ev.shift ev.control
        margin_left :=
          if ev.shift then
            marginValue (ev.x - priv.m_dx) priv.max_width w.margin_left ev.shift
              ev.control
          else w.margin_left } := by
  unfold motionMarginsHorizontal marginValue
  cases hshift : ev.shift <;> cases hsnap : ev.control <;>
    simp [hleft, hright, gtk_widget_set_margin_left, gtk_widget_set_margin_right,
      gtk_widget_get_margin_left]

theorem motionMarginsHorizontal_idle (priv : Session) (ev : GdkEventMotion)
    (selection : Option Widget)
    (hleft : hasMargin priv.margin MARGIN_LEFT = false)
    (hright : hasMargin priv.margin MARGIN_RIGHT = false) :
    motionMarginsHorizontal priv ev selection = selection := by
  simp [motionMarginsHorizontal, hleft, hright]

theorem motionStep_margins_selection (env : Env) (ev : GdkEventMotion) (priv : Session)
    (child : Child) (hchild : env.child = some child)
    (hdrag : ¬ (ev.button1 = true ∧ priv.drag_source.isSome = true ∧
      env.drag_threshold = true))
    (hact : priv.activity = ACTIVITY_MARGINS) :
    (motionStep env ev priv).selection =
      motionMarginsHorizontal priv ev (motionMarginsVertical priv ev priv.selection) := by
  simp only [motionStep, glade_design_layout_motion_notify_event, hchild, hdrag, if_false,
    hact, update_child_selection, motionMargins]

theorem motionStep_margins_values (env : Env) (ev : GdkEventMotion) (priv : Session)
    (child : Child) (w : Widget) (hchild : env.child = some child)
    (hdrag : ¬ (ev.button1 = true ∧ priv.drag_source.isSome = true ∧
      env.drag_threshold = true))
    (hact : priv.activity = ACTIVITY_MARGINS) (hsel : priv.selection = some w) :
    ∃ w2, (motionStep env ev priv).selection = some w2 ∧
      w2.margin_top =
        (if hasMargin priv.margin MARGIN_TOP = true then
          marginValue (priv.m_dy - ev.y) priv.max_height w.margin_bottom ev.shift ev.control
        else if hasMargin priv.margin MARGIN_BOTTOM = true ∧ ev.shift = true then
          marginValue (ev.y - priv.m_dy) priv.max_height w.margin_top ev.shift ev.control
        else w.margin_top) ∧
      w2.margin_bottom =
        (if hasMargin priv.margin MARGIN_TOP = true then
          (if ev.shift = true then
            marginValue (priv.m_dy - ev.y) priv.max_height w.margin_bottom ev.shift
              ev.control
          else w.margin_bottom)
        else if hasMargin priv.margin MARGIN_BOTTOM = true then
          marginValue (ev.y - priv.m_dy) priv.max_height w.margin_top ev.shift ev.control
        else w.margin_bottom) ∧
      w2.margin_left =
        (if hasMargin priv.margin MARGIN_LEFT = true then
          marginValue (priv.m_dx - ev.x) priv.max_width w.margin_right ev.shift ev.control
        else if hasMargin priv.margin MARGIN_RIGHT = true ∧ ev.shift = true then
          marginValue (ev.x - priv.m_dx) priv.max_width w.margin_left ev.shift ev.control
        else w.margin_left) ∧
      w2.margin_right =
        (if hasMargin priv.margin MARGIN_LEFT = true then
          (if ev.shift = true then
            marginValue (priv.m_dx - ev.x) priv.max_width w.margin_right ev.shift
              ev.control
          else w.margin_right)
        else if hasMargin priv.margin MARGIN_RIGHT = true then
          marginValue (ev.x - priv.m_dx) priv.max_width w.margin_left ev.shift ev.control
        else w.margin_right) := by
  rw [motionStep_margins_selection env ev priv child hchild hdrag hact, hsel]
  cases ht : hasMargin priv.margin MARGIN_TOP <;>
  cases hb : hasMargin priv.margin MARGIN_BOTTOM <;>
  cases hl : hasMargin priv.margin MARGIN_LEFT <;>
  cases hr : hasMargin priv.margin MARGIN_RIGHT <;>
  first
  | rw [motionMarginsVertical_top priv ev w ht]
  | rw [motionMarginsVertical_bottom priv ev w ht hb]
  | rw [motionMarginsVertical_idle priv ev _ ht hb]
  all_goals first
  | rw [motionMarginsHorizontal_left priv ev _ hl]
  | rw [motionMarginsHorizontal_right priv ev _ hl hr]
  | rw [motionMarginsHorizontal_idle priv ev _ hl hr]
  all_goals
    refine ⟨_, rfl, ?_⟩
    cases ev.shift <;> simp

theorem pressStep_margins_fields (env : Env) (priv : Session) (ev : GdkEventButton)
    (child : Child) (w : Widget) (hbutton : ev.button = 1)
    (htype : ev.type = GdkEventType.GDK_BUTTON_PRESS) (hchild : env.child = some child)
    (hsel : priv.selection = some w)
    (hmode : priv.pointer_mode ≠ GLADE_POINTER_ALIGN_EDIT)
    (hnode : gdl_get_margins_from_pointer w ev.x ev.y ≠ 0) :
    (pressStep env ev priv).selection = some w ∧
      (pressStep env ev priv).activity = ACTIVITY_MARGINS ∧
      (pressStep env ev priv).margin = gdl_get_margins_from_pointer w ev.x ev.y ∧
      (pressStep env ev priv).m_dx = ev.x +
        (if hasMargin (gdl_get_margins_from_pointer w ev.x ev.y) MARGIN_LEFT = true then
          w.margin_left else w.margin_right * -1) ∧
      (pressStep env ev priv).m_dy = ev.y +
        (if hasMargin (gdl_get_margins_from_pointer w ev.x ev.y) MARGIN_TOP = true then
          w.margin_top else w.margin_bottom * -1) ∧
      (pressStep env ev priv).max_width = priv.max_width ∧
      (pressStep env ev priv).max_height = priv.max_height ∧
      (pressStep env ev priv).drag_source = priv.drag_source := by
  simp only [pressStep, glade_design_layout_button_press_event, hbutton, htype, hchild,
    gdl_get_activity_from_pointer, hsel, hnode, hmode, gdl_set_cursor,
    gtk_widget_get_margin_left, gtk_widget_get_margin_right, gtk_widget_get_margin_top,
    gtk_widget_get_margin_bottom, ne_eq, not_true_eq_false, not_false_eq_true, or_self,
    if_true, if_false]
  split_ifs <;> simp

/-- C12 (amended): after a Margins press at (x0, y0) on a selection edge with
margin m, a following motion to (x, y) without modifiers that does not begin a
drag (button 1 held, a drag source recorded and the drag threshold passed) sets
that margin to max(0, min(m + d, ceiling)), where d is y0 - y for Top, y - y0
for Bottom, x0 - x for Left and x - x0 for Right and the ceiling is
`max_height` (resp. `max_width`) minus the margin of the opposite edge; a
motion at the press position leaves the margin as it was when
0 <= m <= ceiling. -/
theorem margin_drag_tracks_edge (envP envM : Env) (priv : Session) (evP : GdkEventButton)
    (evM : GdkEventMotion) (childP childM : Child) (w : Widget)
    (hbutton : evP.button = 1) (htype : evP.type = GdkEventType.GDK_BUTTON_PRESS)
    (hchildP : envP.child = some childP) (hsel : priv.selection = some w)
    (hmode : priv.pointer_mode ≠ GLADE_POINTER_ALIGN_EDIT)
    (hnode : gdl_get_margins_from_pointer w evP.x evP.y ≠ 0)
    (hchildM : envM.child = some childM)
    (hdrag : ¬ (evM.button1 = true ∧ priv.drag_source.isSome = true ∧
      envM.drag_threshold = true))
    (hshift : evM.shift = false) (hsnap : evM.control = false) :
    ∃ w2, (motionStep envM evM (pressStep envP evP priv)).selection = some w2 ∧
      (hasMargin (gdl_get_margins_from_pointer w evP.x evP.y) MARGIN_TOP = true →
        w2.margin_top = max 0 (min (w.margin_top + (evP.y - evM.y))
            (priv.max_height - w.margin_bottom)) ∧
        (evM.y = evP.y → 0 ≤ w.margin_top →
          w.margin_top ≤ priv.max_height - w.margin_bottom →
          w2.margin_top = w.margin_top)) ∧
      (hasMargin (gdl_get_margins_from_pointer w evP.x evP.y) MARGIN_TOP = false →
        hasMargin (gdl_get_margins_from_pointer w evP.x evP.y) MARGIN_BOTTOM = true →
        w2.margin_bottom = max 0 (min (w.margin_bottom + (evM.y - evP.y))
            (priv.max_height - w.margin_top)) ∧
        (evM.y = evP.y → 0 ≤ w.margin_bottom →
          w.margin_bottom ≤ priv.max_height - w.margin_top →
          w2.margin_bottom = w.margin_bottom)) ∧
      (hasMargin (gdl_get_margins_from_pointer w evP.x evP.y) MARGIN_LEFT = true →
        w2.margin_left = max 0 (min (w.margin_left + (evP.x - evM.x))
            (priv.max_width - w.margin_right)) ∧
        (evM.x = evP.x → 0 ≤ w.margin_left →
          w.margin_left ≤ priv.max_width - w.margin_right →
          w2.margin_left = w.margin_left)) ∧
      (hasMargin (gdl_get_margins_from_pointer w evP.x evP.y) MARGIN_LEFT = false →
        hasMargin (gdl_get_margins_from_pointer w evP.x evP.y) MARGIN_RIGHT = true →
        w2.margin_right = max 0 (min (w.margin_right + (evM.x - evP.x))
            (priv.max_width - w.margin_left)) ∧
        (evM.x = evP.x → 0 ≤ w.margin_right →
          w.margin_right ≤ priv.max_width - w.margin_left →
          w2.margin_right = w.margin_right)) := by
  obtain ⟨p1, p2, p3, p4, p5, p6, p7, p8⟩ :=
    pressStep_margins_fields envP priv evP childP w hbutton htype hchildP hsel hmode hnode
  obtain ⟨w2, h2, ht, hb, hl, hr⟩ :=
    motionStep_margins_values envM evM (pressStep envP evP priv) childM w hchildM
      (by rw [p8]; exact hdrag) p2 p1
  rw [p3, p4, p5, p6, p7] at *
  simp only [hshift, hsnap, marginValue, Bool.false_eq_true, if_false, and_false] at ht hb hl hr
  refine ⟨w2, h2, ?_, ?_, ?_, ?_⟩
  · intro b1
    simp only [b1, if_true] at ht
    rw [ht]
    refine ⟨by congr 2; omega, ?_⟩
    intro e h0 h1
    omega
  · intro b1 b2
    simp only [b1, b2, if_true, if_false, Bool.false_eq_true] at hb
    rw [hb]
    refine ⟨by congr 2; omega, ?_⟩
    intro e h0 h1
    omega
  · intro b1
    simp only [b1, if_true] at hl
    rw [hl]
    refine ⟨by congr 2; omega, ?_⟩
    intro e h0 h1
    omega
  · intro b1 b2
    simp only [b1, b2, if_true, if_false, Bool.false_eq_true] at hr
    rw [hr]
    refine ⟨by congr 2; omega, ?_⟩
    intro e h0 h1
    omega

/-- Witness for C12: a press on the top outline of `sampleWidget` at height 28
followed by a motion to height 20 gives top margin 8. -/
theorem margin_drag_tracks_edge_witness :
    (motionStep grownEnv upMotion (pressStep sampleEnv topAnchorPress
        roomyMarginSession)).selection = some { sampleWidget with margin_top := 8 } ∧
    ∃ w2, (motionStep grownEnv upMotion (pressStep sampleEnv topAnchorPress
        roomyMarginSession)).selection = some w2 ∧
      w2.margin_top = max 0 (min (sampleWidget.margin_top +
          (topAnchorPress.y - upMotion.y))
        (roomyMarginSession.max_height - sampleWidget.margin_bottom)) :=
  ⟨by decide,
    (margin_drag_tracks_edge sampleEnv grownEnv roomyMarginSession topAnchorPress upMotion
      { allocation := { x := 0, y := 0, width := 200, height := 100 }
        requisition := { width := 200, height := 100 } }
      { allocation := { x := 0, y := 0, width := 200, height := 100 }
        requisition := { width := 224, height := 136 } }
      sampleWidget rfl rfl rfl rfl (by decide) (by decide) rfl (by decide) rfl rfl).imp
        fun _ h => ⟨h.1, (h.2.1 (by decide)).1⟩⟩

/-- Counterexample for C12 as stated: with a drag source left recorded by an
earlier Shift press, after a Margins press at (55, 28) on the top edge of
`sampleWidget` (top margin 0, ceiling 153) the motion to (55, 20) beyond the
drag threshold begins a drag and leaves the top margin at 0, not at
max(0, min(0 + 8, 153)) = 8. -/
theorem margin_drag_tracks_edge_counterexample :
    (staleEditSession sampleWidget).selection = some sampleWidget ∧
      (staleEditSession sampleWidget).drag_source = some sampleWidget ∧
      (pressStep roomyEnv topAnchorPress (staleEditSession sampleWidget)).activity
        = ACTIVITY_MARGINS ∧
      hasMargin (pressStep roomyEnv topAnchorPress (staleEditSession sampleWidget)).margin
        MARGIN_TOP = true ∧
      (pressStep roomyEnv topAnchorPress (staleEditSession sampleWidget)).max_height
        = 153 ∧
      upMotion.shift = false ∧ upMotion.control = false ∧
      max 0 (min (sampleWidget.margin_top + (topAnchorPress.y - upMotion.y))
        (153 - sampleWidget.margin_bottom)) = 8 ∧
      gtk_widget_get_margin_top (motionStep dragRoomyEnv upMotion
        (pressStep roomyEnv topAnchorPress (staleEditSession sampleWidget))).selection
        = 0 := by
  decide

/-- C13 (amended): in a Margins motion with Shift held that does not begin a
drag (button 1 held, a drag source recorded and the drag threshold passed) the
ceiling of the grabbed edge is `max_height / 2` (resp. `max_width / 2`, the
truncating division of C) instead of the maximum minus the opposite margin, and
after the motion the opposite edge has the same margin as the grabbed edge. -/
theorem symmetric_margin_motion (env : Env) (ev : GdkEventMotion) (priv : Session)
    (child : Child) (w : Widget) (hchild : env.child = some child)
    (hdrag : ¬ (ev.button1 = true ∧ priv.drag_source.isSome = true ∧
      env.drag_threshold = true))
    (hact : priv.activity = ACTIVITY_MARGINS) (hsel : priv.selection = some w)
    (hshift : ev.shift = true) :
    ∃ w2, (motionStep env ev priv).selection = some w2 ∧
      (hasMargin priv.margin MARGIN_TOP = true →
        w2.margin_top =
          (if ev.control = true then
            Int.tdiv (max 0 (min (priv.m_dy - ev.y) (Int.tdiv priv.max_height 2))) 6 * 6
          else max 0 (min (priv.m_dy - ev.y) (Int.tdiv priv.max_height 2))) ∧
        w2.margin_bottom = w2.margin_top) ∧
      (hasMargin priv.margin MARGIN_TOP = false →
        hasMargin priv.margin MARGIN_BOTTOM = true →
        w2.margin_bottom =
          (if ev.control = true then
            Int.tdiv (max 0 (min (ev.y - priv.m_dy) (Int.tdiv priv.max_height 2))) 6 * 6
          else max 0 (min (ev.y - priv.m_dy) (Int.tdiv priv.max_height 2))) ∧
        w2.margin_top = w2.margin_bottom) ∧
      (hasMargin priv.margin MARGIN_LEFT = true →
        w2.margin_left =
          (if ev.control = true then
            Int.tdiv (max 0 (min (priv.m_dx - ev.x) (Int.tdiv priv.max_width 2))) 6 * 6
          else max 0 (min (priv.m_dx - ev.x) (Int.tdiv priv.max_width 2))) ∧
        w2.margin_right = w2.margin_left) ∧
      (hasMargin priv.margin MARGIN_LEFT = false →
        hasMargin priv.margin MARGIN_RIGHT = true →
        w2.margin_right =
          (if ev.control = true then
            Int.tdiv (max 0 (min (ev.x - priv.m_dx) (Int.tdiv priv.max_width 2))) 6 * 6
          else max 0 (min (ev.x - priv.m_dx) (Int.tdiv priv.max_width 2))) ∧
        w2.margin_left = w2.margin_right) := by
  obtain ⟨w2, h2, ht, hb, hl, hr⟩ :=
    motionStep_margins_values env ev priv child w hchild hdrag hact hsel
  refine ⟨w2, h2, ?_, ?_, ?_, ?_⟩
  · intro b1
    rw [ht, hb]
    simp [b1, hshift, marginValue, MARGIN_STEP]
  · intro b1 b2
    rw [ht, hb]
    simp [b1, b2, hshift, marginValue, MARGIN_STEP]
  · intro b1
    rw [hl, hr]
    simp [b1, hshift, marginValue, MARGIN_STEP]
  · intro b1 b2
    rw [hl, hr]
    simp [b1, b2, hshift, marginValue, MARGIN_STEP]

/-- Witness for C13: a corner drag with Shift and Control from `roomySession`
(ceilings 153 and 160) writes 18 to top and bottom and 12 to left and right. -/
theorem symmetric_margin_motion_witness :
    (motionStep grownEnv cornerMotion roomySession).selection
        = some { sampleWidget with
            margin_top := 18, margin_bottom := 18, margin_left := 12, margin_right := 12 } ∧
    ∃ w2, (motionStep grownEnv cornerMotion roomySession).selection = some w2 ∧
      w2.margin_bottom = w2.margin_top ∧ w2.margin_right = w2.margin_left :=
  ⟨by decide,
    (symmetric_margin_motion grownEnv cornerMotion roomySession
      { allocation := { x := 0, y := 0, width := 200, height := 100 }
        requisition := { width := 224, height := 136 } }
      sampleWidget rfl (by decide) rfl rfl rfl).imp fun _ h =>
        ⟨h.1, (h.2.1 (by decide)).2, (h.2.2.2.1 (by decide)).2⟩⟩

/-- Counterexample for C13 as stated: with a drag source left recorded by an
earlier Shift press, a Margins motion with Shift held on the top edge of a
widget with margins top 0 and bottom 5 begins a drag: after it the bottom margin
is still 5 and the top margin 0, so the opposite edge does not have the margin
of the grabbed edge. -/
theorem symmetric_margin_motion_counterexample :
    (pressStep roomyEnv topAnchorPress (staleEditSession lowWidget)).activity
        = ACTIVITY_MARGINS ∧
      hasMargin (pressStep roomyEnv topAnchorPress (staleEditSession lowWidget)).margin
        MARGIN_TOP = true ∧
      shiftUpMotion.shift = true ∧
      (motionStep dragRoomyEnv shiftUpMotion
        (pressStep roomyEnv topAnchorPress (staleEditSession lowWidget))).selection
        = some lowWidget ∧
      lowWidget.margin_top = 0 ∧ lowWidget.margin_bottom = 5 := by
  decide

/-- C14 (amended): in a Margins motion with Control held that does not begin a
drag (button 1 held, a drag source recorded and the drag threshold passed) the
margin written for the grabbed edge is divisible by 6, at most the clamped
value v = max(0, min(delta, ceiling)) and greater than v - 6, that is, the
largest multiple of 6 not above v. -/
theorem snap_margin_motion (env : Env) (ev : GdkEventMotion) (priv : Session)
    (child : Child) (w : Widget) (hchild : env.child = some child)
    (hdrag : ¬ (ev.button1 = true ∧ priv.drag_source.isSome = true ∧
      env.drag_threshold = true))
    (hact : priv.activity = ACTIVITY_MARGINS) (hsel : priv.selection = some w)
    (hsnap : ev.control = true) :
    ∃ w2, (motionStep env ev priv).selection = some w2 ∧
      (hasMargin priv.margin MARGIN_TOP = true →
        ∀ v, v = max 0 (min (priv.m_dy - ev.y)
            (if ev.shift = true then Int.tdiv priv.max_height 2
              else priv.max_height - w.margin_bottom)) →
          6 ∣ w2.margin_top ∧ w2.margin_top ≤ v ∧ v - 6 < w2.margin_top) ∧
      (hasMargin priv.margin MARGIN_TOP = false →
        hasMargin priv.margin MARGIN_BOTTOM = true →
        ∀ v, v = max 0 (min (ev.y - priv.m_dy)
            (if ev.shift = true then Int.tdiv priv.max_height 2
              else priv.max_height - w.margin_top)) →
          6 ∣ w2.margin_bottom ∧ w2.margin_bottom ≤ v ∧ v - 6 < w2.margin_bottom) ∧
      (hasMargin priv.margin MARGIN_LEFT = true →
        ∀ v, v = max 0 (min (priv.m_dx - ev.x)
            (if ev.shift = true then Int.tdiv priv.max_width 2
              else priv.max_width - w.margin_right)) →
          6 ∣ w2.margin_left ∧ w2.margin_left ≤ v ∧ v - 6 < w2.margin_left) ∧
      (hasMargin priv.margin MARGIN_LEFT = false →
        hasMargin priv.margin MARGIN_RIGHT = true →
        ∀ v, v = max 0 (min (ev.x - priv.m_dx)
            (if ev.shift = true then Int.tdiv priv.max_width 2
              else priv.max_width - w.margin_left)) →
          6 ∣ w2.margin_right ∧ w2.margin_right ≤ v ∧ v - 6 < w2.margin_right) := by
  obtain ⟨w2, h2, ht, hb, hl, hr⟩ :=
    motionStep_margins_values env ev priv child w hchild hdrag hact hsel
  have key : ∀ d c : Int, 6 ∣ Int.tdiv (max 0 (min d c)) 6 * 6 ∧
      Int.tdiv (max 0 (min d c)) 6 * 6 ≤ max 0 (min d c) ∧
      max 0 (min d c) - 6 < Int.tdiv (max 0 (min d c)) 6 * 6 := by
    intro d c
    have h := snap_bounds (max 0 (min d c)) (le_max_left 0 _)
    exact ⟨Dvd.intro_left _ rfl, h.2.1, by omega⟩
  refine ⟨w2, h2, ?_, ?_, ?_, ?_⟩
  · intro b1 v hv
    subst hv
    rw [ht]
    simp only [b1, if_true, marginValue, hsnap, MARGIN_STEP]
    exact key _ _
  · intro b1 b2 v hv
    subst hv
    rw [hb]
    simp only [b1, b2, if_true, if_false, Bool.false_eq_true, marginValue, hsnap,
      MARGIN_STEP]
    exact key _ _
  · intro b1 v hv
    subst hv
    rw [hl]
    simp only [b1, if_true, marginValue, hsnap, MARGIN_STEP]
    exact key _ _
  · intro b1 b2 v hv
    subst hv
    rw [hr]
    simp only [b1, b2, if_true, if_false, Bool.false_eq_true, marginValue, hsnap,
      MARGIN_STEP]
    exact key _ _

/-- Witness for C14: in the same corner drag the clamped vertical value is 23
and the top margin written is 18. -/
theorem snap_margin_motion_witness :
    ∃ w2, (motionStep grownEnv cornerMotion roomySession).selection = some w2 ∧
      (6 : Int) ∣ w2.margin_top ∧ w2.margin_top ≤ 23 ∧ (23 : Int) - 6 < w2.margin_top :=
  (snap_margin_motion grownEnv cornerMotion roomySession
    { allocation := { x := 0, y := 0, width := 200, height := 100 }
      requisition := { width := 224, height := 136 } }
    sampleWidget rfl (by decide) rfl rfl rfl).imp fun _ h =>
      ⟨h.1, h.2.1 (by decide) 23 (by decide)⟩

/-- Counterexample for C14 as stated: with a drag source left recorded by an
earlier Shift press, a Margins motion with Control held 20 pixels above the
press on the top edge of `sampleWidget` begins a drag: the clamped value is
v = 20, yet the top margin after the motion is 0, which is not above v - 6. -/
theorem snap_margin_motion_counterexample :
    (pressStep roomyEnv topAnchorPress (staleEditSession sampleWidget)).activity
        = ACTIVITY_MARGINS ∧
      hasMargin (pressStep roomyEnv topAnchorPress (staleEditSession sampleWidget)).margin
        MARGIN_TOP = true ∧
      upSnapMotion.control = true ∧
      max 0 (min ((pressStep roomyEnv topAnchorPress (staleEditSession sampleWidget)).m_dy
          - upSnapMotion.y)
        ((pressStep roomyEnv topAnchorPress (staleEditSession sampleWidget)).max_height
          - sampleWidget.margin_bottom)) = 20 ∧
      gtk_widget_get_margin_top (motionStep dragRoomyEnv upSnapMotion
        (pressStep roomyEnv topAnchorPress (staleEditSession sampleWidget))).selection
        = 0 ∧
      ¬ ((20 : Int) - 6 < 0) := by
  decide

/-- C15 (amended): among the Margins motions that do not begin a drag (button 1
held, a drag source recorded and the drag threshold passed), one whose grabbed
set has no horizontal bit leaves the left and right margins as they were, one
with no vertical bit leaves the top and bottom margins as they were, and each
grabbed axis gets its own value in the same motion, so a corner drag (one
vertical and one horizontal bit) writes both a vertical and a horizontal
margin. -/
theorem margin_motion_axes_independent (env : Env) (ev : GdkEventMotion) (priv : Session)
    (child : Child) (w : Widget) (hchild : env.child = some child)
    (hdrag : ¬ (ev.button1 = true ∧ priv.drag_source.isSome = true ∧
      env.drag_threshold = true))
    (hact : priv.activity = ACTIVITY_MARGINS) (hsel : priv.selection = some w) :
    ∃ w2, (motionStep env ev priv).selection = some w2 ∧
      (hasMargin priv.margin MARGIN_LEFT = false →
        hasMargin priv.margin MARGIN_RIGHT = false →
        w2.margin_left = w.margin_left ∧ w2.margin_right = w.margin_right) ∧
      (hasMargin priv.margin MARGIN_TOP = false →
        hasMargin priv.margin MARGIN_BOTTOM = false →
        w2.margin_top = w.margin_top ∧ w2.margin_bottom = w.margin_bottom) ∧
      (hasMargin priv.margin MARGIN_TOP = true →
        w2.margin_top = marginValue (priv.m_dy - ev.y) priv.max_height w.margin_bottom
          ev.shift ev.control) ∧
      (hasMargin priv.margin MARGIN_TOP = false →
        hasMargin priv.margin MARGIN_BOTTOM = true →
        w2.margin_bottom = marginValue (ev.y - priv.m_dy) priv.max_height w.margin_top
          ev.shift ev.control) ∧
      (hasMargin priv.margin MARGIN_LEFT = true →
        w2.margin_left = marginValue (priv.m_dx - ev.x) priv.max_width w.margin_right
          ev.shift ev.control) ∧
      (hasMargin priv.margin MARGIN_LEFT = false →
        hasMargin priv.margin MARGIN_RIGHT = true →
        w2.margin_right = marginValue (ev.x - priv.m_dx) priv.max_width w.margin_left
          ev.shift ev.control) := by
  obtain ⟨w2, h2, ht, hb, hl, hr⟩ :=
    motionStep_margins_values env ev priv child w hchild hdrag hact hsel
  refine ⟨w2, h2, ?_, ?_, ?_, ?_, ?_, ?_⟩
  · intro b1 b2
    rw [hl, hr]
    simp [b1, b2]
  · intro b1 b2
    rw [ht, hb]
    simp [b1, b2]
  · intro b1
    rw [ht]
    simp [b1]
  · intro b1 b2
    rw [hb]
    simp [b1, b2]
  · intro b1
    rw [hl]
    simp [b1]
  · intro b1 b2
    rw [hr]
    simp [b1, b2]

/-- Witness for C15: a plain motion to (20, 20) during a drag of the top-left
corner of `sampleWidget` writes top 8 and left 7. -/
theorem margin_motion_axes_independent_witness :
    (motionStep grownEnv cornerPlainMotion roomySession).selection
        = some { sampleWidget with margin_top := 8, margin_left := 7 } ∧
    ∃ w2, (motionStep grownEnv cornerPlainMotion roomySession).selection = some w2 ∧
      w2.margin_top = marginValue (roomySession.m_dy - cornerPlainMotion.y)
        roomySession.max_height sampleWidget.margin_bottom false false ∧
      w2.margin_left = marginValue (roomySession.m_dx - cornerPlainMotion.x)
        roomySession.max_width sampleWidget.margin_right false false :=
  ⟨by decide,
    (margin_motion_axes_independent grownEnv cornerPlainMotion roomySession
      { allocation := { x := 0, y := 0, width := 200, height := 100 }
        requisition := { width := 224, height := 136 } }
      sampleWidget rfl (by decide) rfl rfl).imp fun _ h =>
        ⟨h.1, h.2.2.2.1 (by decide), h.2.2.2.2.2.1 (by decide)⟩⟩

/-- Counterexample for C15 as stated: with a drag source left recorded by an
earlier Shift press, a Margins motion on the top-left corner of `sampleWidget`
(one vertical and one horizontal bit) begins a drag and updates neither the top
margin nor the left margin, for which the clamp gives 8 and 7. -/
theorem margin_motion_axes_counterexample :
    (pressStep roomyEnv cornerPress (staleEditSession sampleWidget)).activity
        = ACTIVITY_MARGINS ∧
      (pressStep roomyEnv cornerPress (staleEditSession sampleWidget)).margin
        = MARGIN_TOP ||| MARGIN_LEFT ∧
      marginValue ((pressStep roomyEnv cornerPress (staleEditSession sampleWidget)).m_dy
          - cornerPlainMotion.y)
        (pressStep roomyEnv cornerPress (staleEditSession sampleWidget)).max_height
        sampleWidget.margin_bottom false false = 8 ∧
      marginValue ((pressStep roomyEnv cornerPress (staleEditSession sampleWidget)).m_dx
          - cornerPlainMotion.x)
        (pressStep roomyEnv cornerPress (staleEditSession sampleWidget)).max_width
        sampleWidget.margin_right false false = 7 ∧
      (motionStep dragRoomyEnv cornerPlainMotion
        (pressStep roomyEnv cornerPress (staleEditSession sampleWidget))).selection
        = some sampleWidget ∧
      sampleWidget.margin_top = 0 ∧ sampleWidget.margin_left = 0 := by
  decide

/-! ## Theorems: margin commit on release -/

theorem setPropertyIfPresent_log (gwidget : Option GladeWidget) (w : Widget)
    (name : PropertyName) (value : PropertyValue) :
    (setPropertyIfPresent gwidget w name value).2 =
      if glade_widget_has_property gwidget name = true then
        [Command.set_property name value] else [] := by
  unfold setPropertyIfPresent glade_widget_has_property
  cases gwidget with
  | none => simp
  | some g => by_cases h : name ∈ g.properties <;> simp [h]

theorem releaseMargins_log (priv : Session) (w : Widget) :
    (releaseMargins priv w).2 =
      [Command.push_group "Editing margins of %s" (w.gwidget.map fun g => g.name)] ++
      (if priv.top ≠ w.margin_top ∧
          glade_widget_has_property w.gwidget PropertyName.margin_top = true then
        [Command.set_property PropertyName.margin_top (PropertyValue.int w.margin_top)]
      else []) ++
      (if priv.bottom ≠ w.margin_bottom ∧
          glade_widget_has_property w.gwidget PropertyName.margin_bottom = true then
        [Command.set_property PropertyName.margin_bottom
          (PropertyValue.int w.margin_bottom)]
      else []) ++
      (if priv.left ≠ w.margin_left ∧
          glade_widget_has_property w.gwidget PropertyName.margin_left = true then
        [Command.set_property PropertyName.margin_left (PropertyValue.int w.margin_left)]
      else []) ++
      (if priv.right ≠ w.margin_right ∧
          glade_widget_has_property w.gwidget PropertyName.margin_right = true then
        [Command.set_property PropertyName.margin_right
          (PropertyValue.int w.margin_right)]
      else []) ++
      [Command.pop_group] := by
  unfold releaseMargins
  simp only [gtk_widget_get_margin_top, gtk_widget_get_margin_bottom,
    gtk_widget_get_margin_left, gtk_widget_get_margin_right]
  by_cases h1 : priv.top = w.margin_top <;> by_cases h2 : priv.bottom = w.margin_bottom <;>
  by_cases h3 : priv.left = w.margin_left <;> by_cases h4 : priv.right = w.margin_right <;>
  simp [h1, h2, h3, h4, setPropertyIfPresent_log]

/-- C16 (amended): on release in the Margins activity with a selection under
edit, the calls made are one `push_group`, then in the order top, bottom, left,
right one `set_property` carrying the current margin for each edge whose
current margin differs from the saved one and whose property the selection's
glade widget has, then one `pop_group`. -/
theorem release_margin_commit (env : Env) (priv : Session) (child : Child) (w : Widget)
    (hchild : env.child = some child) (hact : priv.activity = ACTIVITY_MARGINS)
    (hsel : priv.selection = some w) :
    (glade_design_layout_button_release_event env priv).log =
      [Command.push_group "Editing margins of %s" (w.gwidget.map fun g => g.name)] ++
      (if priv.top ≠ w.margin_top ∧
          glade_widget_has_property w.gwidget PropertyName.margin_top = true then
        [Command.set_property PropertyName.margin_top (PropertyValue.int w.margin_top)]
      else []) ++
      (if priv.bottom ≠ w.margin_bottom ∧
          glade_widget_has_property w.gwidget PropertyName.margin_bottom = true then
        [Command.set_property PropertyName.margin_bottom
          (PropertyValue.int w.margin_bottom)]
      else []) ++
      (if priv.left ≠ w.margin_left ∧
          glade_widget_has_property w.gwidget PropertyName.margin_left = true then
        [Command.set_property PropertyName.margin_left (PropertyValue.int w.margin_left)]
      else []) ++
      (if priv.right ≠ w.margin_right ∧
          glade_widget_has_property w.gwidget PropertyName.margin_right = true then
        [Command.set_property PropertyName.margin_right
          (PropertyValue.int w.margin_right)]
      else []) ++
      [Command.pop_group] := by
  rw [← releaseMargins_log]
  simp [glade_design_layout_button_release_event, hchild, hsel, hact]

/-- Witness for C16: `sampleWidget` with its top margin dragged from 0 to 8;
the release writes `margin-top` 8 inside one group. -/
theorem release_margin_commit_witness :
    (glade_design_layout_button_release_event sampleEnv topDragSession).log =
      [Command.push_group "Editing margins of %s" (some "button1"),
        Command.set_property PropertyName.margin_top (PropertyValue.int 8),
        Command.pop_group] :=
  (release_margin_commit sampleEnv topDragSession
    { allocation := { x := 0, y := 0, width := 200, height := 100 }
      requisition := { width := 200, height := 100 } }
    { sampleWidget with margin_top := 8 } rfl rfl rfl).trans (by decide)

/-- Counterexample for C16 as stated: the selection's glade widget has no
`margin-top` property; its top margin 8 differs from the saved 0, yet the
release issues no `set_property` for it. -/
theorem release_margin_commit_counterexample :
    bareDragSession.activity = ACTIVITY_MARGINS ∧
      gtk_widget_get_margin_top bareDragSession.selection = 8 ∧
      bareDragSession.top = 0 ∧
      (glade_design_layout_button_release_event sampleEnv bareDragSession).log =
        [Command.push_group "Editing margins of %s" (some "item1"), Command.pop_group] := by
  decide

/-! ## Theorems: anchor clicks -/

theorem pressAlignments_halign (w : Widget) (node : Margins) :
    (pressAlignments w node).1.halign =
      match w.gwidget with
      | none => w.halign
      | some g =>
        if PropertyName.halign ∈ g.properties then toggleHalign node w.halign
        else w.halign := by
  rw [pressAlignments_fst]
  cases w.gwidget <;> rfl

/-- C18 (amended): an anchor click toggles the clicked anchor. For a selection
whose glade widget has the `valign` and `halign` properties, a click on the top
anchor maps Start to Center, Center to Start, Fill to End and End to Fill; a
click on the bottom anchor maps End to Center, Center to End, Fill to Start and
Start to Fill; the left and right anchors do the same on the horizontal
alignment. -/
theorem anchor_click_toggles (env : Env) (priv : Session) (ev : GdkEventButton)
    (child : Child) (w : Widget) (g : GladeWidget) (hbutton : ev.button = 1)
    (htype : ev.type = GdkEventType.GDK_BUTTON_PRESS) (hchild : env.child = some child)
    (hactive : env.toplevel_active = true) (hsel : priv.selection = some w)
    (hmode : priv.pointer_mode = GLADE_POINTER_ALIGN_EDIT)
    (hnode : gdl_get_margins_from_pointer w ev.x ev.y ≠ 0)
    (hg : w.gwidget = some g) (hv : PropertyName.valign ∈ g.properties)
    (hh : PropertyName.halign ∈ g.properties) :
    ∃ w1, (pressStep env ev priv).selection = some w1 ∧
      (hasMargin (gdl_get_margins_from_pointer w ev.x ev.y) MARGIN_TOP = true →
        w1.valign =
          match w.valign with
          | GTK_ALIGN_START => GTK_ALIGN_CENTER
          | GTK_ALIGN_CENTER => GTK_ALIGN_START
          | GTK_ALIGN_FILL => GTK_ALIGN_END
          | GTK_ALIGN_END => GTK_ALIGN_FILL) ∧
      (hasMargin (gdl_get_margins_from_pointer w ev.x ev.y) MARGIN_TOP = false →
        hasMargin (gdl_get_margins_from_pointer w ev.x ev.y) MARGIN_BOTTOM = true →
        w1.valign =
          match w.valign with
          | GTK_ALIGN_END => GTK_ALIGN_CENTER
          | GTK_ALIGN_CENTER => GTK_ALIGN_END
          | GTK_ALIGN_FILL => GTK_ALIGN_START
          | GTK_ALIGN_START => GTK_ALIGN_FILL) ∧
      (hasMargin (gdl_get_margins_from_pointer w ev.x ev.y) MARGIN_LEFT = true →
        w1.halign =
          match w.halign with
          | GTK_ALIGN_START => GTK_ALIGN_CENTER
          | GTK_ALIGN_CENTER => GTK_ALIGN_START
          | GTK_ALIGN_FILL => GTK_ALIGN_END
          | GTK_ALIGN_END => GTK_ALIGN_FILL) ∧
      (hasMargin (gdl_get_margins_from_pointer w ev.x ev.y) MARGIN_LEFT = false →
        hasMargin (gdl_get_margins_from_pointer w ev.x ev.y) MARGIN_RIGHT = true →
        w1.halign =
          match w.halign with
          | GTK_ALIGN_END => GTK_ALIGN_CENTER
          | GTK_ALIGN_CENTER => GTK_ALIGN_END
          | GTK_ALIGN_FILL => GTK_ALIGN_START
          | GTK_ALIGN_START => GTK_ALIGN_FILL) := by
  obtain ⟨s1, _⟩ :=
    pressStep_alignments env priv ev child w hbutton htype hchild hactive hsel hmode hnode
  refine ⟨_, s1, ?_, ?_, ?_, ?_⟩
  · intro b1
    rw [pressAlignments_valign, hg]
    simp only [hv, if_true]
    cases w.valign <;> simp [toggleValign, alignAnchors, b1]
  · intro b1 b2
    rw [pressAlignments_valign, hg]
    simp only [hv, if_true]
    cases w.valign <;> simp [toggleValign, alignAnchors, b1, b2]
  · intro b1
    rw [pressAlignments_halign, hg]
    simp only [hh, if_true]
    cases w.halign <;> simp [toggleHalign, alignAnchors, b1]
  · intro b1 b2
    rw [pressAlignments_halign, hg]
    simp only [hh, if_true]
    cases w.halign <;> simp [toggleHalign, alignAnchors, b1, b2]

/-- Witness for C18: a click on the top anchor of `sampleWidget` (Start) gives
Center. -/
theorem anchor_click_toggles_witness :
    ∃ w1, (pressStep sampleEnv topAnchorPress alignSession).selection = some w1 ∧
      w1.valign = GTK_ALIGN_CENTER :=
  (anchor_click_toggles sampleEnv alignSession topAnchorPress
    { allocation := { x := 0, y := 0, width := 200, height := 100 }
      requisition := { width := 200, height := 100 } }
    sampleWidget sampleGladeWidget rfl rfl rfl rfl rfl rfl (by decide) rfl (by decide)
    (by decide)).imp fun _ h => ⟨h.1, h.2.1 (by decide)⟩

/-- Counterexample for C18 as stated: a click on the top anchor of a vertically
centred widget writes Start, not Fill. -/
theorem anchor_click_cycle_counterexample :
    centerAlignSession.selection = some { sampleWidget with valign := GTK_ALIGN_CENTER } ∧
      hasMargin (gdl_get_margins_from_pointer sampleWidget topAnchorPress.x
        topAnchorPress.y) MARGIN_TOP = true ∧
      (glade_design_layout_button_press_event sampleEnv centerAlignSession
        topAnchorPress).log =
        [Command.push_group "Editing alignments of %s" (some "button1"),
          Command.set_property PropertyName.valign (PropertyValue.align GTK_ALIGN_START),
          Command.pop_group] ∧
      (pressStep sampleEnv topAnchorPress centerAlignSession).selection
        = some { sampleWidget with valign := GTK_ALIGN_START } ∧
      GTK_ALIGN_START ≠ GTK_ALIGN_FILL := by
  decide

/-! ## Theorems: selection and pointer mode -/

theorem editModeSave_fields (env : Env) (priv : Session) (mode : GladePointerMode)
    (w : Widget) :
    (editModeSave env priv mode w).selection = priv.selection ∧
      (editModeSave env priv mode w).pointer_mode = priv.pointer_mode ∧
      (editModeSave env priv mode w).window = priv.window := by
  unfold editModeSave
  split_ifs
  · cases env.child <;> exact ⟨rfl, rfl, rfl⟩
  · exact ⟨rfl, rfl, rfl⟩
  · exact ⟨rfl, rfl, rfl⟩

theorem gdl_set_cursor_fields (priv : Session) (cursor : Option GdkCursor) :
    (gdl_set_cursor priv cursor).selection = priv.selection ∧
      (gdl_set_cursor priv cursor).pointer_mode = priv.pointer_mode ∧
      (gdl_set_cursor priv cursor).window = priv.window := by
  unfold gdl_set_cursor
  split_ifs <;> exact ⟨rfl, rfl, rfl⟩

theorem edit_mode_good (fuel : Nat) :
    (∀ env project priv mode selection priv', priv.window = true →
      ((editCandidate selection).isSome = true →
        (mode = GLADE_POINTER_MARGIN_EDIT ∨ mode = GLADE_POINTER_ALIGN_EDIT) ∧
          selectionModeInvariant priv) →
      gdl_edit_mode_set_selection fuel env project priv mode selection = some priv' →
      priv'.window = true ∧ selectionModeInvariant priv') ∧
    (∀ env project priv mode priv', priv.window = true →
      (priv.selection.isSome = true →
        mode = GLADE_POINTER_MARGIN_EDIT ∨ mode = GLADE_POINTER_ALIGN_EDIT) →
      glade_project_set_pointer_mode fuel env project priv mode = some priv' →
      priv'.window = true ∧ selectionModeInvariant priv') ∧
    (∀ env project priv priv', priv.window = true →
      on_pointer_mode_notify fuel env project priv = some priv' →
      priv'.window = true ∧ selectionModeInvariant priv') := by
  induction fuel with
  | zero =>
    refine ⟨?_, ?_, ?_⟩ <;> intros <;>
      simp_all [gdl_edit_mode_set_selection, glade_project_set_pointer_mode,
        on_pointer_mode_notify]
  | succ n ih =>
    obtain ⟨ihA, ihB, ihC⟩ := ih
    refine ⟨?_, ?_, ?_⟩
    · intro env project priv mode selection priv' hw hpre h
      rw [gdl_edit_mode_set_selection] at h
      simp only [] at h
      split_ifs at h with hid
      · cases h
        refine ⟨hw, ?_⟩
        cases hc : editCandidate selection with
        | none =>
          rw [hc] at hid
          intro hs
          cases hp : priv.selection with
          | none => rw [hp] at hs; cases hs
          | some w => rw [hp] at hid; cases hid
        | some w => exact (hpre (by rw [hc]; rfl)).2
      · cases hc : editCandidate selection with
        | none =>
          rw [hc] at h
          refine ihB env project _ mode priv' ?_ ?_ h
          · rw [(gdl_set_cursor_fields _ _).2.2]; exact hw
          · rw [(gdl_set_cursor_fields _ _).1]
            intro hs; cases hs
        | some w =>
          rw [hc] at h
          refine ihB env project _ mode priv' ?_ ?_ h
          · rw [(editModeSave_fields _ _ _ _).2.2]; exact hw
          · intro _
            exact (hpre (by rw [hc]; rfl)).1
    · intro env project priv mode priv' hw hpre h
      rw [glade_project_set_pointer_mode] at h
      split_ifs at h with hm
      · cases h
        refine ⟨hw, ?_⟩
        intro hs
        rw [hm]
        exact hpre hs
      · exact ihC env project { priv with pointer_mode := mode } priv' hw h
    · intro env project priv priv' hw h
      simp only [on_pointer_mode_notify, hw, Bool.true_eq_false, if_false] at h
      split_ifs at h with hm
      · cases h1 : gdl_edit_mode_set_selection n env project priv priv.pointer_mode none with
        | none => rw [h1] at h; cases h
        | some p1 =>
          rw [h1] at h
          obtain ⟨w1, i1⟩ := ihA env project priv _ none p1 hw
            (by intro hc; cases hc) h1
          exact ihA env project p1 _ _ priv' w1 (fun _ => ⟨hm, i1⟩) h
      · exact ihA env project priv _ none priv' hw (by intro hc; cases hc) h

theorem set_pointer_mode_same (n : Nat) (env : Env) (project : List ProjectObject)
    (priv : Session) (mode : GladePointerMode) (h : priv.pointer_mode = mode) :
    glade_project_set_pointer_mode (n + 1) env project priv mode = some priv := by
  simp [glade_project_set_pointer_mode, h]

theorem set_selection_same_mode (n : Nat) (env : Env) (project : List ProjectObject)
    (priv : Session) (mode : GladePointerMode) (selection : Option ProjectObject)
    (h : priv.pointer_mode = mode) :
    ∃ p, gdl_edit_mode_set_selection (n + 2) env project priv mode selection = some p ∧
      p.pointer_mode = mode := by
  simp only [gdl_edit_mode_set_selection]
  split_ifs with hid
  · exact ⟨priv, rfl, h⟩
  · cases hc : editCandidate selection with
    | none =>
      simp only []
      rw [set_pointer_mode_same n env project _ mode
        (by rw [(gdl_set_cursor_fields _ _).2.1]; exact h)]
      exact ⟨_, rfl, by rw [(gdl_set_cursor_fields _ _).2.1]; exact h⟩
    | some w =>
      simp only []
      rw [set_pointer_mode_same n env project _ mode
        (by rw [(editModeSave_fields _ _ _ _).2.1]; exact h)]
      exact ⟨_, rfl, by rw [(editModeSave_fields _ _ _ _).2.1]; exact h⟩

theorem on_pointer_mode_notify_total (n : Nat) (env : Env) (project : List ProjectObject)
    (priv : Session) :
    (on_pointer_mode_notify (n + 3) env project priv).isSome = true := by
  simp only [on_pointer_mode_notify]
  split_ifs with hw hm
  · rfl
  · obtain ⟨p1, e1, m1⟩ :=
      set_selection_same_mode n env project priv priv.pointer_mode none rfl
    rw [e1]
    simp only []
    exact Option.isSome_iff_exists.mpr
      ((set_selection_same_mode n env project p1 _ _ m1).imp fun _ h => h.1)
  · obtain ⟨p1, e1, _⟩ :=
      set_selection_same_mode n env project priv priv.pointer_mode none rfl
    rw [e1]
    rfl

theorem set_pointer_mode_total (n : Nat) (env : Env) (project : List ProjectObject)
    (priv : Session) (mode : GladePointerMode) :
    (glade_project_set_pointer_mode (n + 4) env project priv mode).isSome = true := by
  simp only [glade_project_set_pointer_mode]
  split_ifs
  · rfl
  · exact on_pointer_mode_notify_total n env project _

theorem set_selection_total (n : Nat) (env : Env) (project : List ProjectObject)
    (priv : Session) (mode : GladePointerMode) (selection : Option ProjectObject) :
    (gdl_edit_mode_set_selection (n + 5) env project priv mode selection).isSome = true := by
  simp only [gdl_edit_mode_set_selection]
  split_ifs
  · rfl
  · exact set_pointer_mode_total n env project _ mode

theorem activity_from_pointer_fields (priv : Session) (x y : Int) :
    (gdl_get_activity_from_pointer priv x y).2.selection = priv.selection ∧
      (gdl_get_activity_from_pointer priv x y).2.pointer_mode = priv.pointer_mode ∧
      (gdl_get_activity_from_pointer priv x y).2.window = priv.window := by
  unfold gdl_get_activity_from_pointer
  cases hsel : priv.selection with
  | none => simp [hsel]
  | some w =>
    simp only []
    split_ifs <;> simp [hsel]

theorem set_selection_null_fields (priv : Session) (mode : GladePointerMode) :
    (gdl_edit_mode_set_selection_null priv mode).selection = none ∧
      (gdl_edit_mode_set_selection_null priv mode).window = priv.window := by
  unfold gdl_edit_mode_set_selection_null
  split_ifs with h
  · exact ⟨by simpa using h, rfl⟩
  · exact ⟨by rw [(gdl_set_cursor_fields _ _).1], by rw [(gdl_set_cursor_fields _ _).2.2]⟩

theorem pressTail_fields (env : Env) (priv : Session) (child : Child) (activity : Activity)
    (x y : Int) (log : List Command) :
    (pressTail env priv child activity x y log).priv.window = priv.window ∧
      ((pressTail env priv child activity x y log).priv.selection.isSome = true →
        priv.selection.isSome = true ∧
          (pressTail env priv child activity x y log).priv.pointer_mode
            = priv.pointer_mode) := by
  unfold pressTail
  simp only []
  split_ifs with h
  · simp only [on_project_selection_changed_child]
    split_ifs with hs
    · refine ⟨(set_selection_null_fields _ _).2, ?_⟩
      rw [(set_selection_null_fields _ _).1]
      intro hc; cases hc
    · exact ⟨rfl, fun hc => absurd hc hs⟩
  · exact ⟨rfl, fun hc => ⟨hc, rfl⟩⟩

theorem press_fields (env : Env) (priv : Session) (ev : GdkEventButton) :
    (glade_design_layout_button_press_event env priv ev).priv.window = priv.window ∧
      ((glade_design_layout_button_press_event env priv ev).priv.selection.isSome = true →
        priv.selection.isSome = true ∧
          (glade_design_layout_button_press_event env priv ev).priv.pointer_mode
            = priv.pointer_mode) := by
  obtain ⟨a1, a2, a3⟩ := activity_from_pointer_fields priv ev.x ev.y
  unfold glade_design_layout_button_press_event
  split_ifs with hb
  · exact ⟨rfl, fun hc => ⟨hc, rfl⟩⟩
  · cases hchild : env.child with
    | none => exact ⟨rfl, fun hc => ⟨hc, rfl⟩⟩
    | some child =>
      simp only []
      generalize gdl_get_activity_from_pointer priv ev.x ev.y = r at a1 a2 a3
      obtain ⟨activity, p⟩ := r
      simp only [] at a1 a2 a3 ⊢
      have key := fun (q : Session) (a : Activity) (l : List Command) =>
        pressTail_fields env q child a ev.x ev.y l
      have hsome : ∀ w, p.selection = some w → priv.selection.isSome = true := by
        intro w hw
        rw [← a1, hw]
        rfl
      cases hps : p.selection with
      | none =>
        simp only []
        refine ⟨(key _ _ _).1.trans a3, fun hc => ?_⟩
        have := ((key _ _ _).2 hc).1
        simp at this
      | some w =>
        have hs := hsome w hps
        simp only []
        cases activity with
        | ACTIVITY_NONE =>
          simp only []
          refine ⟨(set_selection_null_fields _ _).2.trans a3, ?_⟩
          rw [(set_selection_null_fields _ _).1]
          intro hc; cases hc
        | ACTIVITY_ALIGNMENTS =>
          simp only []
          exact ⟨(key _ _ _).1.trans a3, fun hc => ⟨hs, (((key _ _ _).2 hc).2).trans a2⟩⟩
        | ACTIVITY_MARGINS =>
          simp only []
          refine ⟨by rw [(gdl_set_cursor_fields _ _).2.2]; exact a3, fun _ => ⟨hs, ?_⟩⟩
          rw [(gdl_set_cursor_fields _ _).2.1]; exact a2
        | _ =>
          simp only []
          refine ⟨?_, fun hc => ⟨hs, ?_⟩⟩
          · rw [(key _ _ _).1, (gdl_set_cursor_fields _ _).2.2]; exact a3
          · rw [((key _ _ _).2 hc).2, (gdl_set_cursor_fields _ _).2.1]; exact a2


theorem do_event_good (fuel : Nat) (env : Env) (project : List ProjectObject)
    (priv : Session) (ev : RouterEvent) (result : RouterResult)
    (hw : priv.window = true) (hinv : selectionModeInvariant priv)
    (h : glade_design_layout_do_event fuel env project priv ev = some result) :
    result.priv.window = true ∧ selectionModeInvariant result.priv := by
  unfold glade_design_layout_do_event at h
  cases hd : routerDragSource priv ev with
  | some source =>
    simp only [hd, Option.some.injEq] at h
    subst h
    exact ⟨hw, hinv⟩
  | none =>
    simp only [hd] at h
    cases ht : routerMarginTarget priv project ev with
    | some target =>
      simp only [ht] at h
      by_cases hn : priv.selection.isNone = true
      · simp only [hn, if_true] at h
        obtain ⟨mode, hmode⟩ : ∃ m, m = (if ev.shift = true then GLADE_POINTER_ALIGN_EDIT
            else GLADE_POINTER_MARGIN_EDIT) := ⟨_, rfl⟩
        rw [← hmode] at h
        have hedit : mode = GLADE_POINTER_MARGIN_EDIT ∨ mode = GLADE_POINTER_ALIGN_EDIT := by
          rw [hmode]
          cases ev.shift <;> simp
        cases hs : gdl_edit_mode_set_selection fuel env project priv mode (some target) with
        | none => rw [hs] at h; cases h
        | some p =>
          rw [hs] at h
          simp only [Option.map_some', Option.some.injEq] at h
          subst h
          exact (edit_mode_good fuel).1 env project priv _ _ p hw (fun _ => ⟨hedit, hinv⟩) hs
      · simp only [hn, if_false, Bool.false_eq_true, Option.some.injEq] at h
        subst h
        exact ⟨hw, hinv⟩
    | none =>
      simp only [ht, Option.some.injEq] at h
      subst h
      exact ⟨hw, hinv⟩

theorem layoutStep_good (priv priv' : Session) (hstep : LayoutStep priv priv')
    (hw : priv.window = true) (hinv : selectionModeInvariant priv) :
    priv'.window = true ∧ selectionModeInvariant priv' := by
  cases hstep with
  | set_selection fuel env project mode selection hmode h =>
    exact (edit_mode_good fuel).1 env project priv mode selection priv' hw
      (fun hc => ⟨hmode hc, hinv⟩) h
  | pointer_mode fuel env project mode h =>
    exact (edit_mode_good fuel).2.2 env project { priv with pointer_mode := mode } priv' hw h
  | selection_changed fuel env project h =>
    unfold on_project_selection_changed at h
    simp only [] at h
    split_ifs at h with hs hm
    · exact (edit_mode_good fuel).1 env project priv _ none priv' hw
        (by intro hc; cases hc) h
    · exact (edit_mode_good fuel).1 env project priv _ _ priv' hw
        (fun _ => ⟨hm.symm, hinv⟩) h
    · cases h
      exact ⟨hw, hinv⟩
  | press env ev =>
    obtain ⟨p1, p2⟩ := press_fields env priv ev
    refine ⟨p1.trans hw, fun hc => ?_⟩
    rw [(p2 hc).2]
    exact hinv (p2 hc).1
  | do_event fuel env project ev result h =>
    exact do_event_good fuel env project priv ev result hw hinv h

/-- The selection/mode invariant on a realized layout: for a layout with
`priv->window` set whose session satisfies the invariant, every state reached
through the edit-mode selection setter (called, as at its call sites, with
MarginEdit or AlignEdit whenever the candidate is a widget other than the bin
child), the pointer-mode notification, the selection-changed notification, the
button press and the event router satisfies it too: a selection under edit
implies pointer mode MarginEdit or AlignEdit. -/
theorem selection_mode_invariant (init s : Session) (hw : init.window = true)
    (hinv : selectionModeInvariant init)
    (hreach : Relation.ReflTransGen LayoutStep init s) :
    selectionModeInvariant s := by
  have : s.window = true ∧ selectionModeInvariant s := by
    induction hreach with
    | refl => exact ⟨hw, hinv⟩
    | tail _ hstep ih => exact layoutStep_good _ _ hstep ih.1 ih.2
  exact this.2

/-- An instance of `selection_mode_invariant`: from `sampleSession` a press on
the margin hot zone of the single selected widget enters margin edit through
the event router. -/
theorem selection_mode_invariant_witness :
    glade_design_layout_do_event 5 sampleEnv [ProjectObject.widget sampleWidget]
        sampleSession hotZonePress
      = some { priv := marginSession, forwarded := false, retval := true } ∧
    selectionModeInvariant marginSession :=
  ⟨by decide,
    selection_mode_invariant sampleSession marginSession rfl (by decide)
      (Relation.ReflTransGen.single
        (LayoutStep.do_event 5 sampleEnv [ProjectObject.widget sampleWidget]
          hotZonePress { priv := marginSession, forwarded := false, retval := true }
          (by decide)))⟩

/-- C19: the selection/mode invariant is broken on a layout that has not been
realized. The selection-changed notification, which has no guard, puts the
single selected widget under edit; the pointer-mode notification for the switch
to Select then returns at `g_return_if_fail (priv->window)` without dropping
it, so the session is left with a selection under edit in pointer mode
Select. -/
theorem selection_mode_unrealized_divergence :
    newLayoutSession.window = false ∧ newLayoutSession.selection = none ∧
    selectionModeInvariant newLayoutSession ∧
    on_project_selection_changed 5 sampleEnv [ProjectObject.widget sampleWidget]
        newLayoutSession = some newLayoutEditSession ∧
    pointerModeChanged 5 sampleEnv [ProjectObject.widget sampleWidget]
        newLayoutEditSession GLADE_POINTER_SELECT
      = some { newLayoutEditSession with pointer_mode := GLADE_POINTER_SELECT } ∧
    Relation.ReflTransGen LayoutStep newLayoutSession
      { newLayoutEditSession with pointer_mode := GLADE_POINTER_SELECT } ∧
    ¬ selectionModeInvariant
      { newLayoutEditSession with pointer_mode := GLADE_POINTER_SELECT } := by
  have h1 : on_project_selection_changed 5 sampleEnv [ProjectObject.widget sampleWidget]
      newLayoutSession = some newLayoutEditSession := by decide
  have h2 : pointerModeChanged 5 sampleEnv [ProjectObject.widget sampleWidget]
      newLayoutEditSession GLADE_POINTER_SELECT
      = some { newLayoutEditSession with pointer_mode := GLADE_POINTER_SELECT } := by
    decide
  exact ⟨rfl, rfl, by decide, h1, h2,
    Relation.ReflTransGen.tail
      (Relation.ReflTransGen.single (LayoutStep.selection_changed 5 sampleEnv _ h1))
      (LayoutStep.pointer_mode 5 sampleEnv _ _ h2),
    by decide⟩

theorem set_selection_null_agrees (n : Nat) (env : Env) (project : List ProjectObject)
    (priv : Session) :
    gdl_edit_mode_set_selection (n + 4) env project priv GLADE_POINTER_SELECT none
      = some (gdl_edit_mode_set_selection_null priv GLADE_POINTER_SELECT) := by
  obtain ⟨c1, c2, c3⟩ := gdl_set_cursor_fields { priv with selection := none } none
  simp only [gdl_edit_mode_set_selection, gdl_edit_mode_set_selection_null, editCandidate,
    Option.map_none', glade_project_set_pointer_mode, on_pointer_mode_notify]
  cases hsel : priv.selection with
  | none => simp
  | some w =>
    simp only [Option.map_some', reduceCtorEq, if_false, Option.isNone_some,
      Bool.false_eq_true]
    generalize gdl_set_cursor { priv with selection := none } none = q at c1 c2 c3 ⊢
    obtain ⟨q1, q2, q3, q4, q5, qsel, q6, q7, q8, q9, q10, q11, q12, q13, q14, q15, q16,
      q17, q18, q19, q20, q21, q22, q23, qmode, qwin⟩ := q
    simp only [] at c1 c2 c3
    subst c1
    by_cases hm : qmode = GLADE_POINTER_SELECT
    · simp [hm]
    · cases qwin <;> simp [hm]

theorem selection_changed_child_agrees (n : Nat) (env : Env) (c : Widget)
    (priv : Session) :
    on_project_selection_changed (n + 4) env [ProjectObject.child c] priv
      = some (on_project_selection_changed_child priv) := by
  unfold on_project_selection_changed on_project_selection_changed_child
  cases hsel : priv.selection with
  | some w =>
    simp only [Option.isSome_some, if_true]
    exact set_selection_null_agrees n env [ProjectObject.child c] priv
  | none =>
    simp only [Option.isSome_none, Bool.false_eq_true, if_false, List.head?_cons]
    split_ifs
    · simp [gdl_edit_mode_set_selection, editCandidate, hsel]
    · rfl

/-! ## Theorems: the embedded window -/

/-- C20: the hit test yields the offscreen window exactly when a visible child
exists, no selection is under edit and the point translated by `to_child` lies
in [0, width) x [0, height) of the child's allocation; in every other case it
yields nothing. -/
theorem pick_offscreen_child_iff (env : Env) (priv : Session) (widget_x widget_y : ℚ) :
    (pick_offscreen_child env priv widget_x widget_y = some GdkWindow.offscreen_window ↔
      ∃ child, env.child = some child ∧ child.visible = true ∧ priv.selection = none ∧
        0 ≤ widget_x - priv.child_offset ∧
        widget_x - priv.child_offset < child.allocation.width ∧
        0 ≤ widget_y - priv.child_offset ∧
        widget_y - priv.child_offset < child.allocation.height) ∧
    (pick_offscreen_child env priv widget_x widget_y = some GdkWindow.offscreen_window ∨
      pick_offscreen_child env priv widget_x widget_y = none) := by
  unfold pick_offscreen_child to_child
  cases hchild : env.child with
  | none => simp
  | some child =>
    simp only [Option.some.injEq, exists_eq_left', ge_iff_le]
    by_cases hvis : child.visible = true
    · rw [if_pos hvis]
      by_cases hin : 0 ≤ widget_x - ↑priv.child_offset ∧
          widget_x - ↑priv.child_offset < ↑child.allocation.width ∧
          0 ≤ widget_y - ↑priv.child_offset ∧
          widget_y - ↑priv.child_offset < ↑child.allocation.height
      · simp only [if_pos hin]
        cases hsel : priv.selection with
        | none => exact ⟨⟨fun _ => ⟨hvis, rfl, hin⟩, fun _ => rfl⟩, Or.inl rfl⟩
        | some w =>
          refine ⟨⟨fun h => ?_, fun h => ?_⟩, Or.inr rfl⟩
          · simp at h
          · simp at h
      · simp only [if_neg hin]
        refine ⟨⟨fun h => ?_, fun h => ?_⟩, Or.inr trivial⟩
        · simp at h
        · exact absurd h.2.2 hin
    · rw [if_neg hvis]
      refine ⟨⟨fun h => ?_, fun h => ?_⟩, Or.inr rfl⟩
      · simp at h
      · exact absurd h.1 hvis

/-- Three evaluations of `pick_offscreen_child`: a point over the child, a
point right of the child, and a point over the child while a selection is under
edit. -/
theorem pick_offscreen_child_example :
    pick_offscreen_child sampleEnv sampleSession (20 : ℚ) (33/2 : ℚ)
      = some GdkWindow.offscreen_window ∧
    pick_offscreen_child sampleEnv sampleSession (216 : ℚ) (33/2 : ℚ) = none ∧
    pick_offscreen_child sampleEnv marginSession (20 : ℚ) (33/2 : ℚ) = none := by
  refine ⟨?_, ?_, ?_⟩ <;>
    simp [pick_offscreen_child, to_child, sampleEnv, sampleSession, marginSession] <;>
    norm_num

/-! ## Theorems: anchors as a pair of flags -/

/-- C28: the alignment computed by an anchor click flips exactly the clicked
anchor. With top-anchored meaning Start or Fill and bottom-anchored meaning End
or Fill, a node holding Top negates top-anchored and keeps bottom-anchored, a
node holding Bottom and not Top negates bottom-anchored and keeps
top-anchored, and the left and right nodes do the same on the horizontal
alignment; each toggle applied twice is the identity, and a top toggle and a
bottom toggle (a left and a right one) commute. -/
theorem anchor_click_flips_clicked (align : GtkAlign) (node other : Margins) :
    (hasMargin node MARGIN_TOP = true →
      startAnchored (toggleValign node align) = !startAnchored align ∧
        endAnchored (toggleValign node align) = endAnchored align) ∧
    (hasMargin node MARGIN_TOP = false → hasMargin node MARGIN_BOTTOM = true →
      endAnchored (toggleValign node align) = !endAnchored align ∧
        startAnchored (toggleValign node align) = startAnchored align) ∧
    (hasMargin node MARGIN_LEFT = true →
      startAnchored (toggleHalign node align) = !startAnchored align ∧
        endAnchored (toggleHalign node align) = endAnchored align) ∧
    (hasMargin node MARGIN_LEFT = false → hasMargin node MARGIN_RIGHT = true →
      endAnchored (toggleHalign node align) = !endAnchored align ∧
        startAnchored (toggleHalign node align) = startAnchored align) ∧
    toggleValign node (toggleValign node align) = align ∧
    toggleHalign node (toggleHalign node align) = align ∧
    (hasMargin node MARGIN_TOP = true → hasMargin other MARGIN_TOP = false →
      hasMargin other MARGIN_BOTTOM = true →
      toggleValign node (toggleValign other align)
        = toggleValign other (toggleValign node align)) ∧
    (hasMargin node MARGIN_LEFT = true → hasMargin other MARGIN_LEFT = false →
      hasMargin other MARGIN_RIGHT = true →
      toggleHalign node (toggleHalign other align)
        = toggleHalign other (toggleHalign node align)) := by
  refine ⟨?_, ?_, ?_, ?_, ?_, ?_, ?_, ?_⟩
  · intro b1
    cases align <;> simp [toggleValign, alignAnchors, startAnchored, endAnchored, b1]
  · intro b1 b2
    cases align <;> simp [toggleValign, alignAnchors, startAnchored, endAnchored, b1, b2]
  · intro b1
    cases align <;> simp [toggleHalign, alignAnchors, startAnchored, endAnchored, b1]
  · intro b1 b2
    cases align <;> simp [toggleHalign, alignAnchors, startAnchored, endAnchored, b1, b2]
  · cases b1 : hasMargin node MARGIN_TOP <;> cases b2 : hasMargin node MARGIN_BOTTOM <;>
      cases align <;> simp [toggleValign, alignAnchors, b1, b2]
  · cases b1 : hasMargin node MARGIN_LEFT <;> cases b2 : hasMargin node MARGIN_RIGHT <;>
      cases align <;> simp [toggleHalign, alignAnchors, b1, b2]
  · intro b1 b2 b3
    cases align <;> simp [toggleValign, alignAnchors, b1, b2, b3]
  · intro b1 b2 b3
    cases align <;> simp [toggleHalign, alignAnchors, b1, b2, b3]

/-- Witness for C28: on Start, the top node (1) gives Center and the bottom node
(2) gives Fill; applied in either order they give End. -/
theorem anchor_click_flips_clicked_witness :
    toggleValign 1 GTK_ALIGN_START = GTK_ALIGN_CENTER ∧
      toggleValign 2 GTK_ALIGN_START = GTK_ALIGN_FILL ∧
      toggleValign 1 (toggleValign 2 GTK_ALIGN_START) = GTK_ALIGN_END ∧
      toggleValign 1 (toggleValign 2 GTK_ALIGN_START)
        = toggleValign 2 (toggleValign 1 GTK_ALIGN_START) :=
  ⟨by decide, by decide, by decide,
    (anchor_click_flips_clicked GTK_ALIGN_START 1 2).2.2.2.2.2.2.1 (by decide) (by decide)
      (by decide)⟩

/-! ## Theorems: the activities that drive the state machine -/

theorem resizeActivityFromPointer_driving (priv : Session) (x y : Int) :
    resizeActivityFromPointer priv x y ∈ drivingActivities := by
  unfold resizeActivityFromPointer
  split_ifs <;> simp [drivingActivities]

theorem activity_from_pointer_driving (priv : Session) (x y : Int) :
    (gdl_get_activity_from_pointer priv x y).1 ∈ drivingActivities := by
  unfold gdl_get_activity_from_pointer
  cases priv.selection with
  | none => exact resizeActivityFromPointer_driving _ _ _
  | some w =>
    simp only []
    split_ifs
    · simp [drivingActivities]
    · simp [drivingActivities]
    · exact resizeActivityFromPointer_driving _ _ _

theorem activity_from_pointer_activity (priv : Session) (x y : Int) :
    (gdl_get_activity_from_pointer priv x y).2.activity = priv.activity := by
  unfold gdl_get_activity_from_pointer
  cases priv.selection with
  | none => rfl
  | some w =>
    simp only []
    split_ifs <;> rfl

theorem set_selection_null_activity (priv : Session) (mode : GladePointerMode) :
    (gdl_edit_mode_set_selection_null priv mode).activity = priv.activity := by
  unfold gdl_edit_mode_set_selection_null
  split_ifs
  · rfl
  · simp only [gdl_set_cursor_activity]

theorem pressTail_activity (env : Env) (priv : Session) (child : Child)
    (activity : Activity) (x y : Int) (log : List Command) :
    (pressTail env priv child activity x y log).priv.activity = priv.activity := by
  unfold pressTail
  simp only []
  split_ifs
  · simp only [on_project_selection_changed_child]
    split_ifs
    · rw [set_selection_null_activity]
    · rfl
  · rfl

theorem press_activity (env : Env) (priv : Session) (ev : GdkEventButton) :
    (glade_design_layout_button_press_event env priv ev).priv.activity = priv.activity ∨
      (glade_design_layout_button_press_event env priv ev).priv.activity
        = (gdl_get_activity_from_pointer priv ev.x ev.y).1 := by
  unfold glade_design_layout_button_press_event
  split_ifs with hb
  · exact Or.inl rfl
  · cases hchild : env.child with
    | none => exact Or.inl rfl
    | some child =>
      right
      simp only []
      generalize gdl_get_activity_from_pointer priv ev.x ev.y = r
      obtain ⟨activity, p⟩ := r
      simp only []
      cases hps : p.selection with
      | none => simp only [pressTail_activity]
      | some w =>
        cases activity <;>
          simp only [pressTail_activity, set_selection_null_activity,
            gdl_set_cursor_activity]

theorem motion_activity (env : Env) (priv : Session) (ev : GdkEventMotion) :
    (glade_design_layout_motion_notify_event env priv ev).priv.activity = priv.activity := by
  have hu : ∀ (p : Session) (c : Child) (a : GdkRectangle),
      (glade_design_layout_update_child env p c a).activity = p.activity := by
    intro p c a
    unfold glade_design_layout_update_child
    split_ifs <;> rfl
  have hh : (motionHover priv ev.x ev.y).1.activity = priv.activity := by
    have ha := activity_from_pointer_activity priv ev.x ev.y
    unfold motionHover
    generalize gdl_get_activity_from_pointer priv ev.x ev.y = r at ha
    obtain ⟨activity, p⟩ := r
    simp only [] at ha ⊢
    rw [gdl_set_cursor_activity]
    split_ifs <;> exact ha
  unfold glade_design_layout_motion_notify_event
  cases env.child with
  | none => rfl
  | some child =>
    simp only []
    split_ifs
    · rfl
    · cases hact : priv.activity <;> simp only [hu, motionMargins, hact] <;>
        first
          | rfl
          | exact hact ▸ hh

theorem release_activity (env : Env) (priv : Session) :
    (glade_design_layout_button_release_event env priv).priv.activity = priv.activity ∨
      (glade_design_layout_button_release_event env priv).priv.activity = ACTIVITY_NONE := by
  unfold glade_design_layout_button_release_event
  cases env.child with
  | none => exact Or.inl rfl
  | some child =>
    right
    simp only []
    rw [gdl_set_cursor_activity]

theorem pointerStep_driving (a b : Session) (hstep : PointerStep a b)
    (ha : a.activity ∈ drivingActivities) : b.activity ∈ drivingActivities := by
  cases hstep with
  | press env ev =>
    rcases press_activity env a ev with h | h
    · rw [h]; exact ha
    · rw [h]; exact activity_from_pointer_driving _ _ _
  | motion env ev => rw [motion_activity]; exact ha
  | release env =>
    rcases release_activity env a with h | h
    · rw [h]; exact ha
    · rw [h]; simp [drivingActivities]

/-- C27: the cursor-only activities never drive the state machine.
`gdl_get_activity_from_pointer` returns one of None, ResizeWidth, ResizeHeight,
ResizeBoth, Alignments and Margins, and so it is for the activity field of every
session reached by press, motion and release events from a session whose
activity is None, as it is after initialisation. -/
theorem activity_is_driving (priv init final : Session) (x y : Int)
    (hinit : init.activity = ACTIVITY_NONE)
    (hreach : Relation.ReflTransGen PointerStep init final) :
    (gdl_get_activity_from_pointer priv x y).1 ∈ drivingActivities ∧
      (gdl_get_activity_from_pointer priv x y).1 ≠ ACTIVITY_MARGINS_VERTICAL ∧
      (gdl_get_activity_from_pointer priv x y).1 ≠ ACTIVITY_MARGINS_HORIZONTAL ∧
      (gdl_get_activity_from_pointer priv x y).1 ≠ ACTIVITY_MARGINS_TOP_LEFT ∧
      (gdl_get_activity_from_pointer priv x y).1 ≠ ACTIVITY_MARGINS_TOP_RIGHT ∧
      (gdl_get_activity_from_pointer priv x y).1 ≠ ACTIVITY_MARGINS_BOTTOM_LEFT ∧
      (gdl_get_activity_from_pointer priv x y).1 ≠ ACTIVITY_MARGINS_BOTTOM_RIGHT ∧
      final.activity ∈ drivingActivities := by
  have h1 := activity_from_pointer_driving priv x y
  have h2 : final.activity ∈ drivingActivities := by
    induction hreach with
    | refl => rw [hinit]; simp [drivingActivities]
    | tail _ hstep ih => exact pointerStep_driving _ _ hstep ih
  refine ⟨h1, ?_, ?_, ?_, ?_, ?_, ?_, h2⟩ <;>
    · intro hc
      rw [hc] at h1
      simp [drivingActivities] at h1

/-- Witness for C27: from the session left by the first size allocation, a
primary press inside the east rectangle leads to ResizeWidth, and a motion and
a release after it to None. -/
theorem activity_is_driving_witness :
    allocatedSession.activity = ACTIVITY_NONE ∧
      (pressStep sampleEnv eastPress allocatedSession).activity = ACTIVITY_RESIZE_WIDTH ∧
      (glade_design_layout_button_release_event sampleEnv
        (motionStep sampleEnv eastMotion
          (pressStep sampleEnv eastPress allocatedSession))).priv.activity
        = ACTIVITY_NONE ∧
      (glade_design_layout_button_release_event sampleEnv
        (motionStep sampleEnv eastMotion
          (pressStep sampleEnv eastPress allocatedSession))).priv.activity
        ∈ drivingActivities :=
  ⟨by decide, by decide, by decide,
    (activity_is_driving sampleSession allocatedSession _ 220 60 (by decide)
      (((Relation.ReflTransGen.single
        (PointerStep.press sampleEnv eastPress)).tail
          (PointerStep.motion sampleEnv eastMotion)).tail
            (PointerStep.release sampleEnv))).2.2.2.2.2.2.2⟩

/-! ## Theorems: the start of a resize -/

theorem activity_from_pointer_resize_fields (priv : Session) (x y : Int) :
    (gdl_get_activity_from_pointer priv x y).2.child_offset = priv.child_offset ∧
      (gdl_get_activity_from_pointer priv x y).2.drag_source = priv.drag_source := by
  unfold gdl_get_activity_from_pointer
  cases priv.selection with
  | none => exact ⟨rfl, rfl⟩
  | some w =>
    simp only []
    split_ifs <;> exact ⟨rfl, rfl⟩

theorem set_selection_null_resize_fields (priv : Session) (mode : GladePointerMode) :
    (gdl_edit_mode_set_selection_null priv mode).dx = priv.dx ∧
      (gdl_edit_mode_set_selection_null priv mode).dy = priv.dy ∧
      (gdl_edit_mode_set_selection_null priv mode).drag_source = priv.drag_source := by
  unfold gdl_edit_mode_set_selection_null gdl_set_cursor
  simp only []
  split_ifs <;> exact ⟨rfl, rfl, rfl⟩

theorem pressTail_resize_fields (env : Env) (priv : Session) (child : Child)
    (activity : Activity) (x y : Int) (log : List Command) :
    (pressTail env priv child activity x y log).priv.dx
        = x - (child.allocation.x + child.allocation.width + priv.child_offset) ∧
      (pressTail env priv child activity x y log).priv.dy
        = y - (child.allocation.y + child.allocation.height + priv.child_offset) ∧
      (pressTail env priv child activity x y log).priv.drag_source = priv.drag_source := by
  unfold pressTail
  simp only []
  split_ifs
  · simp only [on_project_selection_changed_child]
    split_ifs
    · simp only [set_selection_null_resize_fields, and_self]
    · exact ⟨rfl, rfl, rfl⟩
  · exact ⟨rfl, rfl, rfl⟩

theorem gdl_set_cursor_resize_fields (priv : Session) (cursor : Option GdkCursor) :
    (gdl_set_cursor priv cursor).child_offset = priv.child_offset ∧
      (gdl_set_cursor priv cursor).drag_source = priv.drag_source := by
  unfold gdl_set_cursor
  split_ifs <;> exact ⟨rfl, rfl⟩

theorem pressStep_resize (env : Env) (priv : Session) (ev : GdkEventButton) (child : Child)
    (hbutton : ev.button = 1) (htype : ev.type = GdkEventType.GDK_BUTTON_PRESS)
    (hchild : env.child = some child)
    (hstart : (gdl_get_activity_from_pointer priv ev.x ev.y).1 = ACTIVITY_RESIZE_WIDTH ∨
      (gdl_get_activity_from_pointer priv ev.x ev.y).1 = ACTIVITY_RESIZE_HEIGHT ∨
      (gdl_get_activity_from_pointer priv ev.x ev.y).1 = ACTIVITY_RESIZE_WIDTH_AND_HEIGHT) :
    (pressStep env ev priv).activity = (gdl_get_activity_from_pointer priv ev.x ev.y).1 ∧
      (pressStep env ev priv).dx
        = ev.x - (child.allocation.x + child.allocation.width + priv.child_offset) ∧
      (pressStep env ev priv).dy
        = ev.y - (child.allocation.y + child.allocation.height + priv.child_offset) ∧
      (pressStep env ev priv).drag_source = priv.drag_source := by
  obtain ⟨a1, a2⟩ := activity_from_pointer_resize_fields priv ev.x ev.y
  simp only [pressStep, glade_design_layout_button_press_event, hbutton, htype, hchild,
    ne_eq, not_true_eq_false, or_self, if_false]
  generalize gdl_get_activity_from_pointer priv ev.x ev.y = r at a1 a2 hstart
  obtain ⟨activity, p⟩ := r
  simp only [] at a1 a2 hstart ⊢
  cases hps : p.selection with
  | none =>
    simp only [pressTail_activity, pressTail_resize_fields, a1, a2, and_self]
  | some w =>
    rcases hstart with h | h | h <;> subst h <;>
      simp only [pressTail_activity, pressTail_resize_fields, gdl_set_cursor_activity,
        gdl_set_cursor_resize_fields, a1, a2, and_self]

/-- C29 (amended): a resize does not jump at its start. With child offset
`PADDING + OUTLINE_WIDTH`, a child allocated at the origin with non-negative
size, and a primary press at (x, y) where the activity from the pointer is
ResizeWidth, ResizeHeight or ResizeBoth, a motion at the same (x, y) that does
not begin a drag (button 1 held, a drag source recorded and the drag threshold
passed) hands on the child's allocated width and height. -/
theorem resize_no_jump (envP envM : Env) (priv : Session) (evP : GdkEventButton)
    (evM : GdkEventMotion) (child : Child)
    (hbutton : evP.button = 1) (htype : evP.type = GdkEventType.GDK_BUTTON_PRESS)
    (hchildP : envP.child = some child) (hchildM : envM.child = some child)
    (hoffset : priv.child_offset = PADDING + OUTLINE_WIDTH)
    (hx : child.allocation.x = 0) (hy : child.allocation.y = 0)
    (hw : 0 ≤ child.allocation.width) (hh : 0 ≤ child.allocation.height)
    (hstart : (gdl_get_activity_from_pointer priv evP.x evP.y).1 = ACTIVITY_RESIZE_WIDTH ∨
      (gdl_get_activity_from_pointer priv evP.x evP.y).1 = ACTIVITY_RESIZE_HEIGHT ∨
      (gdl_get_activity_from_pointer priv evP.x evP.y).1
        = ACTIVITY_RESIZE_WIDTH_AND_HEIGHT)
    (hsamex : evM.x = evP.x) (hsamey : evM.y = evP.y)
    (hdrag : ¬ (evM.button1 = true ∧ priv.drag_source.isSome = true ∧
      envM.drag_threshold = true)) :
    (pressStep envP evP priv).activity = (gdl_get_activity_from_pointer priv evP.x evP.y).1 ∧
    ∃ a, (glade_design_layout_motion_notify_event envM (pressStep envP evP priv) evM).update
        = some a ∧
      a.width = child.allocation.width ∧ a.height = child.allocation.height := by
  obtain ⟨p1, p2, p3, p4⟩ :=
    pressStep_resize envP priv evP child hbutton htype hchildP hstart
  refine ⟨p1, ?_⟩
  rw [← p4] at hdrag
  rw [← p1] at hstart
  have hwx : max 0 (evM.x - (pressStep envP evP priv).dx - PADDING - OUTLINE_WIDTH)
      = child.allocation.width := by
    rw [p2, hoffset, hx, hsamex]
    simp only [PADDING, OUTLINE_WIDTH]
    omega
  have hhy : max 0 (evM.y - (pressStep envP evP priv).dy - PADDING - OUTLINE_WIDTH)
      = child.allocation.height := by
    rw [p3, hoffset, hy, hsamey]
    simp only [PADDING, OUTLINE_WIDTH]
    omega
  rcases hstart with h | h | h <;>
    simp [glade_design_layout_motion_notify_event, hchildM, hdrag, h, hwx, hhy]

/-- Witness for C29: a press inside the east rectangle of `sampleSession` and a
motion at the same point hand on the child's 200x100. -/
theorem resize_no_jump_witness :
    (pressStep sampleEnv eastPress sampleSession).activity = ACTIVITY_RESIZE_WIDTH ∧
    (pressStep sampleEnv eastPress sampleSession).dx = 4 ∧
    ∃ a, (glade_design_layout_motion_notify_event sampleEnv
        (pressStep sampleEnv eastPress sampleSession) eastPressMotion).update = some a ∧
      a.width = 200 ∧ a.height = 100 :=
  ⟨by decide, by decide,
    (resize_no_jump sampleEnv sampleEnv sampleSession eastPress eastPressMotion
      { allocation := { x := 0, y := 0, width := 200, height := 100 }
        requisition := { width := 200, height := 100 } }
      rfl rfl rfl rfl (by decide) rfl rfl (by decide) (by decide) (by decide) rfl rfl
      (by decide)).2⟩

/-- Counterexample for C29 as stated: with child offset 16, a child allocated
200x100 at the origin and a drag source left recorded by an earlier Shift
press, a press at (220, 60) starts ResizeWidth and the motion at the same
(220, 60), beyond the drag threshold of the recorded drag point, begins a drag:
no width and no height are computed. -/
theorem resize_no_jump_counterexample :
    staleDragSession.child_offset = PADDING + OUTLINE_WIDTH ∧
      dragEnv.child = some
        { allocation := { x := 0, y := 0, width := 200, height := 100 }
          requisition := { width := 200, height := 100 } } ∧
      (pressStep sampleEnv eastPress staleDragSession).activity = ACTIVITY_RESIZE_WIDTH ∧
      eastPressMotion.x = eastPress.x ∧ eastPressMotion.y = eastPress.y ∧
      (glade_design_layout_motion_notify_event dragEnv
        (pressStep sampleEnv eastPress staleDragSession) eastPressMotion).update = none ∧
      (glade_design_layout_motion_notify_event dragEnv
        (pressStep sampleEnv eastPress staleDragSession) eastPressMotion).drag_begin
        = true := by
  decide

theorem size_allocate_child_offset (border_width : Nat) (priv : Session) (child : Child)
    (allocation : GdkRectangle) (widget_name : Option GtkRequisition)
    (hvisible : child.visible = true) :
    (glade_design_layout_size_allocate border_width priv (some child) allocation
      widget_name).priv.child_offset = border_width + PADDING + OUTLINE_WIDTH := by
  simp [glade_design_layout_size_allocate, hvisible, update_rectangles]

/-- C23 (amended): the width-resize scenario. After initialisation and a size
allocation with border 0 that hands a visible child 200x100 at the origin, the
child offset is 16 and the east rectangle is (216, 16, 16, 100); with no
selection under edit a primary press at (216, 62) sets the activity to
ResizeWidth and records dx = 0, and a following motion to x = 260, such as
(260, 62), hands on width max(0, 260 - 0 - 12 - 4) = 244 and height 100. -/
theorem resize_width_scenario (envP envM : Env) (mode : GladePointerMode) (child : Child)
    (allocation : GdkRectangle) (widget_name : Option GtkRequisition)
    (evP : GdkEventButton) (evM : GdkEventMotion)
    (hvisible : child.visible = true)
    (hsize : (glade_design_layout_size_allocate 0 (glade_design_layout_init mode)
      (some child) allocation widget_name).child_allocation = some child.allocation)
    (halloc : child.allocation = { x := 0, y := 0, width := 200, height := 100 })
    (hchildP : envP.child = some child) (hchildM : envM.child = some child)
    (hbutton : evP.button = 1) (htype : evP.type = GdkEventType.GDK_BUTTON_PRESS)
    (hpx : evP.x = 216) (hpy : evP.y = 62) (hmx : evM.x = 260) :
    (glade_design_layout_size_allocate 0 (glade_design_layout_init mode) (some child)
        allocation widget_name).priv.selection = none ∧
      (glade_design_layout_size_allocate 0 (glade_design_layout_init mode) (some child)
        allocation widget_name).priv.child_offset = 16 ∧
      (glade_design_layout_size_allocate 0 (glade_design_layout_init mode) (some child)
        allocation widget_name).priv.east = { x := 216, y := 16, width := 16, height := 100 } ∧
      (pressStep envP evP
        (glade_design_layout_size_allocate 0 (glade_design_layout_init mode) (some child)
          allocation widget_name).priv).activity = ACTIVITY_RESIZE_WIDTH ∧
      (pressStep envP evP
        (glade_design_layout_size_allocate 0 (glade_design_layout_init mode) (some child)
          allocation widget_name).priv).dx = 0 ∧
      ∃ a, (glade_design_layout_motion_notify_event envM
          (pressStep envP evP
            (glade_design_layout_size_allocate 0 (glade_design_layout_init mode)
              (some child) allocation widget_name).priv) evM).update = some a ∧
        a.width = 244 ∧ a.height = 100 := by
  have h3 : Int.tdiv (4 * 3) 2 = 6 := by decide
  have h2 : Int.tdiv 4 2 = 2 := by decide
  simp only [glade_design_layout_size_allocate, hvisible, if_true, halloc, PADDING,
    OUTLINE_WIDTH, Nat.cast_zero, zero_add, h3, Option.some.injEq, GdkRectangle.mk.injEq,
    true_and] at hsize
  obtain ⟨hw, hh⟩ := hsize
  generalize hs : (glade_design_layout_size_allocate 0 (glade_design_layout_init mode)
    (some child) allocation widget_name).priv = s
  have hsel : s.selection = none := by
    rw [← hs]
    simp [glade_design_layout_size_allocate, hvisible, update_rectangles,
      glade_design_layout_init]
  have hoff : s.child_offset = 16 := by
    rw [← hs, size_allocate_child_offset 0 _ child allocation widget_name hvisible]
    rfl
  have hdrag : s.drag_source = none := by
    rw [← hs]
    simp [glade_design_layout_size_allocate, hvisible, update_rectangles,
      glade_design_layout_init]
  have he : s.east = { x := 216, y := 16, width := 16, height := 100 } := by
    rw [← hs]
    have h12 : Int.tdiv 12 2 = 6 := by decide
    simp only [glade_design_layout_size_allocate, hvisible, if_true, update_rectangles,
      glade_design_layout_init, PADDING, OUTLINE_WIDTH, Nat.cast_zero, zero_add,
      GdkRectangle.mk.injEq, true_and]
    norm_num [h12]
    constructor <;> omega
  have hse : RECTANGLE_POINT_IN s.south_east 216 62 = false := by
    rw [← hs]
    simp only [glade_design_layout_size_allocate, hvisible, if_true, update_rectangles,
      glade_design_layout_init, PADDING, OUTLINE_WIDTH, h3, h2, hw, hh, RECTANGLE_POINT_IN,
      Nat.cast_zero, zero_add, Bool.and_eq_false_iff, decide_eq_false_iff_not, not_le]
    omega
  have hact : (gdl_get_activity_from_pointer s evP.x evP.y).1 = ACTIVITY_RESIZE_WIDTH := by
    have hin : RECTANGLE_POINT_IN { x := 216, y := 16, width := 16, height := 100 } 216 62
        = true := by decide
    simp only [gdl_get_activity_from_pointer, hsel, resizeActivityFromPointer, hpx, hpy, hse,
      he, hin, if_true, Bool.false_eq_true, if_false]
  obtain ⟨p1, p2, _, p4⟩ :=
    pressStep_resize envP s evP child hbutton htype hchildP (Or.inl hact)
  have hA := p1.trans hact
  have hdx : (pressStep envP evP s).dx = 0 := by
    rw [p2, hoff, hpx, halloc]
    rfl
  have hd : ¬ (evM.button1 = true ∧ (pressStep envP evP s).drag_source.isSome = true ∧
      envM.drag_threshold = true) := by
    rw [p4, hdrag]
    simp
  refine ⟨hsel, hoff, he, hA, hdx, ?_⟩
  generalize pressStep envP evP s = q at hA hdx hd ⊢
  simp [glade_design_layout_motion_notify_event, hchildM, hd, hA, hdx, hmx, halloc, PADDING,
    OUTLINE_WIDTH]

/-- Witness for C23: the scenario on the 232x139 layout of `allocatedSession`. -/
theorem resize_width_scenario_witness :
    allocatedSession.east = { x := 216, y := 16, width := 16, height := 100 } ∧
      (pressStep sampleEnv eastHandlePress allocatedSession).activity
        = ACTIVITY_RESIZE_WIDTH ∧
      (pressStep sampleEnv eastHandlePress allocatedSession).dx = 0 ∧
      ∃ a, (glade_design_layout_motion_notify_event sampleEnv
          (pressStep sampleEnv eastHandlePress allocatedSession) eastMotion).update
          = some a ∧
        a.width = 244 ∧ a.height = 100 :=
  (resize_width_scenario sampleEnv sampleEnv GLADE_POINTER_SELECT
    { allocation := { x := 0, y := 0, width := 200, height := 100 }
      requisition := { width := 200, height := 100 } }
    { x := 0, y := 0, width := 232, height := 139 } (some { width := 60, height := 17 })
    eastHandlePress eastMotion rfl (by decide) rfl rfl rfl rfl rfl rfl rfl rfl).2.2

/-- Counterexample for C23 as stated: the size allocation stores child offset
16, not 12, so for the child allocated 200x100 at the origin the east rectangle
is (216, 16, 16, 100); the press at (212, 62) falls left of it, the activity
stays None and the motion to (260, 62) computes no width. -/
theorem resize_width_scenario_counterexample :
    allocatedSession.selection = none ∧ allocatedSession.child_offset = 16 ∧
      allocatedSession.east = { x := 216, y := 16, width := 16, height := 100 } ∧
      sampleEnv.child = some
        { allocation := { x := 0, y := 0, width := 200, height := 100 }
          requisition := { width := 200, height := 100 } } ∧
      eastEdgePress.x = 212 ∧ eastEdgePress.y = 62 ∧
      (pressStep sampleEnv eastEdgePress allocatedSession).activity = ACTIVITY_NONE ∧
      (glade_design_layout_motion_notify_event sampleEnv
        (pressStep sampleEnv eastEdgePress allocatedSession) eastMotion).update = none := by
  decide

/-! ## Theorems: size negotiation -/

/-- C30: size negotiation round trip. With border width 0 and a visible child
whose glade widget is found, whose requested size is non-negative and whose
label height is non-negative, a layout allocated exactly the minimum width and
height reported by `glade_design_layout_get_preferred_width` and
`glade_design_layout_get_preferred_height` allocates the child at the origin
with width max(toplevel-width, requested width) and height
max(toplevel-height, requested height). -/
theorem size_negotiation_round_trip (priv : Session) (child : Child)
    (widget_name : Option GtkRequisition) (allocation : GdkRectangle) (min_w min_h : Int)
    (hvisible : child.visible = true)
    (hreqw : 0 ≤ child.requisition.width) (hreqh : 0 ≤ child.requisition.height)
    (hlabel : 0 ≤ labelHeight widget_name)
    (hminw : glade_design_layout_get_preferred_width 0 (some child) = some min_w)
    (hminh : glade_design_layout_get_preferred_height 0 (some child) widget_name
      = some min_h)
    (hallocw : allocation.width = min_w) (halloch : allocation.height = min_h) :
    (glade_design_layout_size_allocate 0 priv (some child) allocation
        widget_name).child_allocation
      = some
        { x := 0, y := 0
          width := max child.toplevel_width child.requisition.width
          height := max child.toplevel_height child.requisition.height } := by
  have h5 : Int.tdiv (5 * 4) 2 = 10 := by decide
  have h3 : Int.tdiv (4 * 3) 2 = 6 := by decide
  cases hg : child.gchild with
  | false =>
    simp [glade_design_layout_get_preferred_width, hvisible, hg] at hminw
  | true =>
    simp only [glade_design_layout_get_preferred_width, hvisible, hg, if_true, PADDING,
      OUTLINE_WIDTH, Option.map_some', Option.some.injEq, Nat.cast_zero, zero_mul,
      add_zero] at hminw
    simp only [glade_design_layout_get_preferred_height, hvisible, hg, if_true, PADDING,
      OUTLINE_WIDTH, Option.map_some', Option.some.injEq, Nat.cast_zero, zero_mul,
      add_zero, h5] at hminh
    simp only [glade_design_layout_size_allocate, hvisible, if_true, PADDING, OUTLINE_WIDTH,
      Nat.cast_zero, zero_add, h3, Option.some.injEq, GdkRectangle.mk.injEq, true_and,
      hallocw, halloch]
    constructor <;> omega

/-- Witness for C30: a child asking for 200x100 with stored toplevel size 240x80
under a label 17 pixels high reports 272x139 and is allocated 240x100. -/
theorem size_negotiation_round_trip_witness :
    glade_design_layout_get_preferred_width 0 (some storedSizeChild) = some 272 ∧
      glade_design_layout_get_preferred_height 0 (some storedSizeChild)
        (some { width := 60, height := 17 }) = some 139 ∧
      (glade_design_layout_size_allocate 0 sampleSession (some storedSizeChild)
          { x := 0, y := 0, width := 272, height := 139 }
          (some { width := 60, height := 17 })).child_allocation
        = some { x := 0, y := 0, width := 240, height := 100 } :=
  ⟨by decide, by decide,
    size_negotiation_round_trip sampleSession storedSizeChild
      (some { width := 60, height := 17 }) { x := 0, y := 0, width := 272, height := 139 }
      272 139 rfl (by decide) (by decide) (by decide) (by decide) (by decide) rfl rfl⟩

/-! ## Theorems: the router's drag source -/

/-- C22 (amended): priority (a) of the event router. For a primary-button press
with Shift held while the pointer mode is Select, or in pointer mode
DragResize, over an element with an object that is not inside a fixed
container unless Shift is held, the router records the object as the drag
source, the press position translated into the object's coordinates as the
drag hot point, and returns true. -/
theorem router_drag_source (fuel : Nat) (env : Env) (project : List ProjectObject)
    (priv : Session) (ev : RouterEvent) (found : FoundElement) (source : Widget)
    (hpress : ev.press = true) (hbutton : ev.button = 1)
    (hmode : (ev.shift = true ∧ priv.pointer_mode = GLADE_POINTER_SELECT) ∨
      priv.pointer_mode = GLADE_POINTER_DRAG_RESIZE)
    (hfound : ev.gwidget = some found) (hobject : found.object = some source)
    (hpermits : found.inside_fixed = false ∨ ev.shift = true) :
    ∃ r, glade_design_layout_do_event fuel env project priv ev = some r ∧
      r.priv.drag_source = some source ∧
      r.priv.drag_x = ev.x - source.xx ∧ r.priv.drag_y = ev.y - source.yy ∧
      r.forwarded = false ∧ r.retval = true := by
  have hsrc : routerDragSource priv ev = some source := by
    have hp : ev.shift = true ∨ ¬ found.inside_fixed = true := by
      rcases hpermits with h | h
      · exact Or.inr (by simp [h])
      · exact Or.inl h
    simp only [routerDragSource, hpress, hbutton, hmode, hfound, hobject, hp, and_self,
      if_true]
  simp only [glade_design_layout_do_event, hsrc]
  exact ⟨_, rfl, rfl, rfl, rfl, rfl, rfl⟩

/-- Witness for C22: a Shift press over `sampleWidget` in select mode. -/
theorem router_drag_source_witness :
    ∃ r, glade_design_layout_do_event 5 sampleEnv [] sampleSession shiftPressOverWidget
        = some r ∧
      r.priv.drag_source = some sampleWidget ∧
      r.priv.drag_x = 40 - 30 ∧ r.priv.drag_y = 40 - 30 ∧
      r.forwarded = false ∧ r.retval = true :=
  router_drag_source 5 sampleEnv [] sampleSession shiftPressOverWidget
    { object := some sampleWidget, inside_fixed := false, handled := false } sampleWidget
    rfl rfl (Or.inl ⟨rfl, rfl⟩) rfl rfl (Or.inl rfl)

/-- Counterexample for C22 as stated: with Shift held in pointer mode MarginEdit
over an element that is not inside a fixed container, the router records no
drag source, forwards the event and returns false. -/
theorem router_drag_source_counterexample :
    shiftPressOverWidget.press = true ∧ shiftPressOverWidget.button = 1 ∧
      shiftPressOverWidget.shift = true ∧
      shiftPressOverWidget.gwidget
        = some { object := some sampleWidget, inside_fixed := false, handled := false } ∧
      marginModeSession.pointer_mode = GLADE_POINTER_MARGIN_EDIT ∧
      glade_design_layout_do_event 5 sampleEnv [] marginModeSession shiftPressOverWidget
        = some { priv := marginModeSession, forwarded := true, retval := false } ∧
      marginModeSession.drag_source = none := by
  decide

/-! ## Theorems: the margin snap scenario -/

/-- C24 (amended): for a selection with top margin 0 under margin edit, a
Margins press on a node holding Top followed by a motion that moves the pointer
upward by 20 pixels with Control held sets the top margin to 18, the largest
multiple of 6 that is at most 20, when the ceiling in force (`max_height` minus
the bottom margin, or half of `max_height` under Shift) is at least 20. -/
theorem top_margin_snap_scenario (envP envM : Env) (priv : Session) (evP : GdkEventButton)
    (evM : GdkEventMotion) (childP childM : Child) (w : Widget)
    (hbutton : evP.button = 1) (htype : evP.type = GdkEventType.GDK_BUTTON_PRESS)
    (hchildP : envP.child = some childP) (hsel : priv.selection = some w)
    (hmode : priv.pointer_mode = GLADE_POINTER_MARGIN_EDIT)
    (htop : hasMargin (gdl_get_margins_from_pointer w evP.x evP.y) MARGIN_TOP = true)
    (hzero : w.margin_top = 0)
    (hceil : 20 ≤ (if evM.shift = true then Int.tdiv priv.max_height 2
      else priv.max_height - w.margin_bottom))
    (hchildM : envM.child = some childM)
    (hdrag : ¬ (evM.button1 = true ∧ priv.drag_source.isSome = true ∧
      envM.drag_threshold = true))
    (hsnap : evM.control = true) (hup : evM.y = evP.y - 20) :
    (pressStep envP evP priv).activity = ACTIVITY_MARGINS ∧
    ∃ w2, (motionStep envM evM (pressStep envP evP priv)).selection = some w2 ∧
      w2.margin_top = 18 := by
  have hnode := hasMargin_ne_zero _ _ htop
  obtain ⟨p1, p2, p3, _, p5, _, p7, p8⟩ :=
    pressStep_margins_fields envP priv evP childP w hbutton htype hchildP hsel
      (by rw [hmode]; decide) hnode
  obtain ⟨w2, h2, ht, _⟩ :=
    motionStep_margins_values envM evM (pressStep envP evP priv) childM w hchildM
      (by rw [p8]; exact hdrag) p2 p1
  refine ⟨p2, w2, h2, ?_⟩
  rw [p3, p5, p7] at ht
  simp only [htop, if_true, hzero, add_zero, hup, marginValue, hsnap, MARGIN_STEP] at ht
  rw [ht]
  have h20 : evP.y - (evP.y - 20) = 20 := by omega
  rw [h20, min_eq_left hceil]
  decide

/-- Witness for C24: an upward drag of the top node of `sampleWidget`. -/
theorem top_margin_snap_scenario_witness :
    upSnapMotion.y = topAnchorPress.y - 20 ∧
    (pressStep roomyEnv topAnchorPress roomyMarginSession).activity = ACTIVITY_MARGINS ∧
    ∃ w2, (motionStep roomyEnv upSnapMotion
        (pressStep roomyEnv topAnchorPress roomyMarginSession)).selection = some w2 ∧
      w2.margin_top = 18 :=
  ⟨by decide,
    top_margin_snap_scenario roomyEnv roomyEnv roomyMarginSession topAnchorPress upSnapMotion
      { allocation := { x := 0, y := 0, width := 200, height := 100 }
        requisition := { width := 200, height := 100 } }
      { allocation := { x := 0, y := 0, width := 200, height := 100 }
        requisition := { width := 200, height := 100 } }
      sampleWidget rfl rfl rfl rfl rfl (by decide) rfl (by decide) rfl (by decide) rfl
      (by decide)⟩

/-- Counterexample for C24 as stated: after a Margins press on the top node of
`sampleWidget` (top margin 0, ceiling 153), a motion 20 pixels downward with
Control held leaves the top margin at 0, not 18. -/
theorem top_margin_snap_counterexample :
    roomyMarginSession.selection = some sampleWidget ∧ sampleWidget.margin_top = 0 ∧
      roomyMarginSession.pointer_mode = GLADE_POINTER_MARGIN_EDIT ∧
      (pressStep roomyEnv topAnchorPress roomyMarginSession).activity = ACTIVITY_MARGINS ∧
      hasMargin (pressStep roomyEnv topAnchorPress roomyMarginSession).margin MARGIN_TOP
        = true ∧
      (pressStep roomyEnv topAnchorPress roomyMarginSession).max_height = 153 ∧
      downSnapMotion.y = topAnchorPress.y + 20 ∧ downSnapMotion.control = true ∧
      gtk_widget_get_margin_top (motionStep roomyEnv downSnapMotion
        (pressStep roomyEnv topAnchorPress roomyMarginSession)).selection = 0 := by
  decide

/-! ## Theorems: the bottom anchor scenario -/

theorem pressAlignments_log (w : Widget) (node : Margins) :
    (pressAlignments w node).2 =
      match w.gwidget with
      | none => []
      | some g =>
        [Command.push_group "Editing alignments of %s" (some g.name)] ++
          (if w.valign ≠ toggleValign node w.valign ∧ PropertyName.valign ∈ g.properties then
            [Command.set_property PropertyName.valign
              (PropertyValue.align (toggleValign node w.valign))]
          else []) ++
          (if w.halign ≠ toggleHalign node w.halign ∧ PropertyName.halign ∈ g.properties then
            [Command.set_property PropertyName.halign
              (PropertyValue.align (toggleHalign node w.halign))]
          else []) ++ [Command.pop_group] := by
  unfold pressAlignments
  generalize toggleValign node w.valign = v
  generalize toggleHalign node w.halign = h
  obtain ⟨aw, ah, xx, yy, mt, mb, ml, mr, va, ha, gw, wid⟩ := w
  cases gw with
  | none => rfl
  | some g =>
    by_cases hv : va = v <;> by_cases hh : ha = h <;>
    by_cases pv : PropertyName.valign ∈ g.properties <;>
    by_cases ph : PropertyName.halign ∈ g.properties <;>
    simp [setPropertyIfPresent, glade_command_set_property, hv, hh, pv, ph]

theorem press_alignments_log (env : Env) (priv : Session) (ev : GdkEventButton)
    (child : Child) (w : Widget) (hbutton : ev.button = 1)
    (htype : ev.type = GdkEventType.GDK_BUTTON_PRESS) (hchild : env.child = some child)
    (hsel : priv.selection = some w)
    (hmode : priv.pointer_mode = GLADE_POINTER_ALIGN_EDIT)
    (hnode : gdl_get_margins_from_pointer w ev.x ev.y ≠ 0) :
    (glade_design_layout_button_press_event env priv ev).log =
      (pressAlignments w (gdl_get_margins_from_pointer w ev.x ev.y)).2 := by
  simp only [glade_design_layout_button_press_event, hbutton, htype, hchild,
    gdl_get_activity_from_pointer, hsel, hnode, hmode, pressTail, ne_eq, not_true_eq_false,
    or_self, if_false, not_false_eq_true, if_true]
  split_ifs <;> rfl

/-- C25 (amended): for a selection with valign Start under alignment edit whose
glade widget has the `valign` property, a primary press on a node holding
Bottom and not Top computes valign Fill and writes it through `set_property`
on `valign`; with the toplevel active the selection then has valign Fill. -/
theorem bottom_anchor_click_scenario (env : Env) (priv : Session) (ev : GdkEventButton)
    (child : Child) (w : Widget) (g : GladeWidget) (hbutton : ev.button = 1)
    (htype : ev.type = GdkEventType.GDK_BUTTON_PRESS) (hchild : env.child = some child)
    (hsel : priv.selection = some w)
    (hmode : priv.pointer_mode = GLADE_POINTER_ALIGN_EDIT)
    (hstart : w.valign = GTK_ALIGN_START)
    (hbottom : hasMargin (gdl_get_margins_from_pointer w ev.x ev.y) MARGIN_BOTTOM = true)
    (htop : hasMargin (gdl_get_margins_from_pointer w ev.x ev.y) MARGIN_TOP = false)
    (hg : w.gwidget = some g) (hv : PropertyName.valign ∈ g.properties) :
    toggleValign (gdl_get_margins_from_pointer w ev.x ev.y) w.valign = GTK_ALIGN_FILL ∧
      Command.set_property PropertyName.valign (PropertyValue.align GTK_ALIGN_FILL)
        ∈ (glade_design_layout_button_press_event env priv ev).log ∧
      (env.toplevel_active = true →
        ∃ w1, (pressStep env ev priv).selection = some w1 ∧
          w1.valign = GTK_ALIGN_FILL) := by
  have hnode := hasMargin_ne_zero _ _ hbottom
  have hfill : toggleValign (gdl_get_margins_from_pointer w ev.x ev.y) w.valign
      = GTK_ALIGN_FILL := by
    rw [hstart]
    simp [toggleValign, alignAnchors, hbottom, htop]
  refine ⟨hfill, ?_, ?_⟩
  · rw [press_alignments_log env priv ev child w hbutton htype hchild hsel hmode hnode,
      pressAlignments_log, hg, hfill]
    simp [hstart, hv]
  · intro hactive
    obtain ⟨s1, _⟩ :=
      pressStep_alignments env priv ev child w hbutton htype hchild hactive hsel hmode hnode
    refine ⟨_, s1, ?_⟩
    rw [pressAlignments_valign, hg]
    simp only [hv, if_true, hfill]

/-- Witness for C25: a click on the bottom outline of `sampleWidget` (Start). -/
theorem bottom_anchor_click_scenario_witness :
    (glade_design_layout_button_press_event sampleEnv alignSession bottomAnchorPress).log =
        [Command.push_group "Editing alignments of %s" (some "button1"),
          Command.set_property PropertyName.valign (PropertyValue.align GTK_ALIGN_FILL),
          Command.pop_group] ∧
      ∃ w1, (pressStep sampleEnv bottomAnchorPress alignSession).selection = some w1 ∧
        w1.valign = GTK_ALIGN_FILL :=
  ⟨by decide,
    (bottom_anchor_click_scenario sampleEnv alignSession bottomAnchorPress
      { allocation := { x := 0, y := 0, width := 200, height := 100 }
        requisition := { width := 200, height := 100 } }
      sampleWidget sampleGladeWidget rfl rfl rfl rfl rfl rfl (by decide) (by decide) rfl
      (by decide)).2.2 rfl⟩

/-- Counterexample for C25 as stated: for a selection with valign Start whose
glade widget has no `valign` property, the press on the bottom anchor is an
Alignments press for which Fill is computed, yet no `set_property` call is made
and the selection keeps valign Start. -/
theorem bottom_anchor_click_counterexample :
    bareAlignSession.selection = some { sampleWidget with gwidget := some bareGladeWidget } ∧
      sampleWidget.valign = GTK_ALIGN_START ∧
      (gdl_get_activity_from_pointer bareAlignSession bottomAnchorPress.x
        bottomAnchorPress.y).1 = ACTIVITY_ALIGNMENTS ∧
      gdl_get_margins_from_pointer sampleWidget bottomAnchorPress.x bottomAnchorPress.y
        = MARGIN_BOTTOM ∧
      toggleValign MARGIN_BOTTOM GTK_ALIGN_START = GTK_ALIGN_FILL ∧
      (glade_design_layout_button_press_event sampleEnv bareAlignSession
        bottomAnchorPress).log =
        [Command.push_group "Editing alignments of %s" (some "item1"), Command.pop_group] ∧
      (pressStep sampleEnv bottomAnchorPress bareAlignSession).selection
        = some { sampleWidget with gwidget := some bareGladeWidget } := by
  decide

/-! ## Theorems: hover over the anchors -/

theorem lor_eq_zero (x y : Nat) : x ||| y = 0 ↔ x = 0 ∧ y = 0 := by
  constructor
  · intro h
    have hbits : ∀ i, (x.testBit i || y.testBit i) = false := by
      intro i
      rw [← Nat.testBit_or, h, Nat.zero_testBit]
    constructor <;> apply Nat.eq_of_testBit_eq <;> intro i <;> have hi := hbits i <;>
      simp_all
  · rintro ⟨rfl, rfl⟩
    rfl

theorem hasMargin_or (a b flag : Margins) :
    hasMargin (a ||| b) flag = (hasMargin a flag || hasMargin b flag) := by
  unfold hasMargin
  rw [Nat.and_comm, Nat.and_or_distrib_left, Nat.and_comm flag a, Nat.and_comm flag b]
  rw [Bool.eq_iff_iff]
  simp only [bne_iff_ne, ne_eq, Bool.or_eq_true, lor_eq_zero]
  tauto

theorem hasMargin_zero (flag : Margins) : hasMargin 0 flag = false := by
  simp [hasMargin]

theorem gdl_alignments_invalidate_eq (selection : Widget) (nodes : Margins) :
    gdl_alignments_invalidate selection nodes =
      (edgeFlags.filter fun flag => hasMargin nodes flag).map (anchorRectangle selection) := by
  unfold gdl_alignments_invalidate edgeFlags
  cases ht : hasMargin nodes MARGIN_TOP <;> cases hb : hasMargin nodes MARGIN_BOTTOM <;>
    cases hl : hasMargin nodes MARGIN_LEFT <;> cases hr : hasMargin nodes MARGIN_RIGHT <;>
    simp only [List.filter, ht, hb, hl, hr, List.map, if_true, if_false,
      Bool.false_eq_true, List.nil_append, List.cons_append] <;>
    simp [anchorRectangle, MARGIN_TOP, MARGIN_BOTTOM, MARGIN_LEFT, MARGIN_RIGHT]

/-- C26 (amended): hover in align territory. On a motion event with activity
None, a selection under edit, `node_over` different from the margin set at the
pointer, and either the activity at the pointer being Alignments or the pointer
mode being AlignEdit, the anchor rectangles invalidated are those of the edges
in the old `node_over` or in the new margin set (their union), and `node_over`
is then the new margin set. -/
theorem hover_invalidates_union (env : Env) (priv : Session) (ev : GdkEventMotion)
    (child : Child) (w : Widget) (hchild : env.child = some child)
    (hdrag : ¬ (ev.button1 = true ∧ priv.drag_source.isSome = true ∧
      env.drag_threshold = true))
    (hidle : priv.activity = ACTIVITY_NONE) (hsel : priv.selection = some w)
    (hdiff : priv.node_over ≠ gdl_get_margins_from_pointer w ev.x ev.y)
    (halign : (gdl_get_activity_from_pointer priv ev.x ev.y).1 = ACTIVITY_ALIGNMENTS ∨
      priv.pointer_mode = GLADE_POINTER_ALIGN_EDIT) :
    (glade_design_layout_motion_notify_event env priv ev).invalidated =
        some (Invalidation.region
          (priv.node_over ||| gdl_get_margins_from_pointer w ev.x ev.y)
          ((edgeFlags.filter fun flag =>
            hasMargin priv.node_over flag ||
              hasMargin (gdl_get_margins_from_pointer w ev.x ev.y) flag).map
            (anchorRectangle w))) ∧
      (glade_design_layout_motion_notify_event env priv ev).priv.node_over
        = gdl_get_margins_from_pointer w ev.x ev.y := by
  have hset : ∀ (p : Session) (c : Option GdkCursor),
      (gdl_set_cursor p c).node_over = p.node_over := by
    intro p c
    unfold gdl_set_cursor
    split_ifs <;> rfl
  simp only [glade_design_layout_motion_notify_event, hchild, hdrag, hidle, if_false,
    motionHover, hset]
  simp only [gdl_get_activity_from_pointer, hsel] at halign ⊢
  by_cases hm : gdl_get_margins_from_pointer w ev.x ev.y = 0
  · simp only [hm, ne_eq, not_true_eq_false, if_false] at halign ⊢
    rw [hm] at hdiff
    have hmode : priv.pointer_mode = GLADE_POINTER_ALIGN_EDIT := by
      rcases halign with h | h
      · exfalso
        revert h
        unfold resizeActivityFromPointer
        split_ifs <;> simp
      · exact h
    simp [hdiff, hmode, gdl_alignments_invalidate_eq, hasMargin_zero]
  · simp only [hm, ne_eq, not_false_eq_true, if_true] at halign ⊢
    have hmode : priv.pointer_mode = GLADE_POINTER_ALIGN_EDIT := by
      rcases halign with h | h
      · by_contra hc
        simp [hc] at h
      · exact h
    simp [hdiff, hmode, gdl_alignments_invalidate_eq, hasMargin_or]

/-- Witness for C26: the pointer moves from the top anchor of `sampleWidget` to
its top-left corner. -/
theorem hover_invalidates_union_witness :
    (glade_design_layout_motion_notify_event sampleEnv topHoverSession
        topLeftHover).invalidated =
        some (Invalidation.region 5
          [{ x := 50, y := 20, width := 16, height := 16 },
            { x := 22, y := 30, width := 16, height := 16 }]) ∧
      (glade_design_layout_motion_notify_event sampleEnv topHoverSession
        topLeftHover).priv.node_over = 5 :=
  hover_invalidates_union sampleEnv topHoverSession topLeftHover
    { allocation := { x := 0, y := 0, width := 200, height := 100 }
      requisition := { width := 200, height := 100 } }
    sampleWidget rfl (by decide) rfl rfl (by decide) (Or.inr rfl)

/-- Counterexample for C26 as stated: when the pointer moves from the top anchor
(`node_over` = Top) to the top-left corner (margin set Top and Left), only Left
is in exactly one of the two sets, yet the rectangle of the top anchor is
invalidated too. -/
theorem hover_invalidates_counterexample :
    topHoverSession.activity = ACTIVITY_NONE ∧
      topHoverSession.selection = some sampleWidget ∧
      topHoverSession.pointer_mode = GLADE_POINTER_ALIGN_EDIT ∧
      topHoverSession.node_over = MARGIN_TOP ∧
      gdl_get_margins_from_pointer sampleWidget topLeftHover.x topLeftHover.y
        = MARGIN_TOP ||| MARGIN_LEFT ∧
      (edgeFlags.filter fun flag =>
        hasMargin topHoverSession.node_over flag !=
          hasMargin (gdl_get_margins_from_pointer sampleWidget topLeftHover.x
            topLeftHover.y) flag) = [MARGIN_LEFT] ∧
      (glade_design_layout_motion_notify_event sampleEnv topHoverSession
          topLeftHover).invalidated =
        some (Invalidation.region (MARGIN_TOP ||| MARGIN_LEFT)
          [anchorRectangle sampleWidget MARGIN_TOP,
            anchorRectangle sampleWidget MARGIN_LEFT]) ∧
      anchorRectangle sampleWidget MARGIN_TOP ≠ anchorRectangle sampleWidget MARGIN_LEFT := by
  decide

/-! ## Theorems: coordinate translation -/

theorem bitLengthAux_bounds (fuel n : Nat) (h : n ≤ fuel) :
    n < 2 ^ bitLengthAux fuel n ∧ (n ≠ 0 → 2 ^ (bitLengthAux fuel n - 1) ≤ n) := by
  induction fuel generalizing n with
  | zero =>
    have h0 : n = 0 := by omega
    subst h0
    simp [bitLengthAux]
  | succ fuel ih =>
    by_cases h0 : n = 0
    · subst h0
      simp [bitLengthAux]
    · obtain ⟨i1, i2⟩ := ih (n / 2) (by omega)
      simp only [bitLengthAux, h0, if_false, Nat.add_sub_cancel]
      refine ⟨?_, fun _ => ?_⟩
      · rw [pow_succ]
        omega
      · by_cases h2 : n / 2 = 0
        · have h1 : n = 1 := by omega
          subst h1
          cases fuel <;> simp [bitLengthAux]
        · have i3 := i2 h2
          have hk : bitLengthAux fuel (n / 2) ≠ 0 := by
            intro hc
            rw [hc] at i1
            omega
          obtain ⟨k, hk2⟩ := Nat.exists_eq_succ_of_ne_zero hk
          rw [hk2] at i3 ⊢
          simp only [Nat.succ_eq_add_one, Nat.add_sub_cancel] at i3
          rw [pow_succ]
          omega

theorem bitLength_bounds (n : Nat) :
    n < 2 ^ bitLength n ∧ (n ≠ 0 → 2 ^ (bitLength n - 1) ≤ n) :=
  bitLengthAux_bounds n n (Nat.le_refl n)

theorem roundBinary64_of_lt (m : Int) (h : m.natAbs < 2 ^ 53) : roundBinary64 m = m := by
  have hlen : bitLength m.natAbs ≤ 53 := by
    by_cases h0 : m.natAbs = 0
    · rw [h0]
      decide
    · have h1 := (bitLength_bounds m.natAbs).2 h0
      have h2 : 2 ^ (bitLength m.natAbs - 1) < 2 ^ 53 := lt_of_le_of_lt h1 h
      have h3 := (Nat.pow_lt_pow_iff_right (by decide : 1 < 2)).mp h2
      omega
  simp only [roundBinary64, hlen, if_true]

theorem roundBinary64_near (m : Int) :
    (2 ^ (bitLength m.natAbs - 53) : Int) ∣ roundBinary64 m ∧
      2 * (m - roundBinary64 m).natAbs ≤ 2 ^ (bitLength m.natAbs - 53) := by
  by_cases hlen : bitLength m.natAbs ≤ 53
  · have hs : bitLength m.natAbs - 53 = 0 := by omega
    simp [roundBinary64, hlen, hs]
  · obtain ⟨s, hs⟩ : ∃ s, bitLength m.natAbs - 53 = s + 1 :=
      ⟨bitLength m.natAbs - 53 - 1, by omega⟩
    simp only [roundBinary64, hlen, if_false, hs, Nat.add_sub_cancel]
    have hdiv := Nat.div_add_mod m.natAbs (2 ^ (s + 1))
    have hmod := Nat.mod_lt m.natAbs (Nat.two_pow_pos (s + 1))
    generalize m.natAbs / 2 ^ (s + 1) = q0 at hdiv ⊢
    generalize m.natAbs % 2 ^ (s + 1) = r at hdiv hmod ⊢
    constructor
    · generalize (if r > 2 ^ s ∨ r = 2 ^ s ∧ q0 % 2 = 1 then q0 + 1 else q0) = q
      have hd : ((2 : Int) ^ (s + 1)) ∣ ((q * 2 ^ (s + 1) : Nat) : Int) :=
        ⟨q, by push_cast; ring⟩
      split_ifs
      · exact hd.neg_right
      · exact hd
    · have hP : (2 : Nat) ^ (s + 1) = 2 * 2 ^ s := by rw [pow_succ]; omega
      rw [hP] at hdiv hmod ⊢
      generalize (2 : Nat) ^ s = H at hmod hdiv ⊢
      generalize hq : q0 * (2 * H) = qp at hdiv
      have hq1 : (q0 + 1) * (2 * H) = qp + 2 * H := by rw [← hq]; ring
      have hz : (2 * H) * q0 = qp := by rw [← hq]; ring
      rw [hz] at hdiv
      split_ifs with c1 c2 c2 <;> simp only [hq, hq1] <;> omega

theorem to_child_binary64_value (priv : Session) (x y : Binary64)
    (hx : roundBinary64 (x.mantissa - priv.child_offset * 2 ^ x.scale)
      = x.mantissa - priv.child_offset * 2 ^ x.scale)
    (hy : roundBinary64 (y.mantissa - priv.child_offset * 2 ^ y.scale)
      = y.mantissa - priv.child_offset * 2 ^ y.scale) :
    ((to_child_binary64 priv x y).1.value, (to_child_binary64 priv x y).2.value)
      = to_child priv x.value y.value := by
  simp only [to_child_binary64, to_child, Binary64.value, hx, hy, Prod.mk.injEq]
  constructor <;> · push_cast; field_simp; ring

/-- C21 (amended): `to_child` and `to_parent` are translations by
-child_offset and +child_offset on both axes. In exact arithmetic they are
mutually inverse at every point. As computed on `double`, with each result
rounded, they are mutually inverse at every point whose first translation is
exact, that is, has a representable result: to_parent(to_child(p)) = p when
both coordinates of p minus the offset are representable, and
to_child(to_parent(p)) = p when both coordinates plus the offset are. -/
theorem translation_round_trip (priv : Session) (p q : ℚ) (x y : Binary64)
    (hx : roundBinary64 x.mantissa = x.mantissa)
    (hy : roundBinary64 y.mantissa = y.mantissa) :
    to_child priv p q = (p - priv.child_offset, q - priv.child_offset) ∧
      to_parent priv p q = (p + priv.child_offset, q + priv.child_offset) ∧
      to_parent priv (to_child priv p q).1 (to_child priv p q).2 = (p, q) ∧
      to_child priv (to_parent priv p q).1 (to_parent priv p q).2 = (p, q) ∧
      (roundBinary64 (x.mantissa - priv.child_offset * 2 ^ x.scale)
          = x.mantissa - priv.child_offset * 2 ^ x.scale →
        roundBinary64 (y.mantissa - priv.child_offset * 2 ^ y.scale)
          = y.mantissa - priv.child_offset * 2 ^ y.scale →
        to_parent_binary64 priv (to_child_binary64 priv x y).1 (to_child_binary64 priv x y).2
          = (x, y)) ∧
      (roundBinary64 (x.mantissa + priv.child_offset * 2 ^ x.scale)
          = x.mantissa + priv.child_offset * 2 ^ x.scale →
        roundBinary64 (y.mantissa + priv.child_offset * 2 ^ y.scale)
          = y.mantissa + priv.child_offset * 2 ^ y.scale →
        to_child_binary64 priv (to_parent_binary64 priv x y).1
          (to_parent_binary64 priv x y).2 = (x, y)) := by
  refine ⟨rfl, rfl, by simp [to_parent, to_child], by simp [to_parent, to_child], ?_, ?_⟩
  · intro ex ey
    simp only [to_parent_binary64, to_child_binary64, ex, ey, sub_add_cancel, hx, hy]
  · intro ex ey
    simp only [to_parent_binary64, to_child_binary64, ex, ey, add_sub_cancel_right, hx, hy]

/-- Witness for C21: the point (100.5, 62) under child offset 16. -/
theorem translation_round_trip_witness :
    to_child_binary64 sampleSession halfPixelBinary64 pixelBinary64
        = ({ mantissa := 169, scale := 1 }, { mantissa := 46, scale := 0 }) ∧
      to_parent_binary64 sampleSession
          (to_child_binary64 sampleSession halfPixelBinary64 pixelBinary64).1
          (to_child_binary64 sampleSession halfPixelBinary64 pixelBinary64).2
        = (halfPixelBinary64, pixelBinary64) :=
  ⟨by decide,
    (translation_round_trip sampleSession 0 0 halfPixelBinary64 pixelBinary64 (by decide)
      (by decide)).2.2.2.2.1 (by decide) (by decide)⟩

/-- Counterexample for C21 as stated: under child offset 16 the point whose
coordinates are the `double` 0.1 (3602879701896397 / 2 ^ 55) is mapped by
`to_child` to -572857872601527104 / 2 ^ 55, the rounded difference, and back by
`to_parent` to 3602879701896384 / 2 ^ 55 = 0.09999999999999964, not to 0.1. -/
theorem translation_round_trip_counterexample :
    sampleSession.child_offset = 16 ∧
      roundBinary64 tenthBinary64.mantissa = tenthBinary64.mantissa ∧
      to_child_binary64 sampleSession tenthBinary64 tenthBinary64
        = ({ mantissa := -572857872601527104, scale := 55 },
            { mantissa := -572857872601527104, scale := 55 }) ∧
      to_parent_binary64 sampleSession
          (to_child_binary64 sampleSession tenthBinary64 tenthBinary64).1
          (to_child_binary64 sampleSession tenthBinary64 tenthBinary64).2
        = ({ mantissa := 3602879701896384, scale := 55 },
            { mantissa := 3602879701896384, scale := 55 }) ∧
      to_parent_binary64 sampleSession
          (to_child_binary64 sampleSession tenthBinary64 tenthBinary64).1
          (to_child_binary64 sampleSession tenthBinary64 tenthBinary64).2
        ≠ (tenthBinary64, tenthBinary64) := by
  decide

end GladeDesignLayout
